import Mathlib

/-
Verification of the table-synchronization engine in sync-ppt-with-excel.py.

The script reconciles rows of an Excel sheet against tables embedded in a
PowerPoint deck: it updates matching rows in place, appends unmatched records
by rebuilding the target table with one extra row, and paginates onto a new
slide when the target table reaches a fixed body-row capacity.

The embedding below mirrors the source function sync_excel_to_ppt and its
nested helpers.  Python strings become Lean String; str.strip() and
str.lower() are modelled over the underlying character list; a cell text
write resets the runs of the cell, hence clears its font style; a failing
column-width read is modelled by a none entry in the colWidthRead list of a
table, and a failing column-width write by an oracle rf : Nat -> Bool passed
to the functions that contain the corresponding try/except blocks.
-/

set_option maxRecDepth 10000

namespace SyncPPT

/-- Characters removed by python str.strip(): space, tab, newline, carriage
return, vertical tab, form feed. -/
def pyIsSpace (ch : Char) : Bool :=
  ch == ' ' || ch == '\t' || ch == '\n' || ch == '\r' || ch.toNat == 11 || ch.toNat == 12

/-- Strip leading and trailing whitespace from a character list. -/
def stripChars (l : List Char) : List Char :=
  ((l.dropWhile pyIsSpace).reverse.dropWhile pyIsSpace).reverse

/-- Model of python str.strip(). -/
def pstrip (s : String) : String := String.mk (stripChars s.data)

/-- Model of python str.lower() (ASCII letters). -/
def plower (s : String) : String := String.mk (s.data.map Char.toLower)

-- === STYLE CONSTANTS (from the source) ===

def FONT_NAME : String := "Calibri"

def FONT_SIZE : Nat := 11

def HEADER_BOLD : Bool := true

def BODY_BOLD : Bool := false

/-- Max number of body rows (excluding header) allowed per slide table before
creating a new slide. -/
def MAX_BODY_ROWS : Nat := 8

def required_ppt_cols : List String :=
  ["AI Tool", "Tool Description", "Requestor", "Current State"]

/-- Font attributes applied by set_cell_style to every run of a cell. -/
structure FontStyle where
  name : String
  size : Nat
  bold : Bool
deriving Repr, DecidableEq

/-- A table cell: its text plus the font style of its runs.  none models a
cell whose runs still carry the default template formatting (a python-pptx
cell.text assignment replaces all runs, so a text write clears the style). -/
structure Cell where
  text : String
  style : Option FontStyle
deriving Repr, DecidableEq

/-- Apply consistent font styling to a cell.  Mirrors set_cell_style, which
walks every paragraph and run of the cell and sets name, size and bold. -/
def set_cell_style (c : Cell) (is_header : Bool) : Cell :=
  { c with style := some ⟨FONT_NAME, FONT_SIZE, if is_header then HEADER_BOLD else BODY_BOLD⟩ }

/-- A table: a grid of cells (row major, row 0 is the header), the column
count as reported by len(table.columns), and per column the result of reading
table.columns[c].width (none models a read that raises).  degenerate models a
table object on which len(table.rows) or len(table.columns) raises. -/
structure Table where
  degenerate : Bool
  cols : Nat
  grid : List (List Cell)
  colWidthRead : List (Option Int)
deriving Repr, DecidableEq

def dfltCell : Cell := { text := "", style := none }

def dfltTable : Table := { degenerate := true, cols := 0, grid := [], colWidthRead := [] }

/-- table.cell(r, c).  Out-of-range access never occurs on the paths the
source exercises, so a default cell keeps the function total. -/
def Table.cell (t : Table) (r c : Nat) : Cell := (t.grid.getD r []).getD c dfltCell

def Table.modifyCell (t : Table) (r c : Nat) (f : Cell → Cell) : Table :=
  { t with grid := t.grid.set r ((t.grid.getD r []).set c (f (t.cell r c))) }

/-- cell.text = s: replaces the paragraphs and runs, clearing the style. -/
def Table.setCellText (t : Table) (r c : Nat) (s : String) : Table :=
  t.modifyCell r c (fun _ => { text := s, style := none })

/-- set_cell_style(table.cell(r, c), is_header). -/
def Table.styleCell (t : Table) (r c : Nat) (is_header : Bool) : Table :=
  t.modifyCell r c (fun cl => set_cell_style cl is_header)

/-- table.columns[c].width = w. -/
def Table.setColWidth (t : Table) (c : Nat) (w : Int) : Table :=
  { t with colWidthRead := t.colWidthRead.set c (some w) }

/-- A shape either carries a table or does not (has_table false). -/
inductive ShapeKind where
  | plain : ShapeKind
  | table : Table → ShapeKind
deriving Repr, DecidableEq

/-- A slide shape with its bounding-box geometry in EMU. -/
structure Shape where
  kind : ShapeKind
  left : Int
  top : Int
  width : Int
  height : Int
deriving Repr, DecidableEq

def dfltShape : Shape := { kind := ShapeKind.plain, left := 0, top := 0, width := 0, height := 0 }

def Shape.hasTable (sh : Shape) : Bool :=
  match sh.kind with
  | ShapeKind.plain => false
  | ShapeKind.table _ => true

def Shape.tbl (sh : Shape) : Table :=
  match sh.kind with
  | ShapeKind.plain => dfltTable
  | ShapeKind.table t => t

/-- A slide layout; add_slide clones its placeholder shapes onto the new
slide. -/
structure SlideLayout where
  placeholders : List Shape
deriving Repr, DecidableEq

/-- An ordered sequence of shapes plus the layout the slide was made from. -/
structure Slide where
  layout : SlideLayout
  shapes : List Shape
deriving Repr, DecidableEq

def dfltSlide : Slide := { layout := { placeholders := [] }, shapes := [] }

def getSlide (pres : List Slide) (s : Nat) : Slide := pres.getD s dfltSlide

def getShape (pres : List Slide) (s i : Nat) : Shape := (getSlide pres s).shapes.getD i dfltShape

def getTbl (pres : List Slide) (s i : Nat) : Table := (getShape pres s i).tbl

/-- Replace the table held by shape i of slide s. -/
def setTbl (pres : List Slide) (s i : Nat) (t : Table) : List Slide :=
  let sl := getSlide pres s
  pres.set s { sl with shapes := sl.shapes.set i { sl.shapes.getD i dfltShape with kind := ShapeKind.table t } }

/-- slide.shapes.add_table(rows, cols, left, top, width, height): a fresh
table with empty unstyled cells and the overall width distributed evenly
over the columns. -/
def add_table (rows cols : Nat) (left top width height : Int) : Shape :=
  { kind := ShapeKind.table
      { degenerate := false,
        cols := cols,
        grid := List.replicate rows (List.replicate cols dfltCell),
        colWidthRead := List.replicate cols (some (width / (cols : Int))) },
    left := left, top := top, width := width, height := height }

/-- Return the trimmed header list, or none if the table is not a valid
qualifying table.  Mirrors _table_headers_and_indices: the try/except around
len(table.rows) and len(table.columns) is the degenerate check; the index
map it also returns is recovered by hdrIdx below, matching hdrs.index(col). -/
def _table_headers_and_indices (t : Table) : Option (List String) :=
  if t.degenerate then none
  else if t.grid.length == 0 || t.cols == 0 then none
  else
    let hdrs := (List.range t.cols).map (fun c => pstrip (t.cell 0 c).text)
    if required_ppt_cols.all (fun col => hdrs.contains col) then some hdrs else none

/-- hdrs.index(name): index of the first occurrence. -/
def hdrIdx (hdrs : List String) (name : String) : Nat := hdrs.findIdx (fun h => h == name)

/-- dict.get(k, ""): first value bound to k, or the empty string. -/
def lookupD (m : List (String × String)) (k : String) : String :=
  match m.find? (fun p => p.fst == k) with
  | some p => p.snd
  | none => ""

/-- The width-capture loop of the rebuild and pagination helpers: a single
try wraps the whole loop, so one failing read discards every width. -/
def captureWidths (t : Table) : Option (List Int) :=
  (List.range t.cols).mapM (fun c => t.colWidthRead.getD c none)

/-- The per-column width-restore loop of _append_row_by_rebuilding: each
write sits in its own try/except, modelled by the oracle rf. -/
def restoreWidths (rf : Nat → Bool) (cols : Nat) (ws : List Int) (t0 : Table) : Table :=
  (List.range cols).foldl (fun tAcc c => if rf c then tAcc else tAcc.setColWidth c (ws.getD c 0)) t0

/-- The restore-texts-and-styles loop of _append_row_by_rebuilding. -/
def fillCells (grid : List (List String)) (rows cols : Nat) (t0 : Table) : Table :=
  (List.range rows).foldl (fun tAcc r =>
    (List.range cols).foldl (fun tAcc2 c =>
      (tAcc2.setCellText r c ((grid.getD r []).getD c "")).styleCell r c (r == 0)) tAcc) t0

/-- Rebuild the table held by shape shapeIdx of the slide with one more row,
appending a row taken from values_by_header keyed by the trimmed current
headers.  Returns the new slide together with the index of the new shape
(add_table appends it at the end of the shape list, after the old shape has
been removed).  Mirrors _append_row_by_rebuilding. -/
def _append_row_by_rebuilding (rf : Nat → Bool) (slide : Slide) (shapeIdx : Nat)
    (values_by_header : List (String × String)) : Slide × Nat :=
  let table_shape := slide.shapes.getD shapeIdx dfltShape
  let table := table_shape.tbl
  let rows := table.grid.length
  let cols := table.cols
  let grid := (List.range rows).map (fun r => (List.range cols).map (fun c => (table.cell r c).text))
  let hdrs := (List.range cols).map (fun c => pstrip (table.cell 0 c).text)
  let new_row := (List.range cols).map (fun c => lookupD values_by_header (hdrs.getD c ""))
  let grid2 := grid ++ [new_row]
  let shapes2 := slide.shapes.eraseIdx shapeIdx
  let new_shape := add_table (rows + 1) cols table_shape.left table_shape.top table_shape.width table_shape.height
  let nt1 := match captureWidths table with
    | some ws => if ws.isEmpty then new_shape.tbl else restoreWidths rf cols ws new_shape.tbl
    | none => new_shape.tbl
  let nt2 := fillCells grid2 (rows + 1) cols nt1
  ({ slide with shapes := shapes2 ++ [{ new_shape with kind := ShapeKind.table nt2 }] }, shapes2.length)

/-- Create a new slide (same layout as the source slide, so its placeholder
shapes are cloned) holding a fresh one-row table with the trimmed headers,
geometry and (best-effort) column widths of the source shape.  Returns the
new presentation, the index of the new slide and the index of the new shape.
Mirrors _start_new_slide_with_table. -/
def _start_new_slide_with_table (rf : Nat → Bool) (pres : List Slide) (srcSlideIdx srcShapeIdx : Nat) :
    List Slide × Nat × Nat :=
  let src_slide := getSlide pres srcSlideIdx
  let base_slide : Slide := { layout := src_slide.layout, shapes := src_slide.layout.placeholders }
  let src_shape := src_slide.shapes.getD srcShapeIdx dfltShape
  let src_table := src_shape.tbl
  let cols := src_table.cols
  let hdrs := (List.range cols).map (fun c => pstrip (src_table.cell 0 c).text)
  let col_widths := captureWidths src_table
  let new_shape := add_table 1 cols src_shape.left src_shape.top src_shape.width src_shape.height
  let nt := (List.range cols).foldl (fun tAcc c =>
      let tAcc1 := tAcc.setCellText 0 c (hdrs.getD c "")
      let tAcc2 := tAcc1.styleCell 0 c true
      match col_widths with
      | some ws => if ws.isEmpty then tAcc2 else (if rf c then tAcc2 else tAcc2.setColWidth c (ws.getD c 0))
      | none => tAcc2) new_shape.tbl
  let new_slide := { base_slide with shapes := base_slide.shapes ++ [{ new_shape with kind := ShapeKind.table nt }] }
  (pres ++ [new_slide], pres.length, base_slide.shapes.length)

/-- One row of the Excel sheet, with the four required columns. -/
structure ExcelRow where
  tool : String
  serviceUseCase : String
  requestor : String
  status : String
deriving Repr, DecidableEq

/-- The cached target references: target_slide / target_slide_idx collapse to
slideIdx (slides are only appended, so the index of a slide never moves),
shapeIdx tracks target_shape and tableShapeIdx the shape holding
target_table (the two can diverge after a rebuild, because target_shape is
re-resolved by scanning while target_table is the rebuilt table itself). -/
structure TargetRef where
  slideIdx : Nat
  shapeIdx : Nat
  tableShapeIdx : Nat
deriving Repr, DecidableEq

structure SyncState where
  pres : List Slide
  target : Option TargetRef
  updates_made : Nat
  rows_added : Nat
  not_found_before_adding : Nat
deriving Repr, DecidableEq

/-- The header-styling loop run when the first qualifying table is found. -/
def styleHeaderRow (t : Table) : Table :=
  (List.range t.cols).foldl (fun tAcc c => tAcc.styleCell 0 c true) t

/-- current_tool.lower() == tool_name.lower() for body row r. -/
def rowKeyMatches (t : Table) (ki : Nat) (toolName : String) (r : Nat) : Bool :=
  plower (pstrip (t.cell r ki).text) == plower toolName

def findRowAux (t : Table) (ki : Nat) (toolName : String) : List Nat → Option Nat
  | [] => none
  | r :: rest => if rowKeyMatches t ki toolName r then some r else findRowAux t ki toolName rest

/-- range(1, len(table.rows)). -/
def bodyRowIdxs (t : Table) : List Nat := List.range' 1 (t.grid.length - 1)

/-- The row loop of sync_excel_to_ppt: first body row whose key cell matches
the tool name (case-insensitive on stripped text), scanning stops there. -/
def findRow (t : Table) (ki : Nat) (toolName : String) : Option Nat :=
  findRowAux t ki toolName (bodyRowIdxs t)

/-- One conditional cell update: overwrite and re-style only when the
stripped current text differs from the new (already stripped) value;
returns the updated table and the increment of updates_made. -/
def updCell (t : Table) (r c : Nat) (newVal : String) : Table × Nat :=
  if pstrip (t.cell r c).text == newVal then (t, 0)
  else ((t.setCellText r c newVal).styleCell r c false, 1)

/-- The update block run on the first matching row: Tool Description,
Requestor and Current State conditionally, then the AI Tool cell is always
re-styled so the entire row matches. -/
def updateRow (t : Table) (hdrs : List String) (rec : ExcelRow) (r : Nat) : Table × Nat :=
  let p1 := updCell t r (hdrIdx hdrs "Tool Description") (pstrip rec.serviceUseCase)
  let p2 := updCell p1.fst r (hdrIdx hdrs "Requestor") (pstrip rec.requestor)
  let p3 := updCell p2.fst r (hdrIdx hdrs "Current State") (pstrip rec.status)
  (p3.fst.styleCell r (hdrIdx hdrs "AI Tool") false, p1.snd + p2.snd + p3.snd)

/-- Visit one shape during the search: skip shapes without a table and
tables that do not qualify; cache (and header-style) the first qualifying
table; then scan its body rows for the tool and update the first match.
The returned flag is tool_found. -/
def scanShape (st : SyncState) (rec : ExcelRow) (toolName : String) (s i : Nat) :
    SyncState × Bool :=
  let shape := getShape st.pres s i
  if !shape.hasTable then (st, false)
  else
    match _table_headers_and_indices shape.tbl with
    | none => (st, false)
    | some hdrs =>
      let st1 :=
        if st.target.isNone then
          { st with
              pres := setTbl st.pres s i (styleHeaderRow (getTbl st.pres s i)),
              target := some { slideIdx := s, shapeIdx := i, tableShapeIdx := i } }
        else st
      let t := getTbl st1.pres s i
      match findRow t (hdrIdx hdrs "AI Tool") toolName with
      | none => (st1, false)
      | some r =>
        let p := updateRow t hdrs rec r
        ({ st1 with
             pres := setTbl st1.pres s i p.fst,
             updates_made := st1.updates_made + p.snd }, true)

/-- The shape loop of one slide; stops at the first shape where the tool is
found (break out of the shape loop). -/
def scanShapes (rec : ExcelRow) (toolName : String) (s : Nat) :
    SyncState → List Nat → SyncState × Bool
  | st, [] => (st, false)
  | st, i :: rest =>
    let p := scanShape st rec toolName s i
    if p.snd then (p.fst, true) else scanShapes rec toolName s p.fst rest

/-- The slide loop; stops at the first slide where the tool is found (break
out of the slide loop). -/
def scanSlides (rec : ExcelRow) (toolName : String) :
    SyncState → List Nat → SyncState × Bool
  | st, [] => (st, false)
  | st, s :: rest =>
    let p := scanShapes rec toolName s st (List.range (getSlide st.pres s).shapes.length)
    if p.snd then (p.fst, true) else scanSlides rec toolName p.fst rest

/-- If the current target table has reached MAX_BODY_ROWS body rows, start a
new slide with a fresh header-only table and retarget all cached references
to it.  Mirrors _ensure_capacity_or_paginate. -/
def _ensure_capacity_or_paginate (rf : Nat → Bool) (st : SyncState) : SyncState :=
  match st.target with
  | none => st
  | some tg =>
    let body_rows := (getTbl st.pres tg.slideIdx tg.tableShapeIdx).grid.length - 1
    if MAX_BODY_ROWS ≤ body_rows then
      let res := _start_new_slide_with_table rf st.pres tg.slideIdx tg.shapeIdx
      { st with
          pres := res.fst,
          target := some { slideIdx := res.snd.fst, shapeIdx := res.snd.snd, tableShapeIdx := res.snd.snd } }
    else st

/-- The fixed excel-to-ppt column mapping used to fill the appended row. -/
def colValuesFromExcel (toolName : String) (rec : ExcelRow) : List (String × String) :=
  [("AI Tool", toolName), ("Tool Description", pstrip rec.serviceUseCase),
   ("Requestor", pstrip rec.requestor), ("Current State", pstrip rec.status)]

/-- values_by_header: every trimmed header of the target table bound to its
excel value when the header is one of the four mapped names, else "". -/
def valuesByHeader (tgtHdrs : List String) (toolName : String) (rec : ExcelRow) :
    List (String × String) :=
  tgtHdrs.map (fun h => (h, lookupD (colValuesFromExcel toolName rec) h))

/-- The refresh loop after a rebuild: first shape of the slide that has a
qualifying table. -/
def findQualShape (sl : Slide) : Option Nat :=
  (List.range sl.shapes.length).find? (fun i =>
    (sl.shapes.getD i dfltShape).hasTable &&
    (_table_headers_and_indices (sl.shapes.getD i dfltShape).tbl).isSome)

/-- The add-missing-tool branch: paginate if the target is full, build the
values dictionary from the target-table headers, rebuild with one extra row,
then refresh the cached shape reference (keeping the old one when no
qualifying shape is found, as the source does; that fallback is unreachable
because the rebuilt table qualifies again). -/
def appendRecord (rf : Nat → Bool) (st0 : SyncState) (rec : ExcelRow) (toolName : String) :
    SyncState :=
  let st := _ensure_capacity_or_paginate rf st0
  match st.target with
  | none => st
  | some tg =>
    let tt := getTbl st.pres tg.slideIdx tg.tableShapeIdx
    let tgtHdrs := (List.range tt.cols).map (fun c => pstrip (tt.cell 0 c).text)
    let vals := valuesByHeader tgtHdrs toolName rec
    let pr := _append_row_by_rebuilding rf (getSlide st.pres tg.slideIdx) tg.shapeIdx vals
    let pres2 := st.pres.set tg.slideIdx pr.fst
    let shapeIdx2 := (findQualShape pr.fst).getD tg.shapeIdx
    { st with
        pres := pres2,
        target := some { slideIdx := tg.slideIdx, shapeIdx := shapeIdx2, tableShapeIdx := pr.snd },
        rows_added := st.rows_added + 1,
        updates_made := st.updates_made + 4 }

/-- Process one excel record: skip records whose stripped key is empty,
otherwise search all slides; on a miss count it as not found and, when
enabled and a target is cached, append it. -/
def processRecord (rf : Nat → Bool) (add_missing_tools : Bool) (st : SyncState) (rec : ExcelRow) :
    SyncState :=
  let toolName := pstrip rec.tool
  if toolName == "" then st
  else
    let p := scanSlides rec toolName st (List.range st.pres.length)
    if p.snd then p.fst
    else
      let st1 := { p.fst with not_found_before_adding := p.fst.not_found_before_adding + 1 }
      if add_missing_tools && st1.target.isSome then appendRecord rf st1 rec toolName
      else st1

/-- The outcome of one run: the in-memory presentation, the counters of the
run summary (total_processed is printed as len(excel_df)), how many times
presentation.save ran, and the persisted file contents (the original file
when no save happened). -/
structure SyncResult where
  pres : List Slide
  updates_made : Nat
  rows_added : Nat
  not_found_before_adding : Nat
  total_processed : Nat
  saves : Nat
  persisted : List Slide
deriving Repr, DecidableEq

/-- The whole run of sync_excel_to_ppt after the excel sheet has been read
into records: fold processRecord over the records, then save once exactly
when updates_made is positive. -/
def sync_excel_to_ppt (rf : Nat → Bool) (records : List ExcelRow) (pres0 : List Slide)
    (add_missing_tools : Bool) : SyncResult :=
  let st := records.foldl (processRecord rf add_missing_tools)
    { pres := pres0, target := none, updates_made := 0, rows_added := 0, not_found_before_adding := 0 }
  { pres := st.pres,
    updates_made := st.updates_made,
    rows_added := st.rows_added,
    not_found_before_adding := st.not_found_before_adding,
    total_processed := records.length,
    saves := if 0 < st.updates_made then 1 else 0,
    persisted := if 0 < st.updates_made then st.pres else pres0 }

/-
Specification-side definitions: the font constants as records, style-erasure
and structural skeletons of a presentation, the pure document-order search
functions mirrored by the scan loops, match counting, and the predicates the
claims quantify over.
-/

/-- The style set_cell_style applies to a header cell. -/
def headerFont : FontStyle := { name := FONT_NAME, size := FONT_SIZE, bold := HEADER_BOLD }

/-- The style set_cell_style applies to a body cell. -/
def bodyFont : FontStyle := { name := FONT_NAME, size := FONT_SIZE, bold := BODY_BOLD }

def Cell.stripStyle (c : Cell) : Cell := { c with style := none }

/-- Forget all cell styles of a table (texts and structure survive). -/
def Table.stripAll (t : Table) : Table :=
  { t with grid := t.grid.map (fun row => row.map Cell.stripStyle) }

def Shape.stripAll (sh : Shape) : Shape :=
  match sh.kind with
  | ShapeKind.plain => sh
  | ShapeKind.table t => { sh with kind := ShapeKind.table t.stripAll }

def Slide.stripAll (sl : Slide) : Slide := { sl with shapes := sl.shapes.map Shape.stripAll }

/-- The style-free view of a presentation: equal views mean equal
structure, texts, geometry and widths; only fonts may differ. -/
def presStrip (pres : List Slide) : List Slide := pres.map Slide.stripAll

/-- Everything about a table except its cell contents. -/
def Table.skel (t : Table) : Bool × Nat × List Nat × List (Option Int) :=
  (t.degenerate, t.cols, t.grid.map List.length, t.colWidthRead)

/-- Everything about a shape except its cell contents. -/
def Shape.skel (sh : Shape) :
    (Int × Int × Int × Int) × Option (Bool × Nat × List Nat × List (Option Int)) :=
  ((sh.left, sh.top, sh.width, sh.height),
   match sh.kind with
   | ShapeKind.plain => none
   | ShapeKind.table t => some t.skel)

def Slide.skel (sl : Slide) :
    SlideLayout × List ((Int × Int × Int × Int) × Option (Bool × Nat × List Nat × List (Option Int))) :=
  (sl.layout, sl.shapes.map Shape.skel)

/-- The structural skeleton of a presentation: everything except cell
contents (texts and styles). -/
def presSkel (pres : List Slide) :
    List (SlideLayout × List ((Int × Int × Int × Int) × Option (Bool × Nat × List Nat × List (Option Int)))) :=
  pres.map Slide.skel

/-- Row counts of every table of every slide, in document order. -/
def rowCounts (pres : List Slide) : List (List Nat) :=
  pres.map (fun sl => sl.shapes.map (fun sh => sh.tbl.grid.length))

/-- First index in the list on which f fires, together with the value. -/
def firstSomeAux (f : Nat → Option α) : List Nat → Option (Nat × α)
  | [] => none
  | i :: rest =>
    match f i with
    | some a => some (i, a)
    | none => firstSomeAux f rest

/-- The headers of shape i of slide s, when it holds a qualifying table. -/
def shapeHeaders (pres : List Slide) (s i : Nat) : Option (List String) :=
  if (getShape pres s i).hasTable then _table_headers_and_indices (getTbl pres s i) else none

/-- The first body row of shape i of slide s matching the tool name. -/
def shapeFindRow (pres : List Slide) (s i : Nat) (toolName : String) : Option Nat :=
  match shapeHeaders pres s i with
  | none => none
  | some hdrs => findRow (getTbl pres s i) (hdrIdx hdrs "AI Tool") toolName

/-- First (shape, row) of slide s matching the tool name, in shape order. -/
def firstMatchInSlide (pres : List Slide) (s : Nat) (toolName : String) : Option (Nat × Nat) :=
  firstSomeAux (fun i => shapeFindRow pres s i toolName)
    (List.range (getSlide pres s).shapes.length)

/-- First (slide, shape, row) matching the tool name, in document order:
the row the scan loops of sync_excel_to_ppt update and stop at. -/
def firstMatch (pres : List Slide) (toolName : String) : Option (Nat × Nat × Nat) :=
  firstSomeAux (fun s => firstMatchInSlide pres s toolName) (List.range pres.length)

/-- First qualifying shape of slide s. -/
def firstQualInSlide (pres : List Slide) (s : Nat) : Option Nat :=
  (List.range (getSlide pres s).shapes.length).find? (fun i => (shapeHeaders pres s i).isSome)

/-- First qualifying (slide, shape) of the document: the table the run
caches as append target and header-styles when first discovered. -/
def firstQualifying (pres : List Slide) : Option (Nat × Nat) :=
  firstSomeAux (fun s => firstQualInSlide pres s) (List.range pres.length)

/-- Number of body rows of shape i of slide s whose key cell matches. -/
def tableMatchCount (pres : List Slide) (s i : Nat) (toolName : String) : Nat :=
  match shapeHeaders pres s i with
  | none => 0
  | some hdrs =>
    ((bodyRowIdxs (getTbl pres s i)).filter
      (fun r => rowKeyMatches (getTbl pres s i) (hdrIdx hdrs "AI Tool") toolName r)).length

def slideMatchCount (pres : List Slide) (s : Nat) (toolName : String) : Nat :=
  ((List.range (getSlide pres s).shapes.length).map
    (fun i => tableMatchCount pres s i toolName)).sum

/-- Number of body rows matching the tool name over all qualifying tables. -/
def matchCount (pres : List Slide) (toolName : String) : Nat :=
  ((List.range pres.length).map (fun s => slideMatchCount pres s toolName)).sum

/-- The three mapped non-key cells of row r of shape i of slide s already
hold the stripped values of the record. -/
def cellsAgreeAt (pres : List Slide) (s i r : Nat) (rec : ExcelRow) : Prop :=
  match shapeHeaders pres s i with
  | none => True
  | some hdrs =>
    pstrip ((getTbl pres s i).cell r (hdrIdx hdrs "Tool Description")).text = pstrip rec.serviceUseCase ∧
    pstrip ((getTbl pres s i).cell r (hdrIdx hdrs "Requestor")).text = pstrip rec.requestor ∧
    pstrip ((getTbl pres s i).cell r (hdrIdx hdrs "Current State")).text = pstrip rec.status

/-- Every matching body row of the document agrees with the record. -/
def allMatchesAgree (pres : List Slide) (rec : ExcelRow) : Prop :=
  ∀ s i r hdrs, shapeHeaders pres s i = some hdrs →
    r ∈ bodyRowIdxs (getTbl pres s i) →
    rowKeyMatches (getTbl pres s i) (hdrIdx hdrs "AI Tool") (pstrip rec.tool) r = true →
    cellsAgreeAt pres s i r rec

/-- A record the document already reflects: empty key, or its first match
agrees with it, or it can never be appended (appending disabled, or no
qualifying table exists anywhere). -/
def recSynced (pres : List Slide) (addM : Bool) (rec : ExcelRow) : Prop :=
  pstrip rec.tool = "" ∨
  (match firstMatch pres (pstrip rec.tool) with
   | some (s, i, r) => cellsAgreeAt pres s i r rec
   | none => addM = false ∨ firstQualifying pres = none)

/-- Every header cell of the table of shape i of slide s carries the header
font. -/
def headerStyledAt (pres : List Slide) (s i : Nat) : Prop :=
  ∀ c, c < (getTbl pres s i).cols → ((getTbl pres s i).cell 0 c).style = some headerFont

/-- The lowered stripped keys of the records that are not skipped. -/
def keysOf (records : List ExcelRow) : List String :=
  (records.filter (fun r => !(pstrip r.tool == ""))).map (fun r => plower (pstrip r.tool))

/-- The text grid captured by the rebuild, extended with the appended row
(spec-side name for the grid2 value inside _append_row_by_rebuilding). -/
def rebuildGrid2 (t : Table) (vals : List (String × String)) : List (List String) :=
  (List.range t.grid.length).map (fun r => (List.range t.cols).map (fun c => (t.cell r c).text)) ++
    [(List.range t.cols).map (fun c => lookupD vals
      (((List.range t.cols).map (fun c2 => pstrip (t.cell 0 c2).text)).getD c ""))]

/-- The table produced by _append_row_by_rebuilding for source table t and
shape width w (the other geometry does not enter the table). -/
def rebuildTable (rf : Nat → Bool) (t : Table) (vals : List (String × String)) (w : Int) : Table :=
  fillCells (rebuildGrid2 t vals) (t.grid.length + 1) t.cols
    (match captureWidths t with
     | some ws =>
       if ws.isEmpty then (add_table (t.grid.length + 1) t.cols 0 0 w 0).tbl
       else restoreWidths rf t.cols ws (add_table (t.grid.length + 1) t.cols 0 0 w 0).tbl
     | none => (add_table (t.grid.length + 1) t.cols 0 0 w 0).tbl)

/-- The header-only table produced by _start_new_slide_with_table for source
table src and shape width w. -/
def paginationTable (rf : Nat → Bool) (src : Table) (w : Int) : Table :=
  (List.range src.cols).foldl (fun tAcc c =>
      let tAcc1 := tAcc.setCellText 0 c
        (((List.range src.cols).map (fun c2 => pstrip (src.cell 0 c2).text)).getD c "")
      let tAcc2 := tAcc1.styleCell 0 c true
      match captureWidths src with
      | some ws => if ws.isEmpty then tAcc2 else (if rf c then tAcc2 else tAcc2.setColWidth c (ws.getD c 0))
      | none => tAcc2) (add_table 1 src.cols 0 0 w 0).tbl

/-- The state after the matched-row update at shape i of slide s (the
in-place write the scan performs when the tool is found). -/
def updStateAt (rec : ExcelRow) (st : SyncState) (s i : Nat) (hdrs : List String) (r : Nat) :
    SyncState :=
  { st with
      pres := setTbl st.pres s i (updateRow (getTbl st.pres s i) hdrs rec r).fst,
      updates_made := st.updates_made + (updateRow (getTbl st.pres s i) hdrs rec r).snd }

/-- The state after the discovery of the first qualifying table at shape i
of slide s: header row styled, target cached. -/
def discState (st : SyncState) (s i : Nat) : SyncState :=
  { st with
      pres := setTbl st.pres s i (styleHeaderRow (getTbl st.pres s i)),
      target := some { slideIdx := s, shapeIdx := i, tableShapeIdx := i } }

/-- Two presentations with the same shape structure, the same qualifying
headers everywhere, and the same key-column texts: the search loops cannot
tell them apart.  Non-key body texts may differ. -/
def presHdrEq (p q : List Slide) : Prop :=
  p.length = q.length ∧
  (∀ s, (getSlide p s).shapes.length = (getSlide q s).shapes.length) ∧
  (∀ s i, (getShape p s i).hasTable = (getShape q s i).hasTable) ∧
  (∀ s i, (getTbl p s i).grid.length = (getTbl q s i).grid.length) ∧
  (∀ s i r, ((getTbl p s i).grid.getD r []).length = ((getTbl q s i).grid.getD r []).length) ∧
  (∀ s i, (getTbl p s i).cols = (getTbl q s i).cols) ∧
  (∀ s i, (getTbl p s i).degenerate = (getTbl q s i).degenerate) ∧
  (∀ s i, shapeHeaders p s i = shapeHeaders q s i) ∧
  (∀ s i hdrs r, shapeHeaders q s i = some hdrs →
    (((getTbl p s i).cell r (hdrIdx hdrs "AI Tool")).text =
      ((getTbl q s i).cell r (hdrIdx hdrs "AI Tool")).text))

/-- Every qualifying table is rectangular (python-pptx guarantees this for
real tables). -/
def rectQ (p : List Slide) : Prop :=
  ∀ s i, (shapeHeaders p s i).isSome = true →
    ∀ r, r < (getTbl p s i).grid.length →
      ((getTbl p s i).grid.getD r []).length = (getTbl p s i).cols

/-- The record is reflected at its first-match position (computed on the
base document pres0) inside the working document p. -/
def syncedRec (pres0 p : List Slide) (rec : ExcelRow) : Prop :=
  ∀ s i r, firstMatch pres0 (pstrip rec.tool) = some (s, i, r) → cellsAgreeAt p s i r rec

/-
Concrete fixtures used by witnesses and counterexamples.
-/

def mkTextCell (s : String) : Cell := { text := s, style := none }

def fixHeaderRow : List Cell :=
  [mkTextCell "AI Tool", mkTextCell "Tool Description", mkTextCell "Requestor", mkTextCell "Current State"]

/-- A qualifying table with one body row. -/
def fixTable : Table :=
  { degenerate := false, cols := 4,
    grid := [fixHeaderRow,
      [mkTextCell "ToolX", mkTextCell "Old", mkTextCell "Bob", mkTextCell "Pending"]],
    colWidthRead := [some 10, some 20, some 30, some 40] }

def fixShape : Shape := { kind := ShapeKind.table fixTable, left := 1, top := 2, width := 100, height := 50 }

def fixSlide : Slide := { layout := { placeholders := [] }, shapes := [fixShape] }

def fixPres : List Slide := [fixSlide]

def fixRec : ExcelRow := { tool := "ToolX", serviceUseCase := "Desc", requestor := "Bob", status := "Approved" }

def fixVals : List (String × String) :=
  [("AI Tool", "ToolY"), ("Tool Description", "D"), ("Requestor", "R"), ("Current State", "S")]

/-- Same table but the width of column 1 cannot be read. -/
def badWidthTable : Table := { fixTable with colWidthRead := [some 10, none, some 30, some 40] }

def badWidthSlide : Slide :=
  { layout := { placeholders := [] },
    shapes := [{ kind := ShapeKind.table badWidthTable, left := 1, top := 2, width := 100, height := 50 }] }

/-- A qualifying table already holding MAX_BODY_ROWS body rows, with padded
header text in the key column. -/
def fullPadTable : Table :=
  { degenerate := false, cols := 4,
    grid := [[mkTextCell " AI Tool ", mkTextCell "Tool Description", mkTextCell "Requestor", mkTextCell "Current State"]] ++
      (List.range MAX_BODY_ROWS).map (fun n =>
        [mkTextCell (toString n), mkTextCell "d", mkTextCell "r", mkTextCell "s"]),
    colWidthRead := [some 10, none, some 30, some 40] }

def fullPadSlide : Slide :=
  { layout := { placeholders := [] },
    shapes := [{ kind := ShapeKind.table fullPadTable, left := 1, top := 2, width := 100, height := 50 }] }

/-- A one-column table whose single body row holds the key Alpha. -/
def alphaTable : Table :=
  { degenerate := false, cols := 1,
    grid := [[mkTextCell "AI Tool"], [mkTextCell "Alpha"]],
    colWidthRead := [some 10] }

/-
Helper lemmas: list access, python string functions, table cell access.
-/

lemma getD_eq (l : List α) (i : Nat) (d : α) : l.getD i d = l[i]?.getD d :=
  List.getD_eq_getElem?_getD l i d

lemma getD_set_self (l : List α) (i : Nat) (a d : α) (h : i < l.length) :
    (l.set i a).getD i d = a := by
  simp [getD_eq, List.getElem?_set_self h]

lemma getD_set_ne (l : List α) {i j : Nat} (a d : α) (h : i ≠ j) :
    (l.set i a).getD j d = l.getD j d := by
  simp [getD_eq, List.getElem?_set_ne h]

lemma getD_len_le (l : List α) {i : Nat} (d : α) (h : l.length ≤ i) : l.getD i d = d := by
  simp [getD_eq, List.getElem?_eq_none h]

lemma getD_map (f : α → β) (l : List α) {i : Nat} (d : β) (d' : α) (h : i < l.length) :
    (l.map f).getD i d = f (l.getD i d') := by
  simp [getD_eq, List.getElem?_map, List.getElem?_eq_getElem h]

lemma getD_range {n i : Nat} (d : Nat) (h : i < n) : (List.range n).getD i d = i := by
  simp [getD_eq, List.getElem?_range h]

lemma getD_replicate (a d : α) {n i : Nat} (h : i < n) :
    (List.replicate n a).getD i d = a := by
  simp [getD_eq, List.getElem?_replicate, h]

lemma getD_append_left (l₁ l₂ : List α) {i : Nat} (d : α) (h : i < l₁.length) :
    (l₁ ++ l₂).getD i d = l₁.getD i d := by
  simp [getD_eq, List.getElem?_append_left h]

lemma getD_append_right (l₁ l₂ : List α) {i : Nat} (d : α) (h : l₁.length ≤ i) :
    (l₁ ++ l₂).getD i d = l₂.getD (i - l₁.length) d := by
  simp [getD_eq, List.getElem?_append_right h]

lemma getD_concat_length (l : List α) (a d : α) : (l ++ [a]).getD l.length d = a := by
  simp [getD_eq, List.getElem?_concat_length]

lemma getD_eraseIdx (l : List α) (i j : Nat) (d : α) :
    (l.eraseIdx i).getD j d = if j < i then l.getD j d else l.getD (j + 1) d := by
  by_cases h : j < i <;> simp [getD_eq, List.getElem?_eraseIdx, h]

lemma dropWhile_dropWhile (p : α → Bool) (l : List α) :
    (l.dropWhile p).dropWhile p = l.dropWhile p := by
  induction l with
  | nil => rfl
  | cons a t ih =>
    by_cases h : p a
    · simpa [List.dropWhile_cons, h] using ih
    · simp [List.dropWhile_cons, h]

lemma dropWhile_eq_cons_head_false {p : α → Bool} {l t : List α} {a : α}
    (h : l.dropWhile p = a :: t) : p a = false := by
  induction l with
  | nil => simp at h
  | cons b u ih =>
    by_cases hb : p b
    · exact ih (by simpa [List.dropWhile_cons, hb] using h)
    · rw [List.dropWhile_cons] at h
      simp [hb] at h
      simp [← h.1, hb]

lemma dropWhile_cons_false {p : α → Bool} {a : α} (l : List α) (h : p a = false) :
    (a :: l).dropWhile p = a :: l := by
  simp [List.dropWhile_cons, h]

lemma stripChars_idem (l : List Char) : stripChars (stripChars l) = stripChars l := by
  unfold stripChars
  rcases hA : l.dropWhile pyIsSpace with _ | ⟨a, A2⟩
  · simp
  · have hpa : pyIsSpace a = false := dropWhile_eq_cons_head_false hA
    have hC : ∃ D : List Char,
        ((a :: A2).reverse).dropWhile pyIsSpace = D ++ [a] := by
      rw [List.reverse_cons, List.dropWhile_append]
      by_cases he : (A2.reverse.dropWhile pyIsSpace).isEmpty
      · exact ⟨[], by simp [he, dropWhile_cons_false _ hpa]⟩
      · exact ⟨A2.reverse.dropWhile pyIsSpace, by simp [he]⟩
    rcases hC with ⟨D, hD⟩
    rw [hD]
    have h1 : (D ++ [a]).reverse = a :: D.reverse := by simp
    rw [h1, dropWhile_cons_false _ hpa]
    have h2 : (a :: D.reverse).reverse = D ++ [a] := by simp
    rw [h2, ← hD, dropWhile_dropWhile, hD, h1]

lemma data_mk (l : List Char) : (String.mk l).data = l := rfl

lemma pstrip_idem (s : String) : pstrip (pstrip s) = pstrip s := by
  unfold pstrip
  rw [data_mk, stripChars_idem]

/-- Table cell access after modifyCell: same position. -/
lemma cell_modifyCell_self (t : Table) (r c : Nat) (f : Cell → Cell)
    (hr : r < t.grid.length) (hc : c < (t.grid.getD r []).length) :
    (t.modifyCell r c f).cell r c = f (t.cell r c) := by
  unfold Table.modifyCell Table.cell
  simp only
  rw [getD_set_self _ _ _ _ hr, getD_set_self _ _ _ _ hc]

/-- Table cell access after modifyCell: any other position is unchanged. -/
lemma cell_modifyCell_ne (t : Table) (r c r' c' : Nat) (f : Cell → Cell)
    (h : r' ≠ r ∨ c' ≠ c) :
    (t.modifyCell r c f).cell r' c' = t.cell r' c' := by
  unfold Table.modifyCell Table.cell
  simp only
  rcases h with h | h
  · rw [getD_set_ne _ _ _ (fun he => h he.symm)]
  · by_cases hr : r' = r
    · subst hr
      by_cases hlt : r' < t.grid.length
      · rw [getD_set_self _ _ _ _ hlt, getD_set_ne _ _ _ (fun he => h he.symm)]
      · rw [List.set_eq_of_length_le (Nat.le_of_not_lt hlt)]
    · rw [getD_set_ne _ _ _ (fun he => hr he.symm)]

lemma grid_length_modifyCell (t : Table) (r c : Nat) (f : Cell → Cell) :
    (t.modifyCell r c f).grid.length = t.grid.length := by
  unfold Table.modifyCell
  simp

lemma row_length_modifyCell (t : Table) (r c r' : Nat) (f : Cell → Cell) :
    ((t.modifyCell r c f).grid.getD r' []).length = (t.grid.getD r' []).length := by
  unfold Table.modifyCell
  simp only
  by_cases hr : r' = r
  · subst hr
    by_cases hlt : r' < t.grid.length
    · rw [getD_set_self _ _ _ _ hlt]
      simp
    · rw [List.set_eq_of_length_le (Nat.le_of_not_lt hlt)]
  · rw [getD_set_ne _ _ _ (fun he => hr he.symm)]

lemma cols_modifyCell (t : Table) (r c : Nat) (f : Cell → Cell) :
    (t.modifyCell r c f).cols = t.cols := rfl

lemma degenerate_modifyCell (t : Table) (r c : Nat) (f : Cell → Cell) :
    (t.modifyCell r c f).degenerate = t.degenerate := rfl

lemma colWidthRead_modifyCell (t : Table) (r c : Nat) (f : Cell → Cell) :
    (t.modifyCell r c f).colWidthRead = t.colWidthRead := rfl

/-
Width restore and cell fill: evaluation lemmas for the loops inside
_append_row_by_rebuilding.
-/

lemma setColWidth_keeps (t0 : Table) (a : Nat) (w : Int) :
    (t0.setColWidth a w).grid = t0.grid ∧ (t0.setColWidth a w).cols = t0.cols ∧
    (t0.setColWidth a w).degenerate = t0.degenerate ∧
    (t0.setColWidth a w).colWidthRead.length = t0.colWidthRead.length := by
  refine ⟨rfl, rfl, rfl, ?_⟩
  simp [Table.setColWidth]

lemma foldl_setColWidth_keeps (rf : Nat → Bool) (ws : List Int) (l : List Nat) (t0 : Table) :
    (l.foldl (fun tAcc c => if rf c then tAcc else tAcc.setColWidth c (ws.getD c 0)) t0).grid = t0.grid ∧
    (l.foldl (fun tAcc c => if rf c then tAcc else tAcc.setColWidth c (ws.getD c 0)) t0).cols = t0.cols ∧
    (l.foldl (fun tAcc c => if rf c then tAcc else tAcc.setColWidth c (ws.getD c 0)) t0).degenerate = t0.degenerate ∧
    (l.foldl (fun tAcc c => if rf c then tAcc else tAcc.setColWidth c (ws.getD c 0)) t0).colWidthRead.length = t0.colWidthRead.length := by
  induction l generalizing t0 with
  | nil => exact ⟨rfl, rfl, rfl, rfl⟩
  | cons a rest ih =>
    simp only [List.foldl_cons]
    set t1 := if rf a then t0 else t0.setColWidth a (ws.getD a 0) with ht1
    have hk : t1.grid = t0.grid ∧ t1.cols = t0.cols ∧ t1.degenerate = t0.degenerate ∧
        t1.colWidthRead.length = t0.colWidthRead.length := by
      by_cases h : rf a
      · simp [ht1, h]
      · rw [ht1, if_neg (by simp [h])]
        exact setColWidth_keeps t0 a _
    rcases ih t1 with ⟨h1, h2, h3, h4⟩
    rcases hk with ⟨k1, k2, k3, k4⟩
    exact ⟨h1.trans k1, h2.trans k2, h3.trans k3, h4.trans k4⟩

lemma foldl_setColWidth_getD (rf : Nat → Bool) (ws : List Int) (l : List Nat) (t0 : Table) (c : Nat) :
    (l.foldl (fun tAcc c2 => if rf c2 then tAcc else tAcc.setColWidth c2 (ws.getD c2 0)) t0).colWidthRead.getD c none =
      if c ∈ l ∧ rf c = false ∧ c < t0.colWidthRead.length
      then some (ws.getD c 0) else t0.colWidthRead.getD c none := by
  induction l generalizing t0 with
  | nil => simp
  | cons a rest ih =>
    simp only [List.foldl_cons]
    set t1 := if rf a then t0 else t0.setColWidth a (ws.getD a 0) with ht1
    rw [ih t1]
    have hlen : t1.colWidthRead.length = t0.colWidthRead.length := by
      by_cases h : rf a
      · simp [ht1, h]
      · rw [ht1, if_neg (by simp [h])]
        exact (setColWidth_keeps t0 a _).2.2.2
    rw [hlen]
    have huntouched : c ≠ a ∨ rf c = true → t1.colWidthRead.getD c none = t0.colWidthRead.getD c none := by
      intro h
      by_cases ha : rf a
      · simp [ht1, ha]
      · rw [ht1, if_neg (by simp [ha])]
        have hca : a ≠ c := by
          rcases h with h | h
          · exact fun he => h he.symm
          · exact fun he => ha (by rw [he]; exact h)
        exact getD_set_ne _ _ _ hca
    by_cases hmem : c ∈ rest
    · by_cases hrf : rf c
      · rw [if_neg (by simp [hrf]), if_neg (by simp [hrf])]
        exact huntouched (Or.inr hrf)
      · by_cases hlt : c < t0.colWidthRead.length
        · rw [if_pos ⟨hmem, by simp [hrf], hlt⟩,
            if_pos ⟨List.mem_cons_of_mem a hmem, by simp [hrf], hlt⟩]
        · rw [if_neg (fun hco => hlt hco.2.2), if_neg (fun hco => hlt hco.2.2)]
          rw [getD_len_le _ _ (by rw [hlen]; exact Nat.le_of_not_lt hlt),
            getD_len_le _ _ (Nat.le_of_not_lt hlt)]
    · by_cases hac : c = a
      · subst hac
        rw [if_neg (fun hco => hmem hco.1)]
        by_cases hrf : rf c
        · rw [if_neg (by simp [hrf])]
          simp [ht1, hrf]
        · by_cases hlt : c < t0.colWidthRead.length
          · rw [if_pos ⟨List.mem_cons_self c rest, by simp [hrf], hlt⟩]
            rw [ht1, if_neg (by simp [hrf])]
            unfold Table.setColWidth
            exact getD_set_self _ _ _ _ hlt
          · rw [if_neg (fun hco => hlt hco.2.2)]
            rw [ht1, if_neg (by simp [hrf])]
            unfold Table.setColWidth
            rw [List.set_eq_of_length_le (Nat.le_of_not_lt hlt)]
      · rw [if_neg (fun hco => hmem hco.1)]
        rw [if_neg (fun hco => by
          rcases List.mem_cons.mp hco.1 with h | h
          · exact hac h
          · exact hmem h)]
        exact huntouched (Or.inl hac)

lemma restoreWidths_keeps (rf : Nat → Bool) (cols : Nat) (ws : List Int) (t0 : Table) :
    (restoreWidths rf cols ws t0).grid = t0.grid ∧
    (restoreWidths rf cols ws t0).cols = t0.cols ∧
    (restoreWidths rf cols ws t0).degenerate = t0.degenerate ∧
    (restoreWidths rf cols ws t0).colWidthRead.length = t0.colWidthRead.length :=
  foldl_setColWidth_keeps rf ws (List.range cols) t0

lemma restoreWidths_getD (rf : Nat → Bool) (cols : Nat) (ws : List Int) (t0 : Table) (c : Nat)
    (hlen : t0.colWidthRead.length = cols) (hc : c < cols) :
    (restoreWidths rf cols ws t0).colWidthRead.getD c none =
      if rf c then t0.colWidthRead.getD c none else some (ws.getD c 0) := by
  unfold restoreWidths
  rw [foldl_setColWidth_getD]
  by_cases hrf : rf c <;> simp [hrf, List.mem_range, hc, hlen]

/-- Evaluation of the inner (one row) loop of fillCells. -/
lemma fillRow_spec (g : List (List String)) (r : Nat) (cols : Nat) (t : Table)
    (hr : r < t.grid.length) (hrow : cols ≤ (t.grid.getD r []).length) :
    (∀ c, c < cols →
      ((List.range cols).foldl (fun tAcc2 c =>
        (tAcc2.setCellText r c ((g.getD r []).getD c "")).styleCell r c (r == 0)) t).cell r c =
      { text := (g.getD r []).getD c "",
        style := some (if r == 0 then headerFont else bodyFont) }) ∧
    (∀ r' c', r' ≠ r →
      ((List.range cols).foldl (fun tAcc2 c =>
        (tAcc2.setCellText r c ((g.getD r []).getD c "")).styleCell r c (r == 0)) t).cell r' c' = t.cell r' c') ∧
    ((List.range cols).foldl (fun tAcc2 c =>
        (tAcc2.setCellText r c ((g.getD r []).getD c "")).styleCell r c (r == 0)) t).grid.length = t.grid.length ∧
    (∀ r', (((List.range cols).foldl (fun tAcc2 c =>
        (tAcc2.setCellText r c ((g.getD r []).getD c "")).styleCell r c (r == 0)) t).grid.getD r' []).length = (t.grid.getD r' []).length) ∧
    ((List.range cols).foldl (fun tAcc2 c =>
        (tAcc2.setCellText r c ((g.getD r []).getD c "")).styleCell r c (r == 0)) t).cols = t.cols ∧
    ((List.range cols).foldl (fun tAcc2 c =>
        (tAcc2.setCellText r c ((g.getD r []).getD c "")).styleCell r c (r == 0)) t).degenerate = t.degenerate ∧
    ((List.range cols).foldl (fun tAcc2 c =>
        (tAcc2.setCellText r c ((g.getD r []).getD c "")).styleCell r c (r == 0)) t).colWidthRead = t.colWidthRead := by
  induction cols with
  | zero => exact ⟨fun c hc => absurd hc (Nat.not_lt_zero c), fun _ _ _ => rfl, rfl, fun _ => rfl, rfl, rfl, rfl⟩
  | succ n ih =>
    rcases ih (Nat.le_trans (Nat.le_succ n) hrow) with ⟨ihc, ihne, ihlen, ihrow, ihcols, ihdeg, ihw⟩
    rw [List.range_succ, List.foldl_append]
    set tn := (List.range n).foldl (fun tAcc2 c =>
        (tAcc2.setCellText r c ((g.getD r []).getD c "")).styleCell r c (r == 0)) t with htn
    have hrn : r < tn.grid.length := by rw [ihlen]; exact hr
    have hrown : n < (tn.grid.getD r []).length := by
      rw [ihrow]; exact Nat.lt_of_lt_of_le (Nat.lt_succ_self n) hrow
    have hstep : ∀ r' c', (r' ≠ r ∨ c' ≠ n) →
        ((tn.setCellText r n ((g.getD r []).getD n "")).styleCell r n (r == 0)).cell r' c' = tn.cell r' c' := by
      intro r' c' h
      unfold Table.setCellText Table.styleCell
      rw [cell_modifyCell_ne _ _ _ _ _ _ h, cell_modifyCell_ne _ _ _ _ _ _ h]
    refine ⟨?_, ?_, ?_, ?_, ?_, ?_, ?_⟩
    · intro c hc
      rcases Nat.lt_succ_iff_lt_or_eq.mp hc with hlt | heq
      · rw [List.foldl_cons, List.foldl_nil, hstep _ _ (Or.inr (Nat.ne_of_lt hlt))]
        exact ihc c hlt
      · subst heq
        rw [List.foldl_cons, List.foldl_nil]
        unfold Table.setCellText Table.styleCell
        have h1 : (tn.modifyCell r c (fun _ => { text := (g.getD r []).getD c "", style := none })).cell r c
            = { text := (g.getD r []).getD c "", style := none } := by
          rw [cell_modifyCell_self _ _ _ _ hrn hrown]
        rw [cell_modifyCell_self _ _ _ _ (by rw [grid_length_modifyCell]; exact hrn)
          (by rw [row_length_modifyCell]; exact hrown), h1]
        by_cases h0 : (r == 0) = true
        · simp [set_cell_style, headerFont, h0, HEADER_BOLD, FONT_NAME, FONT_SIZE]
        · simp [set_cell_style, bodyFont, h0, BODY_BOLD, FONT_NAME, FONT_SIZE]
    · intro r' c' hne
      rw [List.foldl_cons, List.foldl_nil, hstep _ _ (Or.inl hne)]
      exact ihne r' c' hne
    · rw [List.foldl_cons, List.foldl_nil]
      unfold Table.setCellText Table.styleCell
      rw [grid_length_modifyCell, grid_length_modifyCell]
      exact ihlen
    · intro r'
      rw [List.foldl_cons, List.foldl_nil]
      unfold Table.setCellText Table.styleCell
      rw [row_length_modifyCell, row_length_modifyCell]
      exact ihrow r'
    · rw [List.foldl_cons, List.foldl_nil]
      unfold Table.setCellText Table.styleCell
      rw [cols_modifyCell, cols_modifyCell]
      exact ihcols
    · rw [List.foldl_cons, List.foldl_nil]
      unfold Table.setCellText Table.styleCell
      rw [degenerate_modifyCell, degenerate_modifyCell]
      exact ihdeg
    · rw [List.foldl_cons, List.foldl_nil]
      unfold Table.setCellText Table.styleCell
      rw [colWidthRead_modifyCell, colWidthRead_modifyCell]
      exact ihw

/-- Evaluation of the full restore-texts-and-styles loop of the rebuild. -/
lemma fillCells_spec (g : List (List String)) (cols : Nat) :
    ∀ (n : Nat) (t0 : Table), n ≤ t0.grid.length →
      (∀ r', r' < n → cols ≤ (t0.grid.getD r' []).length) →
      (∀ r c, r < n → c < cols →
        (fillCells g n cols t0).cell r c =
          { text := (g.getD r []).getD c "",
            style := some (if r == 0 then headerFont else bodyFont) }) ∧
      (fillCells g n cols t0).grid.length = t0.grid.length ∧
      (∀ r', ((fillCells g n cols t0).grid.getD r' []).length = (t0.grid.getD r' []).length) ∧
      (fillCells g n cols t0).cols = t0.cols ∧
      (fillCells g n cols t0).degenerate = t0.degenerate ∧
      (fillCells g n cols t0).colWidthRead = t0.colWidthRead := by
  intro n
  induction n with
  | zero =>
    intro t0 _ _
    exact ⟨fun r c hr => absurd hr (Nat.not_lt_zero r), rfl, fun _ => rfl, rfl, rfl, rfl⟩
  | succ m ih =>
    intro t0 hn hrow
    rcases ih t0 (Nat.le_trans (Nat.le_succ m) hn)
      (fun r' hr' => hrow r' (Nat.lt_trans hr' (Nat.lt_succ_self m))) with
      ⟨ihc, ihlen, ihrow, ihcols, ihdeg, ihw⟩
    unfold fillCells
    rw [List.range_succ, List.foldl_append, List.foldl_cons, List.foldl_nil]
    have hfold : (List.range m).foldl (fun tAcc r =>
        (List.range cols).foldl (fun tAcc2 c =>
          (tAcc2.setCellText r c ((g.getD r []).getD c "")).styleCell r c (r == 0)) tAcc) t0
        = fillCells g m cols t0 := rfl
    rw [hfold]
    set tm := fillCells g m cols t0 with htm
    have hrm : m < tm.grid.length := by rw [ihlen]; exact hn
    have hrowm : cols ≤ (tm.grid.getD m []).length := by
      rw [ihrow]; exact hrow m (Nat.lt_succ_self m)
    rcases fillRow_spec g m cols tm hrm hrowm with ⟨fc, fne, flen, frow, fcols, fdeg, fw⟩
    refine ⟨?_, ?_, ?_, ?_, ?_, ?_⟩
    · intro r c hr hc
      rcases Nat.lt_succ_iff_lt_or_eq.mp hr with hlt | heq
      · rw [fne r c (Nat.ne_of_lt hlt)]
        exact ihc r c hlt hc
      · subst heq
        exact fc c hc
    · rw [flen, ihlen]
    · intro r'
      rw [frow r', ihrow r']
    · rw [fcols, ihcols]
    · rw [fdeg, ihdeg]
    · rw [fw, ihw]

/-- mapM over the Option monad succeeds with a pointwise-characterised list. -/
lemma mapM_option_spec {β : Type} (f : Nat → Option β) :
    ∀ (l : List Nat) (ws : List β), l.mapM f = some ws →
      ws.length = l.length ∧
      ∀ k (d : β) (dn : Nat), k < l.length → f (l.getD k dn) = some (ws.getD k d) := by
  intro l
  induction l with
  | nil =>
    intro ws h
    rw [← List.mapM'_eq_mapM] at h
    simp only [List.mapM'] at h
    cases h
    exact ⟨rfl, fun k d dn hk => absurd hk (Nat.not_lt_zero k)⟩
  | cons a rest ih =>
    intro ws h
    rw [← List.mapM'_eq_mapM] at h
    simp only [List.mapM'] at h
    rcases Option.bind_eq_some.mp h with ⟨b, hb, h2⟩
    rcases Option.bind_eq_some.mp h2 with ⟨bs, hbs, h3⟩
    rw [List.mapM'_eq_mapM] at hbs
    cases h3
    rcases ih bs hbs with ⟨hlen, hpt⟩
    refine ⟨by simp [hlen], ?_⟩
    intro k d dn hk
    cases k with
    | zero => simpa using hb
    | succ k2 =>
      have hk2 : k2 < rest.length := Nat.lt_of_succ_lt_succ hk
      simpa using hpt k2 d dn hk2

/-- When the width-capture loop succeeds it returns exactly the readable
widths, in column order. -/
lemma captureWidths_spec (t : Table) (ws : List Int) (h : captureWidths t = some ws) :
    ws.length = t.cols ∧
    ∀ c, c < t.cols → t.colWidthRead.getD c none = some (ws.getD c 0) := by
  rcases mapM_option_spec (fun c => t.colWidthRead.getD c none) (List.range t.cols) ws h with ⟨hlen, hpt⟩
  refine ⟨by simpa using hlen, ?_⟩
  intro c hc
  have := hpt c 0 0 (by simpa using hc)
  rwa [getD_range 0 hc] at this

/-- The rebuild in closed form: the old shape is removed, a new shape with
the same geometry and the rebuilt table is appended at the end. -/
lemma rebuild_eq (rf : Nat → Bool) (slide : Slide) (j : Nat) (vals : List (String × String)) :
    _append_row_by_rebuilding rf slide j vals =
      ({ slide with shapes := slide.shapes.eraseIdx j ++
          [{ kind := ShapeKind.table
               (rebuildTable rf (slide.shapes.getD j dfltShape).tbl vals (slide.shapes.getD j dfltShape).width),
             left := (slide.shapes.getD j dfltShape).left,
             top := (slide.shapes.getD j dfltShape).top,
             width := (slide.shapes.getD j dfltShape).width,
             height := (slide.shapes.getD j dfltShape).height }] },
       (slide.shapes.eraseIdx j).length) := rfl

lemma rebuildGrid2_getD_lt (t : Table) (vals : List (String × String)) {r c : Nat}
    (hr : r < t.grid.length) (hc : c < t.cols) :
    ((rebuildGrid2 t vals).getD r []).getD c "" = (t.cell r c).text := by
  unfold rebuildGrid2
  rw [getD_append_left _ _ _ (by simpa using hr),
    getD_map _ _ [] 0 (by simpa using hr), getD_range 0 hr,
    getD_map _ _ "" 0 (by simpa using hc), getD_range 0 hc]

lemma rebuildGrid2_getD_last (t : Table) (vals : List (String × String)) {c : Nat}
    (hc : c < t.cols) :
    ((rebuildGrid2 t vals).getD t.grid.length []).getD c "" =
      lookupD vals (pstrip (t.cell 0 c).text) := by
  unfold rebuildGrid2
  rw [getD_append_right _ _ _ (by simp)]
  simp only [List.length_map, List.length_range, Nat.sub_self]
  rw [show ([(List.range t.cols).map (fun c => lookupD vals
      (((List.range t.cols).map (fun c2 => pstrip (t.cell 0 c2).text)).getD c ""))]).getD 0 [] =
      (List.range t.cols).map (fun c => lookupD vals
      (((List.range t.cols).map (fun c2 => pstrip (t.cell 0 c2).text)).getD c "")) from rfl]
  rw [getD_map _ _ "" 0 (by simpa using hc), getD_range 0 hc,
    getD_map _ _ "" 0 (by simpa using hc), getD_range 0 hc]

/-- Structure, texts, styles and widths of the rebuilt table. -/
lemma rebuildTable_spec (rf : Nat → Bool) (t : Table) (vals : List (String × String)) (w : Int) :
    (rebuildTable rf t vals w).cols = t.cols ∧
    (rebuildTable rf t vals w).degenerate = false ∧
    (rebuildTable rf t vals w).grid.length = t.grid.length + 1 ∧
    (∀ r', r' < t.grid.length + 1 → ((rebuildTable rf t vals w).grid.getD r' []).length = t.cols) ∧
    (∀ r c, r < t.grid.length → c < t.cols →
      (rebuildTable rf t vals w).cell r c =
        { text := (t.cell r c).text, style := some (if r == 0 then headerFont else bodyFont) }) ∧
    (∀ c, c < t.cols →
      (rebuildTable rf t vals w).cell t.grid.length c =
        { text := lookupD vals (pstrip (t.cell 0 c).text),
          style := some (if t.grid.length == 0 then headerFont else bodyFont) }) ∧
    (captureWidths t = none →
      (rebuildTable rf t vals w).colWidthRead = List.replicate t.cols (some (w / (t.cols : Int)))) ∧
    (∀ ws, captureWidths t = some ws → ∀ c, c < t.cols →
      (rebuildTable rf t vals w).colWidthRead.getD c none =
        if rf c then some (w / (t.cols : Int)) else t.colWidthRead.getD c none) := by
  have hbase : (add_table (t.grid.length + 1) t.cols 0 0 w 0).tbl =
      { degenerate := false, cols := t.cols,
        grid := List.replicate (t.grid.length + 1) (List.replicate t.cols dfltCell),
        colWidthRead := List.replicate t.cols (some (w / (t.cols : Int))) } := rfl
  set nt1 := (match captureWidths t with
     | some ws =>
       if ws.isEmpty then (add_table (t.grid.length + 1) t.cols 0 0 w 0).tbl
       else restoreWidths rf t.cols ws (add_table (t.grid.length + 1) t.cols 0 0 w 0).tbl
     | none => (add_table (t.grid.length + 1) t.cols 0 0 w 0).tbl) with hnt1
  have hkeep : nt1.grid = List.replicate (t.grid.length + 1) (List.replicate t.cols dfltCell) ∧
      nt1.cols = t.cols ∧ nt1.degenerate = false := by
    rw [hnt1]
    rcases hcw : captureWidths t with _ | ws
    · simp [hbase]
    · by_cases he : ws.isEmpty
      · simp [he, hbase]
      · dsimp only
        rw [if_neg he]
        rcases restoreWidths_keeps rf t.cols ws (add_table (t.grid.length + 1) t.cols 0 0 w 0).tbl with
          ⟨k1, k2, k3, _⟩
        rw [hbase] at k1 k2 k3
        exact ⟨k1.trans rfl, k2.trans rfl, k3.trans rfl⟩
  have hgl : nt1.grid.length = t.grid.length + 1 := by rw [hkeep.1]; simp
  have hrowlen : ∀ r', r' < t.grid.length + 1 → (nt1.grid.getD r' []).length = t.cols := by
    intro r' hr'
    rw [hkeep.1, getD_replicate _ _ hr']
    simp
  have hrebuild : rebuildTable rf t vals w = fillCells (rebuildGrid2 t vals) (t.grid.length + 1) t.cols nt1 := by
    rw [rebuildTable, hnt1]
  rcases fillCells_spec (rebuildGrid2 t vals) t.cols (t.grid.length + 1) nt1
    (Nat.le_of_eq hgl.symm)
    (fun r' hr' => Nat.le_of_eq (hrowlen r' hr').symm) with
    ⟨fc, flen, frow, fcols, fdeg, fw⟩
  rw [← hrebuild] at fc flen frow fcols fdeg fw
  refine ⟨by rw [fcols, hkeep.2.1], by rw [fdeg, hkeep.2.2], by rw [flen, hgl], ?_, ?_, ?_, ?_, ?_⟩
  · intro r' hr'
    rw [frow r', hrowlen r' hr']
  · intro r c hr hc
    rw [fc r c (Nat.lt_succ_of_lt hr) hc, rebuildGrid2_getD_lt t vals hr hc]
  · intro c hc
    rw [fc t.grid.length c (Nat.lt_succ_self _) hc, rebuildGrid2_getD_last t vals hc]
  · intro hnone
    rw [fw, hnt1, hnone, hbase]
  · intro ws hws c hc
    rcases captureWidths_spec t ws hws with ⟨hwl, hwv⟩
    have hne : ¬ ws.isEmpty = true := by
      intro he
      rw [List.isEmpty_iff] at he
      rw [he] at hwl
      simp only [List.length_nil] at hwl
      rw [← hwl] at hc
      exact Nat.not_lt_zero c hc
    rw [fw, hnt1, hws]
    dsimp only
    rw [if_neg hne]
    have hlen2 : (add_table (t.grid.length + 1) t.cols 0 0 w 0).tbl.colWidthRead.length = t.cols := by
      rw [hbase]; simp
    rw [restoreWidths_getD rf t.cols ws _ c hlen2 hc, hwv c hc]
    by_cases hrf : rf c
    · rw [if_pos hrf, if_pos hrf, hbase]
      exact getD_replicate _ _ hc
    · rw [if_neg hrf, if_neg hrf]

lemma lookupD_not_mem (m : List (String × String)) (k : String)
    (h : ∀ p ∈ m, p.fst ≠ k) : lookupD m k = "" := by
  unfold lookupD
  rw [List.find?_eq_none.mpr (fun p hp => by simp [h p hp])]

/-- Evaluation of the header-and-widths loop of _start_new_slide_with_table. -/
lemma paginationFold_spec (rf : Nat → Bool) (src : Table) (w : Int) :
    ∀ m, m ≤ src.cols →
      (∀ c, c < m →
        ((List.range m).foldl (fun tAcc c =>
          let tAcc1 := tAcc.setCellText 0 c
            (((List.range src.cols).map (fun c2 => pstrip (src.cell 0 c2).text)).getD c "")
          let tAcc2 := tAcc1.styleCell 0 c true
          match captureWidths src with
          | some ws => if ws.isEmpty then tAcc2 else (if rf c then tAcc2 else tAcc2.setColWidth c (ws.getD c 0))
          | none => tAcc2) (add_table 1 src.cols 0 0 w 0).tbl).cell 0 c =
          { text := pstrip (src.cell 0 c).text, style := some headerFont }) ∧
      ((List.range m).foldl (fun tAcc c =>
          let tAcc1 := tAcc.setCellText 0 c
            (((List.range src.cols).map (fun c2 => pstrip (src.cell 0 c2).text)).getD c "")
          let tAcc2 := tAcc1.styleCell 0 c true
          match captureWidths src with
          | some ws => if ws.isEmpty then tAcc2 else (if rf c then tAcc2 else tAcc2.setColWidth c (ws.getD c 0))
          | none => tAcc2) (add_table 1 src.cols 0 0 w 0).tbl).grid.length = 1 ∧
      (∀ r', (((List.range m).foldl (fun tAcc c =>
          let tAcc1 := tAcc.setCellText 0 c
            (((List.range src.cols).map (fun c2 => pstrip (src.cell 0 c2).text)).getD c "")
          let tAcc2 := tAcc1.styleCell 0 c true
          match captureWidths src with
          | some ws => if ws.isEmpty then tAcc2 else (if rf c then tAcc2 else tAcc2.setColWidth c (ws.getD c 0))
          | none => tAcc2) (add_table 1 src.cols 0 0 w 0).tbl).grid.getD r' []).length =
          (((add_table 1 src.cols 0 0 w 0).tbl.grid.getD r' []).length)) ∧
      ((List.range m).foldl (fun tAcc c =>
          let tAcc1 := tAcc.setCellText 0 c
            (((List.range src.cols).map (fun c2 => pstrip (src.cell 0 c2).text)).getD c "")
          let tAcc2 := tAcc1.styleCell 0 c true
          match captureWidths src with
          | some ws => if ws.isEmpty then tAcc2 else (if rf c then tAcc2 else tAcc2.setColWidth c (ws.getD c 0))
          | none => tAcc2) (add_table 1 src.cols 0 0 w 0).tbl).cols = src.cols ∧
      ((List.range m).foldl (fun tAcc c =>
          let tAcc1 := tAcc.setCellText 0 c
            (((List.range src.cols).map (fun c2 => pstrip (src.cell 0 c2).text)).getD c "")
          let tAcc2 := tAcc1.styleCell 0 c true
          match captureWidths src with
          | some ws => if ws.isEmpty then tAcc2 else (if rf c then tAcc2 else tAcc2.setColWidth c (ws.getD c 0))
          | none => tAcc2) (add_table 1 src.cols 0 0 w 0).tbl).degenerate = false ∧
      ((List.range m).foldl (fun tAcc c =>
          let tAcc1 := tAcc.setCellText 0 c
            (((List.range src.cols).map (fun c2 => pstrip (src.cell 0 c2).text)).getD c "")
          let tAcc2 := tAcc1.styleCell 0 c true
          match captureWidths src with
          | some ws => if ws.isEmpty then tAcc2 else (if rf c then tAcc2 else tAcc2.setColWidth c (ws.getD c 0))
          | none => tAcc2) (add_table 1 src.cols 0 0 w 0).tbl).colWidthRead.length = src.cols ∧
      (∀ c, ((List.range m).foldl (fun tAcc c =>
          let tAcc1 := tAcc.setCellText 0 c
            (((List.range src.cols).map (fun c2 => pstrip (src.cell 0 c2).text)).getD c "")
          let tAcc2 := tAcc1.styleCell 0 c true
          match captureWidths src with
          | some ws => if ws.isEmpty then tAcc2 else (if rf c then tAcc2 else tAcc2.setColWidth c (ws.getD c 0))
          | none => tAcc2) (add_table 1 src.cols 0 0 w 0).tbl).colWidthRead.getD c none =
        if c < m then
          (match captureWidths src with
           | some ws => if ws.isEmpty then some (w / (src.cols : Int))
                        else (if rf c then some (w / (src.cols : Int)) else some (ws.getD c 0))
           | none => some (w / (src.cols : Int)))
        else (List.replicate src.cols (some (w / (src.cols : Int)))).getD c none) := by
  have hbase : (add_table 1 src.cols 0 0 w 0).tbl =
      { degenerate := false, cols := src.cols,
        grid := [List.replicate src.cols dfltCell],
        colWidthRead := List.replicate src.cols (some (w / (src.cols : Int))) } := rfl
  intro m
  induction m with
  | zero =>
    intro _
    refine ⟨fun c hc => absurd hc (Nat.not_lt_zero c), rfl, fun r' => rfl, rfl,
      rfl, by simp [hbase], fun c => by rw [if_neg (Nat.not_lt_zero c)]; exact rfl⟩
  | succ n ih =>
    intro hm
    rcases ih (Nat.le_trans (Nat.le_succ n) hm) with ⟨ic, ilen, irow, icols, ideg, iwlen, iw⟩
    rw [List.range_succ, List.foldl_append, List.foldl_cons, List.foldl_nil]
    set tn := (List.range n).foldl (fun tAcc c =>
          let tAcc1 := tAcc.setCellText 0 c
            (((List.range src.cols).map (fun c2 => pstrip (src.cell 0 c2).text)).getD c "")
          let tAcc2 := tAcc1.styleCell 0 c true
          match captureWidths src with
          | some ws => if ws.isEmpty then tAcc2 else (if rf c then tAcc2 else tAcc2.setColWidth c (ws.getD c 0))
          | none => tAcc2) (add_table 1 src.cols 0 0 w 0).tbl with htn
    have hn : n < src.cols := Nat.lt_of_lt_of_le (Nat.lt_succ_self n) hm
    have h0len : 0 < tn.grid.length := by rw [ilen]; exact Nat.one_pos
    have hrowlen : n < (tn.grid.getD 0 []).length := by
      rw [irow 0, hbase]
      simpa using hn
    have hcellstep : ((tn.setCellText 0 n
        (((List.range src.cols).map (fun c2 => pstrip (src.cell 0 c2).text)).getD n "")).styleCell 0 n true).cell 0 n
        = { text := pstrip (src.cell 0 n).text, style := some headerFont } := by
      unfold Table.setCellText Table.styleCell
      rw [cell_modifyCell_self _ _ _ _ (by rw [grid_length_modifyCell]; exact h0len)
        (by rw [row_length_modifyCell]; exact hrowlen)]
      rw [cell_modifyCell_self _ _ _ _ h0len hrowlen]
      rw [getD_map _ _ "" 0 (by simpa using hn), getD_range 0 hn]
      simp [set_cell_style, headerFont, HEADER_BOLD, FONT_NAME, FONT_SIZE]
    have hcellne : ∀ c, c ≠ n → ((tn.setCellText 0 n
        (((List.range src.cols).map (fun c2 => pstrip (src.cell 0 c2).text)).getD n "")).styleCell 0 n true).cell 0 c
        = tn.cell 0 c := by
      intro c hc
      unfold Table.setCellText Table.styleCell
      rw [cell_modifyCell_ne _ _ _ _ _ _ (Or.inr hc), cell_modifyCell_ne _ _ _ _ _ _ (Or.inr hc)]
    set t2 := (tn.setCellText 0 n
        (((List.range src.cols).map (fun c2 => pstrip (src.cell 0 c2).text)).getD n "")).styleCell 0 n true with ht2
    have ht2keep : t2.grid.length = tn.grid.length ∧
        (∀ r', (t2.grid.getD r' []).length = (tn.grid.getD r' []).length) ∧
        t2.cols = tn.cols ∧ t2.degenerate = tn.degenerate ∧ t2.colWidthRead = tn.colWidthRead := by
      rw [ht2]
      unfold Table.setCellText Table.styleCell
      refine ⟨by rw [grid_length_modifyCell, grid_length_modifyCell], fun r' => ?_, rfl, rfl, rfl⟩
      rw [row_length_modifyCell, row_length_modifyCell]
    rcases ht2keep with ⟨k1, k2, k3, k4, k5⟩
    have hstep : ∀ (tz : Table), (match captureWidths src with
          | some ws => if ws.isEmpty then tz else (if rf n then tz else tz.setColWidth n (ws.getD n 0))
          | none => tz).grid = tz.grid ∧
        (match captureWidths src with
          | some ws => if ws.isEmpty then tz else (if rf n then tz else tz.setColWidth n (ws.getD n 0))
          | none => tz).cols = tz.cols ∧
        (match captureWidths src with
          | some ws => if ws.isEmpty then tz else (if rf n then tz else tz.setColWidth n (ws.getD n 0))
          | none => tz).degenerate = tz.degenerate := by
      intro tz
      rcases captureWidths src with _ | ws
      · exact ⟨rfl, rfl, rfl⟩
      · dsimp only
        by_cases he : ws.isEmpty
        · rw [if_pos he]
          exact ⟨rfl, rfl, rfl⟩
        · rw [if_neg he]
          by_cases hrf : rf n
          · rw [if_pos hrf]
            exact ⟨rfl, rfl, rfl⟩
          · rw [if_neg hrf]
            exact ⟨rfl, rfl, rfl⟩
    refine ⟨?_, ?_, ?_, ?_, ?_, ?_, ?_⟩
    · intro c hc
      have hgrid := (hstep t2).1
      have hcell : ∀ c', (match captureWidths src with
          | some ws => if ws.isEmpty then t2 else (if rf n then t2 else t2.setColWidth n (ws.getD n 0))
          | none => t2).cell 0 c' = t2.cell 0 c' := by
        intro c'
        unfold Table.cell
        rw [hgrid]
      rcases Nat.lt_succ_iff_lt_or_eq.mp hc with hlt | heq
      · rw [hcell c, hcellne c (Nat.ne_of_lt hlt)]
        exact ic c hlt
      · subst heq
        rw [hcell c]
        exact hcellstep
    · rw [(hstep t2).1, k1, ilen]
    · intro r'
      have : (match captureWidths src with
          | some ws => if ws.isEmpty then t2 else (if rf n then t2 else t2.setColWidth n (ws.getD n 0))
          | none => t2).grid = t2.grid := (hstep t2).1
      rw [this, k2, irow r']
    · rw [(hstep t2).2.1, k3, icols]
    · rw [(hstep t2).2.2, k4, ideg]
    · have hwl : (match captureWidths src with
          | some ws => if ws.isEmpty then t2 else (if rf n then t2 else t2.setColWidth n (ws.getD n 0))
          | none => t2).colWidthRead.length = t2.colWidthRead.length := by
        rcases captureWidths src with _ | ws
        · rfl
        · dsimp only
          by_cases he : ws.isEmpty
          · rw [if_pos he]
          · rw [if_neg he]
            by_cases hrf : rf n
            · rw [if_pos hrf]
            · rw [if_neg hrf]
              unfold Table.setColWidth
              simp
      rw [hwl, k5, iwlen]
    · intro c
      by_cases hc : c = n
      · subst hc
        have hbw : t2.colWidthRead.getD c none =
            (List.replicate src.cols (some (w / (src.cols : Int)))).getD c none := by
          rw [k5]
          have := iw c
          rw [if_neg (Nat.lt_irrefl c)] at this
          exact this
        have hclt : c < src.cols := hn
        rw [if_pos (Nat.lt_succ_self c)]
        rcases hcw : captureWidths src with _ | ws
        · dsimp only
          rw [hbw, getD_replicate _ _ hclt]
        · dsimp only
          by_cases he : ws.isEmpty
          · rw [if_pos he, if_pos he, hbw, getD_replicate _ _ hclt]
          · rw [if_neg he, if_neg he]
            by_cases hrf : rf c
            · rw [if_pos hrf, if_pos hrf, hbw, getD_replicate _ _ hclt]
            · rw [if_neg hrf, if_neg hrf]
              unfold Table.setColWidth
              have hlen2 : c < t2.colWidthRead.length := by rw [k5, iwlen]; exact hclt
              exact getD_set_self _ _ _ _ hlen2
      · have huntouched : (match captureWidths src with
            | some ws => if ws.isEmpty then t2 else (if rf n then t2 else t2.setColWidth n (ws.getD n 0))
            | none => t2).colWidthRead.getD c none = t2.colWidthRead.getD c none := by
          rcases captureWidths src with _ | ws
          · rfl
          · dsimp only
            by_cases he : ws.isEmpty
            · rw [if_pos he]
            · rw [if_neg he]
              by_cases hrf : rf n
              · rw [if_pos hrf]
              · rw [if_neg hrf]
                unfold Table.setColWidth
                exact getD_set_ne _ _ _ (fun hx => hc hx.symm)
        rw [huntouched, k5, iw c]
        by_cases hlt : c < n
        · rw [if_pos hlt, if_pos (Nat.lt_succ_of_lt hlt)]
        · rw [if_neg hlt, if_neg (fun hx => hc (by omega))]

/-- Structure, header cells and widths of the pagination table. -/
lemma paginationTable_spec (rf : Nat → Bool) (src : Table) (w : Int) :
    (∀ c, c < src.cols → (paginationTable rf src w).cell 0 c =
      { text := pstrip (src.cell 0 c).text, style := some headerFont }) ∧
    (paginationTable rf src w).grid.length = 1 ∧
    ((paginationTable rf src w).grid.getD 0 []).length = src.cols ∧
    (paginationTable rf src w).cols = src.cols ∧
    (paginationTable rf src w).degenerate = false ∧
    (captureWidths src = none →
      ∀ c, (paginationTable rf src w).colWidthRead.getD c none =
        (List.replicate src.cols (some (w / (src.cols : Int)))).getD c none) ∧
    (∀ ws, captureWidths src = some ws → ∀ c, c < src.cols →
      (paginationTable rf src w).colWidthRead.getD c none =
        if rf c then some (w / (src.cols : Int)) else src.colWidthRead.getD c none) := by
  have hfold := paginationFold_spec rf src w src.cols (Nat.le_refl _)
  have hpt : paginationTable rf src w = (List.range src.cols).foldl (fun tAcc c =>
      let tAcc1 := tAcc.setCellText 0 c
        (((List.range src.cols).map (fun c2 => pstrip (src.cell 0 c2).text)).getD c "")
      let tAcc2 := tAcc1.styleCell 0 c true
      match captureWidths src with
      | some ws => if ws.isEmpty then tAcc2 else (if rf c then tAcc2 else tAcc2.setColWidth c (ws.getD c 0))
      | none => tAcc2) (add_table 1 src.cols 0 0 w 0).tbl := rfl
  rcases hfold with ⟨fc, flen, frow, fcols, fdeg, fwlen, fw⟩
  rw [← hpt] at fc flen frow fcols fdeg fwlen fw
  refine ⟨fc, flen, ?_, fcols, fdeg, ?_, ?_⟩
  · rw [frow 0]
    simp [add_table, Shape.tbl]
  · intro hnone c
    have := fw c
    by_cases hc : c < src.cols
    · rw [if_pos hc, hnone] at this
      rw [this, getD_replicate _ _ hc]
    · rw [if_neg hc] at this
      exact this
  · intro ws hws c hc
    have := fw c
    rw [if_pos hc, hws] at this
    dsimp only at this
    rcases captureWidths_spec src ws hws with ⟨hwl, hwv⟩
    have hne : ¬ ws.isEmpty = true := by
      intro he
      rw [List.isEmpty_iff] at he
      rw [he] at hwl
      simp only [List.length_nil] at hwl
      rw [← hwl] at hc
      exact Nat.not_lt_zero c hc
    rw [if_neg hne] at this
    rw [this, hwv c hc]

/-- _start_new_slide_with_table in closed form: one slide is appended, made
from the source layout, holding its cloned placeholders plus a new shape
with the pagination table and the source-shape geometry. -/
lemma start_new_slide_eq (rf : Nat → Bool) (pres : List Slide) (s j : Nat) :
    _start_new_slide_with_table rf pres s j =
      (pres ++ [{ layout := (getSlide pres s).layout,
                  shapes := (getSlide pres s).layout.placeholders ++
                    [{ kind := ShapeKind.table
                         (paginationTable rf ((getSlide pres s).shapes.getD j dfltShape).tbl
                           ((getSlide pres s).shapes.getD j dfltShape).width),
                       left := ((getSlide pres s).shapes.getD j dfltShape).left,
                       top := ((getSlide pres s).shapes.getD j dfltShape).top,
                       width := ((getSlide pres s).shapes.getD j dfltShape).width,
                       height := ((getSlide pres s).shapes.getD j dfltShape).height }] }],
       pres.length, (getSlide pres s).layout.placeholders.length) := rfl

/-
Claim theorems, witnesses and counterexamples.
-/

/-- Claim C1: for every table with N rows and M columns and every new-row
value mapping, the rebuild-append operation produces a table with N+1 rows
and M columns at the same position and size, with column order and header
text preserved exactly, all N prior rows' cell text unchanged byte for byte,
and the new row appended last with each cell taking the value mapped to its
column's trimmed header name, the empty string when unmapped. -/
theorem C1_rebuild_append (rf : Nat → Bool) (slide : Slide) (j : Nat)
    (vals : List (String × String)) (hj : j < slide.shapes.length)
    (hht : (slide.shapes.getD j dfltShape).hasTable = true)
    (sl' : Slide) (idx : Nat)
    (heq : _append_row_by_rebuilding rf slide j vals = (sl', idx)) :
    sl'.shapes.length = slide.shapes.length ∧
    (sl'.shapes.getD idx dfltShape).tbl.grid.length = (slide.shapes.getD j dfltShape).tbl.grid.length + 1 ∧
    (sl'.shapes.getD idx dfltShape).tbl.cols = (slide.shapes.getD j dfltShape).tbl.cols ∧
    (sl'.shapes.getD idx dfltShape).left = (slide.shapes.getD j dfltShape).left ∧
    (sl'.shapes.getD idx dfltShape).top = (slide.shapes.getD j dfltShape).top ∧
    (sl'.shapes.getD idx dfltShape).width = (slide.shapes.getD j dfltShape).width ∧
    (sl'.shapes.getD idx dfltShape).height = (slide.shapes.getD j dfltShape).height ∧
    (∀ r c, r < (slide.shapes.getD j dfltShape).tbl.grid.length →
      c < (slide.shapes.getD j dfltShape).tbl.cols →
      ((sl'.shapes.getD idx dfltShape).tbl.cell r c).text =
        ((slide.shapes.getD j dfltShape).tbl.cell r c).text) ∧
    (∀ c, c < (slide.shapes.getD j dfltShape).tbl.cols →
      ((sl'.shapes.getD idx dfltShape).tbl.cell (slide.shapes.getD j dfltShape).tbl.grid.length c).text =
        lookupD vals (pstrip ((slide.shapes.getD j dfltShape).tbl.cell 0 c).text)) ∧
    (∀ c, c < (slide.shapes.getD j dfltShape).tbl.cols →
      (∀ p ∈ vals, p.fst ≠ pstrip ((slide.shapes.getD j dfltShape).tbl.cell 0 c).text) →
      ((sl'.shapes.getD idx dfltShape).tbl.cell (slide.shapes.getD j dfltShape).tbl.grid.length c).text = "") := by
  have hnf := (rebuild_eq rf slide j vals).symm.trans heq
  have hsl : sl' = { slide with shapes := slide.shapes.eraseIdx j ++
      [{ kind := ShapeKind.table
           (rebuildTable rf (slide.shapes.getD j dfltShape).tbl vals (slide.shapes.getD j dfltShape).width),
         left := (slide.shapes.getD j dfltShape).left,
         top := (slide.shapes.getD j dfltShape).top,
         width := (slide.shapes.getD j dfltShape).width,
         height := (slide.shapes.getD j dfltShape).height }] } :=
    (congrArg Prod.fst hnf).symm
  have hidx : idx = (slide.shapes.eraseIdx j).length := (congrArg Prod.snd hnf).symm
  have hlenE : (slide.shapes.eraseIdx j).length = slide.shapes.length - 1 := by
    rw [List.length_eraseIdx]
    simp [hj]
  have hns : sl'.shapes.getD idx dfltShape =
      { kind := ShapeKind.table
          (rebuildTable rf (slide.shapes.getD j dfltShape).tbl vals (slide.shapes.getD j dfltShape).width),
        left := (slide.shapes.getD j dfltShape).left,
        top := (slide.shapes.getD j dfltShape).top,
        width := (slide.shapes.getD j dfltShape).width,
        height := (slide.shapes.getD j dfltShape).height } := by
    rw [hsl, hidx]
    exact getD_concat_length _ _ _
  have htbl : (sl'.shapes.getD idx dfltShape).tbl =
      rebuildTable rf (slide.shapes.getD j dfltShape).tbl vals (slide.shapes.getD j dfltShape).width := by
    rw [hns]
    rfl
  rcases rebuildTable_spec rf (slide.shapes.getD j dfltShape).tbl vals
    (slide.shapes.getD j dfltShape).width with
    ⟨rc, rdeg, rlen, rrow, rcell, rlast, rwn, rws⟩
  refine ⟨?_, ?_, ?_, ?_, ?_, ?_, ?_, ?_, ?_, ?_⟩
  · rw [hsl]
    simp only [List.length_append, hlenE, List.length_singleton]
    omega
  · rw [htbl, rlen]
  · rw [htbl, rc]
  · rw [hns]
  · rw [hns]
  · rw [hns]
  · rw [hns]
  · intro r c hr hc
    rw [htbl, rcell r c hr hc]
  · intro c hc
    rw [htbl, rlast c hc]
  · intro c hc hun
    rw [htbl, rlast c hc, lookupD_not_mem vals _ hun]

/-- Witness for C1 at a concrete one-table slide: the appended row lands
last, mapped by trimmed header name, and the prior body row is unchanged. -/
theorem C1_rebuild_append_witness :
    0 < fixSlide.shapes.length ∧
    (fixSlide.shapes.getD 0 dfltShape).hasTable = true ∧
    ((((_append_row_by_rebuilding (fun _ => false) fixSlide 0 fixVals).fst.shapes.getD
        ((_append_row_by_rebuilding (fun _ => false) fixSlide 0 fixVals).snd) dfltShape).tbl.cell 2 0).text = "ToolY" ∧
     (((_append_row_by_rebuilding (fun _ => false) fixSlide 0 fixVals).fst.shapes.getD
        ((_append_row_by_rebuilding (fun _ => false) fixSlide 0 fixVals).snd) dfltShape).tbl.cell 1 1).text = "Old") := by
  refine ⟨by decide, by decide, ?_, ?_⟩
  · have h := C1_rebuild_append (fun _ => false) fixSlide 0 fixVals (by decide) (by decide)
      (_append_row_by_rebuilding (fun _ => false) fixSlide 0 fixVals).fst
      (_append_row_by_rebuilding (fun _ => false) fixSlide 0 fixVals).snd rfl
    have h9 := h.2.2.2.2.2.2.2.2.1 0 (by decide)
    rw [show (fixSlide.shapes.getD 0 dfltShape).tbl.grid.length = 2 from rfl] at h9
    rw [h9]
    decide
  · have h := C1_rebuild_append (fun _ => false) fixSlide 0 fixVals (by decide) (by decide)
      (_append_row_by_rebuilding (fun _ => false) fixSlide 0 fixVals).fst
      (_append_row_by_rebuilding (fun _ => false) fixSlide 0 fixVals).snd rfl
    have h8 := h.2.2.2.2.2.2.2.1 1 1 (by decide) (by decide)
    rw [h8]
    decide

/-- Claim C2 (amended): when the cached target table has at least
MAX_BODY_ROWS body rows, the pagination step appends one new slide carrying
the layout of the target slide and a fresh table with exactly one row, the
header row, whose cell texts are the trimmed header texts of the target
table, at the target-shape geometry; column widths are carried over for the
columns whose width was readable (all-or-nothing capture) and whose restore
did not fail; all cached references switch to the new table, and no existing
slide, in particular the original table, is touched. -/
theorem C2_pagination_trigger (rf : Nat → Bool) (st : SyncState) (tg : TargetRef)
    (hst : st.target = some tg) (htgeq : tg.tableShapeIdx = tg.shapeIdx)
    (htrig : MAX_BODY_ROWS ≤ (getTbl st.pres tg.slideIdx tg.tableShapeIdx).grid.length - 1) :
    (_ensure_capacity_or_paginate rf st).pres.length = st.pres.length + 1 ∧
    (∀ s2, s2 < st.pres.length →
      getSlide (_ensure_capacity_or_paginate rf st).pres s2 = getSlide st.pres s2) ∧
    (getSlide (_ensure_capacity_or_paginate rf st).pres st.pres.length).layout =
      (getSlide st.pres tg.slideIdx).layout ∧
    (_ensure_capacity_or_paginate rf st).target =
      some { slideIdx := st.pres.length,
             shapeIdx := (getSlide st.pres tg.slideIdx).layout.placeholders.length,
             tableShapeIdx := (getSlide st.pres tg.slideIdx).layout.placeholders.length } ∧
    (getShape (_ensure_capacity_or_paginate rf st).pres st.pres.length
        (getSlide st.pres tg.slideIdx).layout.placeholders.length).left =
      (getShape st.pres tg.slideIdx tg.shapeIdx).left ∧
    (getShape (_ensure_capacity_or_paginate rf st).pres st.pres.length
        (getSlide st.pres tg.slideIdx).layout.placeholders.length).top =
      (getShape st.pres tg.slideIdx tg.shapeIdx).top ∧
    (getShape (_ensure_capacity_or_paginate rf st).pres st.pres.length
        (getSlide st.pres tg.slideIdx).layout.placeholders.length).width =
      (getShape st.pres tg.slideIdx tg.shapeIdx).width ∧
    (getShape (_ensure_capacity_or_paginate rf st).pres st.pres.length
        (getSlide st.pres tg.slideIdx).layout.placeholders.length).height =
      (getShape st.pres tg.slideIdx tg.shapeIdx).height ∧
    (getTbl (_ensure_capacity_or_paginate rf st).pres st.pres.length
        (getSlide st.pres tg.slideIdx).layout.placeholders.length).grid.length = 1 ∧
    (getTbl (_ensure_capacity_or_paginate rf st).pres st.pres.length
        (getSlide st.pres tg.slideIdx).layout.placeholders.length).cols =
      (getTbl st.pres tg.slideIdx tg.shapeIdx).cols ∧
    (∀ c, c < (getTbl st.pres tg.slideIdx tg.shapeIdx).cols →
      (getTbl (_ensure_capacity_or_paginate rf st).pres st.pres.length
          (getSlide st.pres tg.slideIdx).layout.placeholders.length).cell 0 c =
        { text := pstrip ((getTbl st.pres tg.slideIdx tg.shapeIdx).cell 0 c).text,
          style := some headerFont }) ∧
    (∀ ws, captureWidths (getTbl st.pres tg.slideIdx tg.shapeIdx) = some ws →
      ∀ c, c < (getTbl st.pres tg.slideIdx tg.shapeIdx).cols → rf c = false →
        (getTbl (_ensure_capacity_or_paginate rf st).pres st.pres.length
            (getSlide st.pres tg.slideIdx).layout.placeholders.length).colWidthRead.getD c none =
          (getTbl st.pres tg.slideIdx tg.shapeIdx).colWidthRead.getD c none) := by
  have hres : _ensure_capacity_or_paginate rf st =
      { st with
          pres := (_start_new_slide_with_table rf st.pres tg.slideIdx tg.shapeIdx).fst,
          target := some { slideIdx := (_start_new_slide_with_table rf st.pres tg.slideIdx tg.shapeIdx).snd.fst,
                           shapeIdx := (_start_new_slide_with_table rf st.pres tg.slideIdx tg.shapeIdx).snd.snd,
                           tableShapeIdx := (_start_new_slide_with_table rf st.pres tg.slideIdx tg.shapeIdx).snd.snd } } := by
    unfold _ensure_capacity_or_paginate
    rw [hst]
    dsimp only
    rw [if_pos htrig]
  have hpres : (_ensure_capacity_or_paginate rf st).pres =
      st.pres ++ [{ layout := (getSlide st.pres tg.slideIdx).layout,
                    shapes := (getSlide st.pres tg.slideIdx).layout.placeholders ++
                      [{ kind := ShapeKind.table
                           (paginationTable rf ((getSlide st.pres tg.slideIdx).shapes.getD tg.shapeIdx dfltShape).tbl
                             ((getSlide st.pres tg.slideIdx).shapes.getD tg.shapeIdx dfltShape).width),
                         left := ((getSlide st.pres tg.slideIdx).shapes.getD tg.shapeIdx dfltShape).left,
                         top := ((getSlide st.pres tg.slideIdx).shapes.getD tg.shapeIdx dfltShape).top,
                         width := ((getSlide st.pres tg.slideIdx).shapes.getD tg.shapeIdx dfltShape).width,
                         height := ((getSlide st.pres tg.slideIdx).shapes.getD tg.shapeIdx dfltShape).height }] }] := by
    rw [hres, start_new_slide_eq]
  have htgt : (_ensure_capacity_or_paginate rf st).target =
      some { slideIdx := st.pres.length,
             shapeIdx := (getSlide st.pres tg.slideIdx).layout.placeholders.length,
             tableShapeIdx := (getSlide st.pres tg.slideIdx).layout.placeholders.length } := by
    rw [hres, start_new_slide_eq]
  have hslide : getSlide (_ensure_capacity_or_paginate rf st).pres st.pres.length =
      { layout := (getSlide st.pres tg.slideIdx).layout,
        shapes := (getSlide st.pres tg.slideIdx).layout.placeholders ++
          [{ kind := ShapeKind.table
               (paginationTable rf ((getSlide st.pres tg.slideIdx).shapes.getD tg.shapeIdx dfltShape).tbl
                 ((getSlide st.pres tg.slideIdx).shapes.getD tg.shapeIdx dfltShape).width),
             left := ((getSlide st.pres tg.slideIdx).shapes.getD tg.shapeIdx dfltShape).left,
             top := ((getSlide st.pres tg.slideIdx).shapes.getD tg.shapeIdx dfltShape).top,
             width := ((getSlide st.pres tg.slideIdx).shapes.getD tg.shapeIdx dfltShape).width,
             height := ((getSlide st.pres tg.slideIdx).shapes.getD tg.shapeIdx dfltShape).height }] } := by
    rw [hpres]
    unfold getSlide
    exact getD_concat_length _ _ _
  have hshape : getShape (_ensure_capacity_or_paginate rf st).pres st.pres.length
      (getSlide st.pres tg.slideIdx).layout.placeholders.length =
      { kind := ShapeKind.table
          (paginationTable rf ((getSlide st.pres tg.slideIdx).shapes.getD tg.shapeIdx dfltShape).tbl
            ((getSlide st.pres tg.slideIdx).shapes.getD tg.shapeIdx dfltShape).width),
        left := ((getSlide st.pres tg.slideIdx).shapes.getD tg.shapeIdx dfltShape).left,
        top := ((getSlide st.pres tg.slideIdx).shapes.getD tg.shapeIdx dfltShape).top,
        width := ((getSlide st.pres tg.slideIdx).shapes.getD tg.shapeIdx dfltShape).width,
        height := ((getSlide st.pres tg.slideIdx).shapes.getD tg.shapeIdx dfltShape).height } := by
    unfold getShape
    rw [hslide]
    exact getD_concat_length _ _ _
  have htblpt : getTbl (_ensure_capacity_or_paginate rf st).pres st.pres.length
      (getSlide st.pres tg.slideIdx).layout.placeholders.length =
      paginationTable rf ((getSlide st.pres tg.slideIdx).shapes.getD tg.shapeIdx dfltShape).tbl
        ((getSlide st.pres tg.slideIdx).shapes.getD tg.shapeIdx dfltShape).width := by
    unfold getTbl
    rw [hshape]
    rfl
  have hsrc : ((getSlide st.pres tg.slideIdx).shapes.getD tg.shapeIdx dfltShape).tbl =
      getTbl st.pres tg.slideIdx tg.shapeIdx := rfl
  rcases paginationTable_spec rf (getTbl st.pres tg.slideIdx tg.shapeIdx)
    ((getSlide st.pres tg.slideIdx).shapes.getD tg.shapeIdx dfltShape).width with
    ⟨pc, plen, prow, pcols, pdeg, pwn, pws⟩
  refine ⟨?_, ?_, ?_, ?_, ?_, ?_, ?_, ?_, ?_, ?_, ?_, ?_⟩
  · rw [hpres]
    simp
  · intro s2 hs2
    rw [hpres]
    unfold getSlide
    exact getD_append_left _ _ _ hs2
  · rw [hslide]
  · rw [htgt]
  · rw [hshape]
    rfl
  · rw [hshape]
    rfl
  · rw [hshape]
    rfl
  · rw [hshape]
    rfl
  · rw [htblpt, hsrc, plen]
  · rw [htblpt, hsrc, pcols]
  · intro c hc
    rw [htblpt, hsrc, pc c hc]
  · intro ws hws c hc hrf
    rw [htblpt, hsrc, pws ws hws c hc, if_neg (by simp [hrf])]

/-- Counterexample to claim C2 as stated: with a padded header text and one
unreadable column width, the fresh table's header text is the trimmed text,
not the same text, and the readable width of column 0 is not carried over. -/
theorem C2_counterexample :
    MAX_BODY_ROWS ≤ (getTbl [fullPadSlide] 0 0).grid.length - 1 ∧
    ((getTbl [fullPadSlide] 0 0).cell 0 0).text = " AI Tool " ∧
    ((getTbl (_ensure_capacity_or_paginate (fun _ => false)
        { pres := [fullPadSlide], target := some { slideIdx := 0, shapeIdx := 0, tableShapeIdx := 0 },
          updates_made := 0, rows_added := 0, not_found_before_adding := 0 }).pres 1 0).cell 0 0).text
      = "AI Tool" ∧
    (getTbl [fullPadSlide] 0 0).colWidthRead.getD 0 none = some 10 ∧
    (getTbl (_ensure_capacity_or_paginate (fun _ => false)
        { pres := [fullPadSlide], target := some { slideIdx := 0, shapeIdx := 0, tableShapeIdx := 0 },
          updates_made := 0, rows_added := 0, not_found_before_adding := 0 }).pres 1 0).colWidthRead.getD 0 none
      = some 25 := by
  refine ⟨by decide, by decide, by decide, by decide, by decide⟩

/-- Witness for C2 at a concrete full table: the pagination step fires, adds
one slide, and the new target table is a one-row header copy with trimmed
texts. -/
theorem C2_pagination_trigger_witness :
    (_ensure_capacity_or_paginate (fun _ => false)
        { pres := [fullPadSlide], target := some { slideIdx := 0, shapeIdx := 0, tableShapeIdx := 0 },
          updates_made := 0, rows_added := 0, not_found_before_adding := 0 }).pres.length = 2 ∧
    (getTbl (_ensure_capacity_or_paginate (fun _ => false)
        { pres := [fullPadSlide], target := some { slideIdx := 0, shapeIdx := 0, tableShapeIdx := 0 },
          updates_made := 0, rows_added := 0, not_found_before_adding := 0 }).pres 1 0).grid.length = 1 ∧
    ((getTbl (_ensure_capacity_or_paginate (fun _ => false)
        { pres := [fullPadSlide], target := some { slideIdx := 0, shapeIdx := 0, tableShapeIdx := 0 },
          updates_made := 0, rows_added := 0, not_found_before_adding := 0 }).pres 1 0).cell 0 0).text
      = "AI Tool" := by
  have h := C2_pagination_trigger (fun _ => false)
    { pres := [fullPadSlide], target := some { slideIdx := 0, shapeIdx := 0, tableShapeIdx := 0 },
      updates_made := 0, rows_added := 0, not_found_before_adding := 0 }
    { slideIdx := 0, shapeIdx := 0, tableShapeIdx := 0 } rfl rfl (by decide)
  refine ⟨?_, ?_, ?_⟩
  · have := h.1
    simpa using this
  · have := h.2.2.2.2.2.2.2.2.1
    simpa using this
  · have h11 := h.2.2.2.2.2.2.2.2.2.2.1 0 (by decide)
    have : ((getTbl (_ensure_capacity_or_paginate (fun _ => false)
        { pres := [fullPadSlide], target := some { slideIdx := 0, shapeIdx := 0, tableShapeIdx := 0 },
          updates_made := 0, rows_added := 0, not_found_before_adding := 0 }).pres 1 0).cell 0 0).text =
        pstrip ((getTbl [fullPadSlide] 0 0).cell 0 0).text := by
      have h2 := congrArg Cell.text h11
      simpa using h2
    rw [this]
    decide

/-- Claim C8 (amended): width handling during rebuild and pagination is best
effort and never aborts the append: a failing width read makes the whole
capture fall back to None, so every column of the new table keeps the even
default width (not only the failing column); when every width is readable, a
failing restore is swallowed for that column only, the other columns keeping
their original widths; in every case the rebuild still appends its row and
the pagination still produces its one-row table. -/
theorem C8_width_capture_restore (rf : Nat → Bool) (slide : Slide) (j : Nat)
    (vals : List (String × String)) (pres : List Slide) (s k : Nat)
    (hj : j < slide.shapes.length) (sl' : Slide) (idx : Nat)
    (heq : _append_row_by_rebuilding rf slide j vals = (sl', idx)) :
    (sl'.shapes.getD idx dfltShape).tbl.grid.length =
      (slide.shapes.getD j dfltShape).tbl.grid.length + 1 ∧
    (captureWidths (slide.shapes.getD j dfltShape).tbl = none →
      (sl'.shapes.getD idx dfltShape).tbl.colWidthRead =
        List.replicate (slide.shapes.getD j dfltShape).tbl.cols
          (some ((slide.shapes.getD j dfltShape).width /
            ((slide.shapes.getD j dfltShape).tbl.cols : Int)))) ∧
    (∀ ws, captureWidths (slide.shapes.getD j dfltShape).tbl = some ws →
      ∀ c, c < (slide.shapes.getD j dfltShape).tbl.cols →
        (sl'.shapes.getD idx dfltShape).tbl.colWidthRead.getD c none =
          if rf c then some ((slide.shapes.getD j dfltShape).width /
              ((slide.shapes.getD j dfltShape).tbl.cols : Int))
          else (slide.shapes.getD j dfltShape).tbl.colWidthRead.getD c none) ∧
    (_start_new_slide_with_table rf pres s k).fst.length = pres.length + 1 ∧
    (getTbl (_start_new_slide_with_table rf pres s k).fst
        (_start_new_slide_with_table rf pres s k).snd.fst
        (_start_new_slide_with_table rf pres s k).snd.snd).grid.length = 1 ∧
    (∀ ws, captureWidths (getShape pres s k).tbl = some ws →
      ∀ c, c < (getShape pres s k).tbl.cols →
        (getTbl (_start_new_slide_with_table rf pres s k).fst
            (_start_new_slide_with_table rf pres s k).snd.fst
            (_start_new_slide_with_table rf pres s k).snd.snd).colWidthRead.getD c none =
          if rf c then some ((getShape pres s k).width / ((getShape pres s k).tbl.cols : Int))
          else (getShape pres s k).tbl.colWidthRead.getD c none) := by
  have hnf := (rebuild_eq rf slide j vals).symm.trans heq
  have hsl : sl' = { slide with shapes := slide.shapes.eraseIdx j ++
      [{ kind := ShapeKind.table
           (rebuildTable rf (slide.shapes.getD j dfltShape).tbl vals (slide.shapes.getD j dfltShape).width),
         left := (slide.shapes.getD j dfltShape).left,
         top := (slide.shapes.getD j dfltShape).top,
         width := (slide.shapes.getD j dfltShape).width,
         height := (slide.shapes.getD j dfltShape).height }] } :=
    (congrArg Prod.fst hnf).symm
  have hidx : idx = (slide.shapes.eraseIdx j).length := (congrArg Prod.snd hnf).symm
  have hns : sl'.shapes.getD idx dfltShape =
      { kind := ShapeKind.table
          (rebuildTable rf (slide.shapes.getD j dfltShape).tbl vals (slide.shapes.getD j dfltShape).width),
        left := (slide.shapes.getD j dfltShape).left,
        top := (slide.shapes.getD j dfltShape).top,
        width := (slide.shapes.getD j dfltShape).width,
        height := (slide.shapes.getD j dfltShape).height } := by
    rw [hsl, hidx]
    exact getD_concat_length _ _ _
  have htbl : (sl'.shapes.getD idx dfltShape).tbl =
      rebuildTable rf (slide.shapes.getD j dfltShape).tbl vals (slide.shapes.getD j dfltShape).width := by
    rw [hns]
    rfl
  rcases rebuildTable_spec rf (slide.shapes.getD j dfltShape).tbl vals
    (slide.shapes.getD j dfltShape).width with ⟨_, _, rlen, _, _, _, rwn, rws⟩
  have hnslide : getSlide (_start_new_slide_with_table rf pres s k).fst
      (_start_new_slide_with_table rf pres s k).snd.fst =
      { layout := (getSlide pres s).layout,
        shapes := (getSlide pres s).layout.placeholders ++
          [{ kind := ShapeKind.table
               (paginationTable rf (getShape pres s k).tbl (getShape pres s k).width),
             left := (getShape pres s k).left,
             top := (getShape pres s k).top,
             width := (getShape pres s k).width,
             height := (getShape pres s k).height }] } := by
    rw [start_new_slide_eq]
    unfold getSlide
    exact getD_concat_length _ _ _
  have hnshape : getShape (_start_new_slide_with_table rf pres s k).fst
      (_start_new_slide_with_table rf pres s k).snd.fst
      (_start_new_slide_with_table rf pres s k).snd.snd =
      { kind := ShapeKind.table
          (paginationTable rf (getShape pres s k).tbl (getShape pres s k).width),
        left := (getShape pres s k).left,
        top := (getShape pres s k).top,
        width := (getShape pres s k).width,
        height := (getShape pres s k).height } := by
    unfold getShape
    rw [hnslide]
    rw [show (_start_new_slide_with_table rf pres s k).snd.snd =
      (getSlide pres s).layout.placeholders.length from by rw [start_new_slide_eq]]
    exact getD_concat_length _ _ _
  have hptbl : getTbl (_start_new_slide_with_table rf pres s k).fst
      (_start_new_slide_with_table rf pres s k).snd.fst
      (_start_new_slide_with_table rf pres s k).snd.snd =
      paginationTable rf (getShape pres s k).tbl (getShape pres s k).width := by
    unfold getTbl
    rw [hnshape]
    rfl
  rcases paginationTable_spec rf (getShape pres s k).tbl (getShape pres s k).width with
    ⟨_, plen, _, _, _, _, pws⟩
  refine ⟨?_, ?_, ?_, ?_, ?_, ?_⟩
  · rw [htbl, rlen]
  · intro hnone
    rw [htbl]
    exact rwn hnone
  · intro ws hws c hc
    rw [htbl]
    exact rws ws hws c hc
  · rw [start_new_slide_eq]
    simp
  · rw [hptbl, plen]
  · intro ws hws c hc
    rw [hptbl, pws ws hws c hc]

/-- Counterexample to claim C8 as stated: one unreadable column width makes
the rebuild discard the readable width of column 0 as well, so that width is
not restored. -/
theorem C8_counterexample :
    (badWidthSlide.shapes.getD 0 dfltShape).tbl.colWidthRead.getD 0 none = some 10 ∧
    ((_append_row_by_rebuilding (fun _ => false) badWidthSlide 0 []).fst.shapes.getD
        ((_append_row_by_rebuilding (fun _ => false) badWidthSlide 0 []).snd)
        dfltShape).tbl.colWidthRead.getD 0 none = some 25 ∧
    ¬ (((_append_row_by_rebuilding (fun _ => false) badWidthSlide 0 []).fst.shapes.getD
        ((_append_row_by_rebuilding (fun _ => false) badWidthSlide 0 []).snd)
        dfltShape).tbl.colWidthRead.getD 0 none = some 10) := by
  refine ⟨by decide, by decide, by decide⟩

/-- Witness for C8 at the concrete one-table slide with readable widths: the
rebuild appends its row and restores the width of column 0. -/
theorem C8_width_capture_restore_witness :
    ((_append_row_by_rebuilding (fun _ => false) fixSlide 0 []).fst.shapes.getD
        ((_append_row_by_rebuilding (fun _ => false) fixSlide 0 []).snd)
        dfltShape).tbl.grid.length = 3 ∧
    ((_append_row_by_rebuilding (fun _ => false) fixSlide 0 []).fst.shapes.getD
        ((_append_row_by_rebuilding (fun _ => false) fixSlide 0 []).snd)
        dfltShape).tbl.colWidthRead.getD 0 none = some 10 := by
  have h := C8_width_capture_restore (fun _ => false) fixSlide 0 [] fixPres 0 0 (by decide)
    (_append_row_by_rebuilding (fun _ => false) fixSlide 0 []).fst
    (_append_row_by_rebuilding (fun _ => false) fixSlide 0 []).snd rfl
  refine ⟨?_, ?_⟩
  · have := h.1
    simpa using this
  · have h3 := h.2.2.1 [10, 20, 30, 40] (by decide) 0 (by decide)
    rw [h3]
    decide

/-- Claim C5: the document is saved exactly once, after all records are
processed, exactly when the total change count is positive; otherwise the
persisted document is the unmodified input. -/
theorem C5_save_iff_updates (rf : Nat → Bool) (records : List ExcelRow) (pres0 : List Slide)
    (addM : Bool) :
    (sync_excel_to_ppt rf records pres0 addM).saves =
      (if 0 < (sync_excel_to_ppt rf records pres0 addM).updates_made then 1 else 0) ∧
    ((sync_excel_to_ppt rf records pres0 addM).updates_made = 0 →
      (sync_excel_to_ppt rf records pres0 addM).persisted = pres0) ∧
    (0 < (sync_excel_to_ppt rf records pres0 addM).updates_made →
      (sync_excel_to_ppt rf records pres0 addM).persisted =
        (sync_excel_to_ppt rf records pres0 addM).pres) := by
  refine ⟨rfl, ?_, ?_⟩
  · intro h
    unfold sync_excel_to_ppt at h ⊢
    dsimp only at h ⊢
    rw [if_neg (by rw [h]; exact Nat.lt_irrefl 0)]
  · intro h
    unfold sync_excel_to_ppt at h ⊢
    dsimp only at h ⊢
    rw [if_pos h]

/-- Witness for C5: a run with changes saves once and persists the final
presentation; the updates counter there is concretely positive. -/
theorem C5_save_iff_updates_witness :
    (sync_excel_to_ppt (fun _ => false) [fixRec] fixPres true).updates_made = 2 ∧
    (sync_excel_to_ppt (fun _ => false) [fixRec] fixPres true).saves = 1 ∧
    (sync_excel_to_ppt (fun _ => false) [fixRec] fixPres true).persisted =
      (sync_excel_to_ppt (fun _ => false) [fixRec] fixPres true).pres := by
  have h := C5_save_iff_updates (fun _ => false) [fixRec] fixPres true
  refine ⟨by decide, ?_, h.2.2 (by decide)⟩
  rw [h.1, if_pos (by decide)]

/-- Claim C7 (amended): a record whose key is empty after trimming is
skipped entirely: no search, update or append happens, the state including
the document and every counter is unchanged; however the run summary's
total of processed records is simply the number of dataset records, so the
skipped record is still included in that reported total. -/
theorem C7_empty_key_skipped (rf : Nat → Bool) (addM : Bool) (st : SyncState) (rec : ExcelRow)
    (h : pstrip rec.tool = "") (records : List ExcelRow) (pres0 : List Slide) :
    processRecord rf addM st rec = st ∧
    (sync_excel_to_ppt rf records pres0 addM).total_processed = records.length := by
  refine ⟨?_, rfl⟩
  unfold processRecord
  rw [h]
  rfl

/-- Counterexample to claim C7 as stated: a single record with a blank key
leaves the document and all change counters untouched, yet the reported
total of processed records is 1, so the record is counted as processed. -/
theorem C7_counterexample :
    (sync_excel_to_ppt (fun _ => false)
      [{ tool := " ", serviceUseCase := "d", requestor := "r", status := "s" }] fixPres true).pres = fixPres ∧
    (sync_excel_to_ppt (fun _ => false)
      [{ tool := " ", serviceUseCase := "d", requestor := "r", status := "s" }] fixPres true).updates_made = 0 ∧
    (sync_excel_to_ppt (fun _ => false)
      [{ tool := " ", serviceUseCase := "d", requestor := "r", status := "s" }] fixPres true).rows_added = 0 ∧
    (sync_excel_to_ppt (fun _ => false)
      [{ tool := " ", serviceUseCase := "d", requestor := "r", status := "s" }] fixPres true).not_found_before_adding = 0 ∧
    (sync_excel_to_ppt (fun _ => false)
      [{ tool := " ", serviceUseCase := "d", requestor := "r", status := "s" }] fixPres true).total_processed = 1 := by
  refine ⟨by decide, by decide, by decide, by decide, by decide⟩

/-- Witness for C7 at a concrete state: processing a blank-key record is the
identity on the whole synchronisation state. -/
theorem C7_empty_key_skipped_witness :
    processRecord (fun _ => false) true
      { pres := fixPres, target := none, updates_made := 0, rows_added := 0, not_found_before_adding := 0 }
      { tool := " ", serviceUseCase := "d", requestor := "r", status := "s" } =
      { pres := fixPres, target := none, updates_made := 0, rows_added := 0, not_found_before_adding := 0 } ∧
    (sync_excel_to_ppt (fun _ => false) [fixRec] fixPres true).total_processed = 1 :=
  C7_empty_key_skipped (fun _ => false) true
    { pres := fixPres, target := none, updates_made := 0, rows_added := 0, not_found_before_adding := 0 }
    { tool := " ", serviceUseCase := "d", requestor := "r", status := "s" } (by decide) [fixRec] fixPres

lemma scanShape_not_qualifying (st : SyncState) (rec : ExcelRow) (toolName : String) (s i : Nat)
    (h : (getShape st.pres s i).hasTable = false ∨
      _table_headers_and_indices (getShape st.pres s i).tbl = none) :
    scanShape st rec toolName s i = (st, false) := by
  unfold scanShape
  dsimp only
  rcases h with h | h
  · rw [h]
    rfl
  · by_cases hht : (getShape st.pres s i).hasTable
    · rw [hht, h]
      rfl
    · rw [Bool.not_eq_true] at hht
      rw [hht]
      rfl

/-- Claim C9: a shape whose table cannot be inspected (degenerate grid, zero
rows or zero columns) or whose header row misses a required column makes the
Header Matcher return the not-qualifying signal, and the scan skips that
shape with the state unchanged and continues with the next shape; such a
shape is never fatal. -/
theorem C9_not_qualifying_skipped (t : Table) (st : SyncState) (rec : ExcelRow)
    (toolName : String) (s i : Nat) (rest : List Nat)
    (hbad : t.degenerate = true ∨ t.grid.length = 0 ∨ t.cols = 0 ∨
      ∃ col ∈ required_ppt_cols,
        ¬ col ∈ (List.range t.cols).map (fun c => pstrip (t.cell 0 c).text))
    (hsh : (getShape st.pres s i).kind = ShapeKind.table t ∨
      (getShape st.pres s i).hasTable = false) :
    _table_headers_and_indices t = none ∧
    scanShapes rec toolName s st (i :: rest) = scanShapes rec toolName s st rest := by
  have hnone : _table_headers_and_indices t = none := by
    unfold _table_headers_and_indices
    rcases hbad with h | h | h | h
    · rw [if_pos h]
    · rw [h]
      by_cases hd : t.degenerate
      · rw [if_pos hd]
      · rw [if_neg hd, if_pos (by simp)]
    · rw [h]
      by_cases hd : t.degenerate
      · rw [if_pos hd]
      · rw [if_neg hd, if_pos (by simp)]
    · by_cases hd : t.degenerate
      · rw [if_pos hd]
      · rw [if_neg hd]
        by_cases hz : t.grid.length == 0 || t.cols == 0
        · rw [if_pos hz]
        · rw [if_neg hz, if_neg ?_]
          rcases h with ⟨col, hcol, hnot⟩
          intro hall
          rw [List.all_eq_true] at hall
          have h2 := hall col hcol
          exact hnot (by simpa using h2)
  refine ⟨hnone, ?_⟩
  have hskip : scanShape st rec toolName s i = (st, false) := by
    apply scanShape_not_qualifying
    rcases hsh with hk | hk
    · right
      rw [show (getShape st.pres s i).tbl = t from by rw [Shape.tbl, hk]]
      exact hnone
    · left
      exact hk
  have hstep : scanShapes rec toolName s st (i :: rest) =
      (if (scanShape st rec toolName s i).snd then ((scanShape st rec toolName s i).fst, true)
       else scanShapes rec toolName s (scanShape st rec toolName s i).fst rest) := rfl
  rw [hstep, hskip]
  rfl

/-- Witness for C9: a shape with a degenerate table in the slide is skipped
and scanning continues unchanged past it. -/
theorem C9_not_qualifying_skipped_witness :
    _table_headers_and_indices dfltTable = none ∧
    scanShapes fixRec "toolx" 0
      { pres := [{ layout := { placeholders := [] },
                   shapes := [{ kind := ShapeKind.table dfltTable, left := 0, top := 0, width := 9, height := 9 }] }],
        target := none, updates_made := 0, rows_added := 0, not_found_before_adding := 0 } [0] =
    scanShapes fixRec "toolx" 0
      { pres := [{ layout := { placeholders := [] },
                   shapes := [{ kind := ShapeKind.table dfltTable, left := 0, top := 0, width := 9, height := 9 }] }],
        target := none, updates_made := 0, rows_added := 0, not_found_before_adding := 0 } [] :=
  C9_not_qualifying_skipped dfltTable
    { pres := [{ layout := { placeholders := [] },
                 shapes := [{ kind := ShapeKind.table dfltTable, left := 0, top := 0, width := 9, height := 9 }] }],
      target := none, updates_made := 0, rows_added := 0, not_found_before_adding := 0 }
    fixRec "toolx" 0 0 [] (Or.inl (by decide)) (Or.inl (by decide))

/-- The row loop finds exactly the first matching body row of the scanned
index range. -/
lemma findRowAux_range' (t : Table) (ki : Nat) (key : String) (r : Nat) :
    ∀ (len s : Nat),
      (findRowAux t ki key (List.range' s len) = some r ↔
        s ≤ r ∧ r < s + len ∧ rowKeyMatches t ki key r = true ∧
          ∀ r2, s ≤ r2 → r2 < r → rowKeyMatches t ki key r2 = false) := by
  intro len
  induction len with
  | zero =>
    intro s
    constructor
    · intro h
      exact absurd h (by simp [findRowAux])
    · rintro ⟨h1, h2, _, _⟩
      exact absurd h2 (by omega)
  | succ len2 ih =>
    intro s
    rw [List.range'_succ]
    show (if rowKeyMatches t ki key s then some s else findRowAux t ki key (List.range' (s + 1) len2)) = some r ↔ _
    by_cases hm : rowKeyMatches t ki key s
    · rw [if_pos hm]
      constructor
      · intro h
        injection h with h
        subst h
        exact ⟨Nat.le_refl s, by omega, hm,
          fun r2 hge hlt => absurd (Nat.lt_of_le_of_lt hge hlt) (Nat.lt_irrefl s)⟩
      · rintro ⟨h1, h2, h3, h4⟩
        by_cases hr : r = s
        · rw [hr]
        · have hlt : s < r := Nat.lt_of_le_of_ne h1 (fun e => hr e.symm)
          have hfalse := h4 s (Nat.le_refl s) hlt
          exact absurd hm (by simp [hfalse])
    · rw [if_neg hm]
      rw [ih (s + 1)]
      have hmf : rowKeyMatches t ki key s = false := by
        rw [← Bool.not_eq_true]
        exact hm
      constructor
      · rintro ⟨h1, h2, h3, h4⟩
        refine ⟨by omega, by omega, h3, fun r2 hge hlt => ?_⟩
        by_cases h5 : r2 = s
        · rw [h5]
          exact hmf
        · exact h4 r2 (by omega) hlt
      · rintro ⟨h1, h2, h3, h4⟩
        have hrs : r ≠ s := fun e => by
          rw [e] at h3
          exact hm h3
        exact ⟨by omega, by omega, h3, fun r2 hge hlt => h4 r2 (by omega) hlt⟩

/-- Claim C6: key matching is case-insensitive and trim-normalised: the row
scan finds row r for a record key exactly when r is the first body row whose
key cell text equals the record key after stripping surrounding whitespace
and lowercasing. -/
theorem C6_key_matching (t : Table) (ki : Nat) (key : String) (r : Nat) :
    findRow t ki (pstrip key) = some r ↔
      (1 ≤ r ∧ r < 1 + (t.grid.length - 1) ∧
       plower (pstrip (t.cell r ki).text) = plower (pstrip key) ∧
       ∀ r2, 1 ≤ r2 → r2 < r →
         plower (pstrip (t.cell r2 ki).text) ≠ plower (pstrip key)) := by
  unfold findRow bodyRowIdxs
  rw [findRowAux_range' t ki (pstrip key) r (t.grid.length - 1) 1]
  unfold rowKeyMatches
  simp only [beq_iff_eq, beq_eq_false_iff_ne]

/-- Witness for C6: the record key " alpha " finds the row whose key cell
holds Alpha. -/
theorem C6_key_matching_witness : findRow alphaTable 0 (pstrip " alpha ") = some 1 :=
  (C6_key_matching alphaTable 0 " alpha " 1).mpr
    ⟨by decide, by decide, by decide,
     fun r2 h1 h2 => absurd (Nat.lt_of_le_of_lt h1 h2) (Nat.lt_irrefl 1)⟩

/-
Access lemmas for setTbl and preservation lemmas for the styling and update
operations, feeding the scan-loop evaluation.
-/

lemma length_setTbl (p : List Slide) (s i : Nat) (t : Table) :
    (setTbl p s i t).length = p.length := by
  unfold setTbl
  simp

lemma getSlide_setTbl_ne (p : List Slide) {s s' : Nat} (i : Nat) (t : Table) (h : s ≠ s') :
    getSlide (setTbl p s i t) s' = getSlide p s' := by
  unfold setTbl getSlide
  exact getD_set_ne _ _ _ h

lemma layout_getSlide_setTbl (p : List Slide) (s s' i : Nat) (t : Table) :
    (getSlide (setTbl p s i t) s').layout = (getSlide p s').layout := by
  by_cases h : s = s'
  · subst h
    by_cases hlt : s < p.length
    · unfold setTbl getSlide
      rw [getD_set_self _ _ _ _ hlt]
    · unfold setTbl getSlide
      rw [List.set_eq_of_length_le (Nat.le_of_not_lt hlt)]
  · rw [getSlide_setTbl_ne p i t h]

lemma shapes_length_getSlide_setTbl (p : List Slide) (s s' i : Nat) (t : Table) :
    (getSlide (setTbl p s i t) s').shapes.length = (getSlide p s').shapes.length := by
  by_cases h : s = s'
  · subst h
    by_cases hlt : s < p.length
    · unfold setTbl getSlide
      rw [getD_set_self _ _ _ _ hlt]
      simp
    · unfold setTbl getSlide
      rw [List.set_eq_of_length_le (Nat.le_of_not_lt hlt)]
  · rw [getSlide_setTbl_ne p i t h]

lemma getShape_setTbl_ne (p : List Slide) (s s' i i' : Nat) (t : Table)
    (h : s ≠ s' ∨ i ≠ i') :
    getShape (setTbl p s i t) s' i' = getShape p s' i' := by
  rcases h with h | h
  · unfold getShape
    rw [getSlide_setTbl_ne p i t h]
  · by_cases hs : s = s'
    · subst hs
      by_cases hlt : s < p.length
      · unfold getShape getSlide setTbl
        rw [getD_set_self _ _ _ _ hlt]
        exact getD_set_ne _ _ _ h
      · unfold getShape getSlide setTbl
        rw [List.set_eq_of_length_le (Nat.le_of_not_lt hlt)]
    · unfold getShape
      rw [getSlide_setTbl_ne p i t hs]

lemma getShape_setTbl_self (p : List Slide) (s i : Nat) (t : Table)
    (hs : s < p.length) (hi : i < (getSlide p s).shapes.length) :
    getShape (setTbl p s i t) s i =
      { getShape p s i with kind := ShapeKind.table t } := by
  unfold getShape getSlide setTbl
  rw [getD_set_self _ _ _ _ hs]
  exact getD_set_self _ _ _ _ hi

lemma getTbl_setTbl_self (p : List Slide) (s i : Nat) (t : Table)
    (hs : s < p.length) (hi : i < (getSlide p s).shapes.length) :
    getTbl (setTbl p s i t) s i = t := by
  unfold getTbl
  rw [getShape_setTbl_self p s i t hs hi]
  rfl

lemma getTbl_setTbl_ne (p : List Slide) (s s' i i' : Nat) (t : Table)
    (h : s ≠ s' ∨ i ≠ i') :
    getTbl (setTbl p s i t) s' i' = getTbl p s' i' := by
  unfold getTbl
  rw [getShape_setTbl_ne p s s' i i' t h]

lemma set_getD_self (l : List α) (i : Nat) (d : α) : l.set i (l.getD i d) = l := by
  apply List.ext_getElem?
  intro n
  by_cases h : n = i
  · subst h
    by_cases hlt : n < l.length
    · rw [List.getElem?_set_self hlt, getD_eq, List.getElem?_eq_getElem hlt]
      rfl
    · rw [List.set_eq_of_length_le (Nat.le_of_not_lt hlt)]
  · rw [List.getElem?_set_ne (fun e => h e.symm)]

/-- Writing outside the grid is a no-op (unreachable in the source). -/
lemma modifyCell_oob (t : Table) (r c : Nat) (f : Cell → Cell)
    (h : ¬ r < t.grid.length ∨ ¬ c < (t.grid.getD r []).length) :
    t.modifyCell r c f = t := by
  unfold Table.modifyCell
  rcases h with h | h
  · rw [List.set_eq_of_length_le (Nat.le_of_not_lt h)]
  · rw [List.set_eq_of_length_le (Nat.le_of_not_lt h), set_getD_self]

lemma styleCell_text_eq (t : Table) (r c r' c' : Nat) (b : Bool) :
    ((t.styleCell r c b).cell r' c').text = (t.cell r' c').text := by
  unfold Table.styleCell
  by_cases h : r' = r ∧ c' = c
  · rcases h with ⟨h1, h2⟩
    subst h1
    subst h2
    by_cases hr : r' < t.grid.length
    · by_cases hc : c' < (t.grid.getD r' []).length
      · rw [cell_modifyCell_self _ _ _ _ hr hc]
        rfl
      · rw [modifyCell_oob _ _ _ _ (Or.inr hc)]
    · rw [modifyCell_oob _ _ _ _ (Or.inl hr)]
  · rw [cell_modifyCell_ne]
    rcases Decidable.not_and_iff_or_not.mp h with h | h
    · exact Or.inl h
    · exact Or.inr h

lemma styleCell_cell_ne (t : Table) (r c r' c' : Nat) (b : Bool) (h : r' ≠ r ∨ c' ≠ c) :
    (t.styleCell r c b).cell r' c' = t.cell r' c' := by
  unfold Table.styleCell
  rw [cell_modifyCell_ne _ _ _ _ _ _ h]

lemma styleCell_cell_self (t : Table) (r c : Nat) (b : Bool)
    (hr : r < t.grid.length) (hc : c < (t.grid.getD r []).length) :
    (t.styleCell r c b).cell r c = set_cell_style (t.cell r c) b := by
  unfold Table.styleCell
  rw [cell_modifyCell_self _ _ _ _ hr hc]

lemma styleCell_keeps (t : Table) (r c : Nat) (b : Bool) :
    (t.styleCell r c b).grid.length = t.grid.length ∧
    (∀ r', ((t.styleCell r c b).grid.getD r' []).length = (t.grid.getD r' []).length) ∧
    (t.styleCell r c b).cols = t.cols ∧
    (t.styleCell r c b).degenerate = t.degenerate ∧
    (t.styleCell r c b).colWidthRead = t.colWidthRead := by
  unfold Table.styleCell
  exact ⟨grid_length_modifyCell _ _ _ _, fun r' => row_length_modifyCell _ _ _ _ _, rfl, rfl, rfl⟩

/-- A fold of row-0 styling keeps everything except row-0 styles, which are
set to the header style where the write lands inside the grid. -/
lemma styleFold_spec (l : List Nat) (t : Table) :
    (∀ r c, (((l.foldl (fun tAcc c => tAcc.styleCell 0 c true) t).cell r c).text = (t.cell r c).text)) ∧
    (∀ r c, r ≠ 0 → ((l.foldl (fun tAcc c => tAcc.styleCell 0 c true) t).cell r c = t.cell r c)) ∧
    (∀ c, c ∉ l → ((l.foldl (fun tAcc c => tAcc.styleCell 0 c true) t).cell 0 c = t.cell 0 c)) ∧
    (∀ c, c ∈ l → 0 < t.grid.length → c < (t.grid.getD 0 []).length →
      ((l.foldl (fun tAcc c => tAcc.styleCell 0 c true) t).cell 0 c =
        set_cell_style (t.cell 0 c) true)) ∧
    (l.foldl (fun tAcc c => tAcc.styleCell 0 c true) t).grid.length = t.grid.length ∧
    (∀ r', ((l.foldl (fun tAcc c => tAcc.styleCell 0 c true) t).grid.getD r' []).length =
      (t.grid.getD r' []).length) ∧
    (l.foldl (fun tAcc c => tAcc.styleCell 0 c true) t).cols = t.cols ∧
    (l.foldl (fun tAcc c => tAcc.styleCell 0 c true) t).degenerate = t.degenerate ∧
    (l.foldl (fun tAcc c => tAcc.styleCell 0 c true) t).colWidthRead = t.colWidthRead := by
  induction l generalizing t with
  | nil =>
    exact ⟨fun r c => rfl, fun r c _ => rfl, fun c _ => rfl, fun c hc => absurd hc (by simp),
      rfl, fun r' => rfl, rfl, rfl, rfl⟩
  | cons a rest ih =>
    simp only [List.foldl_cons]
    rcases ih (t.styleCell 0 a true) with ⟨i1, i2, i3, i4, i5, i6, i7, i8, i9⟩
    rcases styleCell_keeps t 0 a true with ⟨k1, k2, k3, k4, k5⟩
    refine ⟨?_, ?_, ?_, ?_, ?_, ?_, ?_, ?_, ?_⟩
    · intro r c
      rw [i1 r c, styleCell_text_eq]
    · intro r c h
      rw [i2 r c h, styleCell_cell_ne _ _ _ _ _ _ (Or.inl h)]
    · intro c hc
      rw [i3 c (fun h => hc (List.mem_cons_of_mem a h)),
        styleCell_cell_ne _ _ _ _ _ _ (Or.inr (fun h => hc (by rw [h]; exact List.mem_cons_self a rest)))]
    · intro c hc hr hcl
      rcases List.mem_cons.mp hc with h | h
      · subst h
        by_cases hmem : c ∈ rest
        · rw [i4 c hmem (by rw [k1]; exact hr) (by rw [k2 0]; exact hcl)]
          rw [styleCell_cell_self t 0 c true hr hcl]
          rfl
        · rw [i3 c hmem, styleCell_cell_self t 0 c true hr hcl]
      · rw [i4 c h (by rw [k1]; exact hr) (by rw [k2 0]; exact hcl)]
        have htext := styleCell_text_eq t 0 a 0 c true
        unfold set_cell_style
        rw [htext]
    · rw [i5, k1]
    · intro r'
      rw [i6 r', k2 r']
    · rw [i7, k3]
    · rw [i8, k4]
    · rw [i9, k5]

lemma styleHeaderRow_spec (t : Table) :
    (∀ r c, ((styleHeaderRow t).cell r c).text = (t.cell r c).text) ∧
    (∀ r c, r ≠ 0 → (styleHeaderRow t).cell r c = t.cell r c) ∧
    (∀ c, c < t.cols → 0 < t.grid.length → c < (t.grid.getD 0 []).length →
      (styleHeaderRow t).cell 0 c = set_cell_style (t.cell 0 c) true) ∧
    (styleHeaderRow t).grid.length = t.grid.length ∧
    (∀ r', ((styleHeaderRow t).grid.getD r' []).length = (t.grid.getD r' []).length) ∧
    (styleHeaderRow t).cols = t.cols ∧
    (styleHeaderRow t).degenerate = t.degenerate ∧
    (styleHeaderRow t).colWidthRead = t.colWidthRead := by
  rcases styleFold_spec (List.range t.cols) t with ⟨f1, f2, f3, f4, f5, f6, f7, f8, f9⟩
  exact ⟨f1, f2, fun c hc => f4 c (by simpa using hc), f5, f6, f7, f8, f9⟩

/-- The Header Matcher reads only degeneracy, dimensions and row-0 texts. -/
lemma headers_congr (t t' : Table)
    (hdeg : t'.degenerate = t.degenerate) (hlen : t'.grid.length = t.grid.length)
    (hcols : t'.cols = t.cols)
    (htext : ∀ r c, (t'.cell r c).text = (t.cell r c).text) :
    _table_headers_and_indices t' = _table_headers_and_indices t := by
  unfold _table_headers_and_indices
  rw [hdeg, hlen, hcols]
  have hmap : (List.range t.cols).map (fun c => pstrip (t'.cell 0 c).text) =
      (List.range t.cols).map (fun c => pstrip (t.cell 0 c).text) := by
    apply List.map_congr_left
    intro c _
    rw [htext 0 c]
  rw [hmap]

lemma findRowAux_congr (t t' : Table) (ki : Nat) (key : String)
    (htext : ∀ r c, (t'.cell r c).text = (t.cell r c).text) :
    ∀ l, findRowAux t' ki key l = findRowAux t ki key l := by
  intro l
  induction l with
  | nil => rfl
  | cons a rest ih =>
    unfold findRowAux
    rw [show rowKeyMatches t' ki key a = rowKeyMatches t ki key a from by
      unfold rowKeyMatches
      rw [htext a ki], ih]

/-- The row loop reads only the grid height and the key-column texts. -/
lemma findRow_congr (t t' : Table) (ki : Nat) (key : String)
    (hlen : t'.grid.length = t.grid.length)
    (htext : ∀ r c, (t'.cell r c).text = (t.cell r c).text) :
    findRow t' ki key = findRow t ki key := by
  unfold findRow bodyRowIdxs
  rw [hlen, findRowAux_congr t t' ki key htext]

lemma firstSomeAux_congr {α : Type} (f g : Nat → Option α) (h : ∀ i, f i = g i) :
    ∀ L, firstSomeAux f L = firstSomeAux g L := by
  intro L
  induction L with
  | nil => rfl
  | cons a rest ih =>
    unfold firstSomeAux
    rw [h a, ih]

lemma hasTable_kind_eq (sh : Shape) (h : sh.hasTable = true) :
    sh.kind = ShapeKind.table sh.tbl := by
  rcases sh with ⟨k, l, t, w, hh⟩
  cases k with
  | plain => exact absurd h (by simp [Shape.hasTable])
  | table t2 => rfl

/-- The state pres after the discovery styling of a qualifying shape: every
search-relevant reader is unchanged. -/
lemma styled_readers (p : List Slide) (s0 i0 : Nat)
    (hq : (getShape p s0 i0).hasTable = true) :
    (setTbl p s0 i0 (styleHeaderRow (getTbl p s0 i0))).length = p.length ∧
    (∀ s, (getSlide (setTbl p s0 i0 (styleHeaderRow (getTbl p s0 i0))) s).shapes.length =
      (getSlide p s).shapes.length) ∧
    (∀ s i, (getShape (setTbl p s0 i0 (styleHeaderRow (getTbl p s0 i0))) s i).hasTable =
      (getShape p s i).hasTable) ∧
    (∀ s i r c, ((getTbl (setTbl p s0 i0 (styleHeaderRow (getTbl p s0 i0))) s i).cell r c).text =
      ((getTbl p s i).cell r c).text) ∧
    (∀ s i, (getTbl (setTbl p s0 i0 (styleHeaderRow (getTbl p s0 i0))) s i).grid.length =
      (getTbl p s i).grid.length) ∧
    (∀ s i, (getTbl (setTbl p s0 i0 (styleHeaderRow (getTbl p s0 i0))) s i).cols =
      (getTbl p s i).cols) ∧
    (∀ s i, (getTbl (setTbl p s0 i0 (styleHeaderRow (getTbl p s0 i0))) s i).degenerate =
      (getTbl p s i).degenerate) ∧
    (∀ s i, shapeHeaders (setTbl p s0 i0 (styleHeaderRow (getTbl p s0 i0))) s i =
      shapeHeaders p s i) ∧
    (∀ s i tool, shapeFindRow (setTbl p s0 i0 (styleHeaderRow (getTbl p s0 i0))) s i tool =
      shapeFindRow p s i tool) := by
  rcases styleHeaderRow_spec (getTbl p s0 i0) with ⟨t1, _, _, t4, _, t6, t7, _⟩
  by_cases hbound : s0 < p.length ∧ i0 < (getSlide p s0).shapes.length
  · rcases hbound with ⟨hs0, hi0⟩
    have hshape : ∀ s i, s ≠ s0 ∨ i ≠ i0 →
        getShape (setTbl p s0 i0 (styleHeaderRow (getTbl p s0 i0))) s i = getShape p s i := by
      intro s i h
      apply getShape_setTbl_ne
      rcases h with h | h
      · exact Or.inl (fun e => h e.symm)
      · exact Or.inr (fun e => h e.symm)
    have hself : getShape (setTbl p s0 i0 (styleHeaderRow (getTbl p s0 i0))) s0 i0 =
        { getShape p s0 i0 with kind := ShapeKind.table (styleHeaderRow (getTbl p s0 i0)) } :=
      getShape_setTbl_self p s0 i0 _ hs0 hi0
    have hcase : ∀ s i,
        (getShape (setTbl p s0 i0 (styleHeaderRow (getTbl p s0 i0))) s i =
          getShape p s i) ∨ (s = s0 ∧ i = i0) := by
      intro s i
      by_cases hs : s = s0
      · by_cases hi : i = i0
        · exact Or.inr ⟨hs, hi⟩
        · exact Or.inl (hshape s i (Or.inr hi))
      · exact Or.inl (hshape s i (Or.inl hs))
    have hht : ∀ s i, (getShape (setTbl p s0 i0 (styleHeaderRow (getTbl p s0 i0))) s i).hasTable =
        (getShape p s i).hasTable := by
      intro s i
      rcases hcase s i with h | ⟨hs, hi⟩
      · rw [h]
      · subst hs
        subst hi
        rw [hself, hq]
        rfl
    have htblself : getTbl (setTbl p s0 i0 (styleHeaderRow (getTbl p s0 i0))) s0 i0 =
        styleHeaderRow (getTbl p s0 i0) :=
      (congrArg Shape.tbl hself).trans rfl
    have htext : ∀ s i r c,
        ((getTbl (setTbl p s0 i0 (styleHeaderRow (getTbl p s0 i0))) s i).cell r c).text =
          ((getTbl p s i).cell r c).text := by
      intro s i r c
      rcases hcase s i with h | ⟨hs, hi⟩
      · exact congrArg (fun sh => ((sh.tbl.cell r c).text)) h
      · subst hs
        subst hi
        rw [htblself, t1]
    have hlen2 : ∀ s i, (getTbl (setTbl p s0 i0 (styleHeaderRow (getTbl p s0 i0))) s i).grid.length =
        (getTbl p s i).grid.length := by
      intro s i
      rcases hcase s i with h | ⟨hs, hi⟩
      · exact congrArg (fun sh => sh.tbl.grid.length) h
      · subst hs
        subst hi
        rw [htblself, t4]
    have hcols2 : ∀ s i, (getTbl (setTbl p s0 i0 (styleHeaderRow (getTbl p s0 i0))) s i).cols =
        (getTbl p s i).cols := by
      intro s i
      rcases hcase s i with h | ⟨hs, hi⟩
      · exact congrArg (fun sh => sh.tbl.cols) h
      · subst hs
        subst hi
        rw [htblself, t6]
    have hdeg2 : ∀ s i, (getTbl (setTbl p s0 i0 (styleHeaderRow (getTbl p s0 i0))) s i).degenerate =
        (getTbl p s i).degenerate := by
      intro s i
      rcases hcase s i with h | ⟨hs, hi⟩
      · exact congrArg (fun sh => sh.tbl.degenerate) h
      · subst hs
        subst hi
        rw [htblself, t7]
    have hhdrs : ∀ s i, shapeHeaders (setTbl p s0 i0 (styleHeaderRow (getTbl p s0 i0))) s i =
        shapeHeaders p s i := by
      intro s i
      unfold shapeHeaders
      rw [hht s i]
      by_cases h : (getShape p s i).hasTable
      · rw [if_pos h, if_pos h]
        exact headers_congr _ _ (hdeg2 s i) (hlen2 s i) (hcols2 s i) (htext s i)
      · rw [if_neg h, if_neg h]
    refine ⟨length_setTbl p s0 i0 _, fun s => shapes_length_getSlide_setTbl p s0 s i0 _,
      hht, htext, hlen2, hcols2, hdeg2, hhdrs, ?_⟩
    intro s i tool
    unfold shapeFindRow
    rw [hhdrs s i]
    rcases hh : shapeHeaders p s i with _ | hdrs
    · rfl
    · dsimp only
      rw [findRow_congr (getTbl p s i) _ (hdrIdx hdrs "AI Tool") tool (hlen2 s i) (htext s i)]
  · have hnoop : setTbl p s0 i0 (styleHeaderRow (getTbl p s0 i0)) = p := by
      unfold setTbl
      dsimp only
      rcases Decidable.not_and_iff_or_not.mp hbound with h | h
      · exact List.set_eq_of_length_le (Nat.le_of_not_lt h)
      · rw [List.set_eq_of_length_le (Nat.le_of_not_lt h)]
        exact set_getD_self p s0 dfltSlide
    rw [hnoop]
    exact ⟨rfl, fun _ => rfl, fun _ _ => rfl, fun _ _ _ _ => rfl, fun _ _ => rfl,
      fun _ _ => rfl, fun _ _ => rfl, fun _ _ => rfl, fun _ _ _ => rfl⟩

lemma writeCell_cell_ne (t : Table) (r c r' c' : Nat) (v : String) (h : r' ≠ r ∨ c' ≠ c) :
    ((t.setCellText r c v).styleCell r c false).cell r' c' = t.cell r' c' := by
  unfold Table.setCellText Table.styleCell
  rw [cell_modifyCell_ne _ _ _ _ _ _ h, cell_modifyCell_ne _ _ _ _ _ _ h]

lemma writeCell_cell_self (t : Table) (r c : Nat) (v : String)
    (hr : r < t.grid.length) (hc : c < (t.grid.getD r []).length) :
    ((t.setCellText r c v).styleCell r c false).cell r c = { text := v, style := some bodyFont } := by
  unfold Table.setCellText Table.styleCell
  rw [cell_modifyCell_self _ _ _ _ (by rw [grid_length_modifyCell]; exact hr)
    (by rw [row_length_modifyCell]; exact hc)]
  rw [cell_modifyCell_self _ _ _ _ hr hc]
  rfl

lemma writeCell_keeps (t : Table) (r c : Nat) (v : String) :
    ((t.setCellText r c v).styleCell r c false).grid.length = t.grid.length ∧
    (∀ r', (((t.setCellText r c v).styleCell r c false).grid.getD r' []).length =
      (t.grid.getD r' []).length) ∧
    ((t.setCellText r c v).styleCell r c false).cols = t.cols ∧
    ((t.setCellText r c v).styleCell r c false).degenerate = t.degenerate ∧
    ((t.setCellText r c v).styleCell r c false).colWidthRead = t.colWidthRead := by
  unfold Table.setCellText Table.styleCell
  refine ⟨by rw [grid_length_modifyCell, grid_length_modifyCell], fun r' => ?_, rfl, rfl, rfl⟩
  rw [row_length_modifyCell, row_length_modifyCell]

lemma updCell_eq_case (t : Table) (r c : Nat) (v : String)
    (h : pstrip (t.cell r c).text = v) : updCell t r c v = (t, 0) := by
  unfold updCell
  rw [if_pos (by simp [h])]

lemma updCell_ne_case (t : Table) (r c : Nat) (v : String)
    (h : ¬ pstrip (t.cell r c).text = v) :
    updCell t r c v = ((t.setCellText r c v).styleCell r c false, 1) := by
  unfold updCell
  rw [if_neg (by simpa using h)]

/-- One conditional cell update, characterized against the input table:
skeleton kept, all other cells untouched, the counter increment is 1 exactly
when the stripped text differs, and the cell itself is rewritten (with body
style) exactly in that case. -/
lemma updCell_facts (t : Table) (r c : Nat) (v : String) :
    ((updCell t r c v).fst.grid.length = t.grid.length ∧
     (∀ r', ((updCell t r c v).fst.grid.getD r' []).length = (t.grid.getD r' []).length) ∧
     (updCell t r c v).fst.cols = t.cols ∧
     (updCell t r c v).fst.degenerate = t.degenerate ∧
     (updCell t r c v).fst.colWidthRead = t.colWidthRead) ∧
    (∀ r' c', r' ≠ r ∨ c' ≠ c → (updCell t r c v).fst.cell r' c' = t.cell r' c') ∧
    ((updCell t r c v).snd = if pstrip (t.cell r c).text = v then 0 else 1) ∧
    (r < t.grid.length → c < (t.grid.getD r []).length →
      (updCell t r c v).fst.cell r c =
        (if pstrip (t.cell r c).text = v then t.cell r c
         else { text := v, style := some bodyFont })) := by
  by_cases h : pstrip (t.cell r c).text = v
  · rw [updCell_eq_case t r c v h]
    exact ⟨⟨rfl, fun _ => rfl, rfl, rfl, rfl⟩, fun _ _ _ => rfl,
      by rw [if_pos h], fun _ _ => by rw [if_pos h]⟩
  · rw [updCell_ne_case t r c v h]
    exact ⟨writeCell_keeps t r c v, fun r' c' hne => writeCell_cell_ne t r c r' c' v hne,
      by rw [if_neg h], fun hr hc => by rw [if_neg h]; exact writeCell_cell_self t r c v hr hc⟩
/-- Evaluation of the matched-row update block against the original table:
the three mapped cells are written exactly when their stripped text differs,
the key cell is always re-styled, every other cell is untouched, the grid
skeleton is kept, and the returned counter increment counts exactly the
cells actually overwritten. -/
lemma updateRow_facts (t : Table) (hdrs : List String) (rec : ExcelRow) (r : Nat)
    (cD cR cS cK : Nat)
    (hcDdef : cD = hdrIdx hdrs "Tool Description")
    (hcRdef : cR = hdrIdx hdrs "Requestor")
    (hcSdef : cS = hdrIdx hdrs "Current State")
    (hcKdef : cK = hdrIdx hdrs "AI Tool")
    (hr : r < t.grid.length)
    (hbD : cD < (t.grid.getD r []).length)
    (hbR : cR < (t.grid.getD r []).length)
    (hbS : cS < (t.grid.getD r []).length)
    (hbK : cK < (t.grid.getD r []).length)
    (hdDR : cD ≠ cR) (hdDS : cD ≠ cS) (hdRS : cR ≠ cS)
    (hdKD : cK ≠ cD) (hdKR : cK ≠ cR) (hdKS : cK ≠ cS) :
    ((updateRow t hdrs rec r).snd =
      (if pstrip (t.cell r cD).text = pstrip rec.serviceUseCase then 0 else 1) +
      (if pstrip (t.cell r cR).text = pstrip rec.requestor then 0 else 1) +
      (if pstrip (t.cell r cS).text = pstrip rec.status then 0 else 1)) ∧
    ((updateRow t hdrs rec r).fst.cell r cD =
      (if pstrip (t.cell r cD).text = pstrip rec.serviceUseCase then t.cell r cD
       else { text := pstrip rec.serviceUseCase, style := some bodyFont })) ∧
    ((updateRow t hdrs rec r).fst.cell r cR =
      (if pstrip (t.cell r cR).text = pstrip rec.requestor then t.cell r cR
       else { text := pstrip rec.requestor, style := some bodyFont })) ∧
    ((updateRow t hdrs rec r).fst.cell r cS =
      (if pstrip (t.cell r cS).text = pstrip rec.status then t.cell r cS
       else { text := pstrip rec.status, style := some bodyFont })) ∧
    ((updateRow t hdrs rec r).fst.cell r cK = set_cell_style (t.cell r cK) false) ∧
    (∀ r' c', r' ≠ r ∨ (c' ≠ cD ∧ c' ≠ cR ∧ c' ≠ cS ∧ c' ≠ cK) →
      (updateRow t hdrs rec r).fst.cell r' c' = t.cell r' c') ∧
    (updateRow t hdrs rec r).fst.grid.length = t.grid.length ∧
    (∀ r', ((updateRow t hdrs rec r).fst.grid.getD r' []).length = (t.grid.getD r' []).length) ∧
    (updateRow t hdrs rec r).fst.cols = t.cols ∧
    (updateRow t hdrs rec r).fst.degenerate = t.degenerate ∧
    (updateRow t hdrs rec r).fst.colWidthRead = t.colWidthRead := by
  obtain ⟨⟨k1a, k1b, k1c, k1d, k1e⟩, f1, n1, s1⟩ := updCell_facts t r cD (pstrip rec.serviceUseCase)
  set t1 := (updCell t r cD (pstrip rec.serviceUseCase)).fst with ht1
  obtain ⟨⟨k2a, k2b, k2c, k2d, k2e⟩, f2, n2, s2⟩ := updCell_facts t1 r cR (pstrip rec.requestor)
  set t2 := (updCell t1 r cR (pstrip rec.requestor)).fst with ht2
  obtain ⟨⟨k3a, k3b, k3c, k3d, k3e⟩, f3, n3, s3⟩ := updCell_facts t2 r cS (pstrip rec.status)
  set t3 := (updCell t2 r cS (pstrip rec.status)).fst with ht3
  obtain ⟨kc1, kc2, kc3, kc4, kc5⟩ := styleCell_keeps t3 r cK false
  have hur : updateRow t hdrs rec r =
      (t3.styleCell r cK false,
       (updCell t r cD (pstrip rec.serviceUseCase)).snd +
       (updCell t1 r cR (pstrip rec.requestor)).snd +
       (updCell t2 r cS (pstrip rec.status)).snd) := by
    rw [ht3, ht2, ht1, hcDdef, hcRdef, hcSdef, hcKdef]
    rfl
  have h1R : t1.cell r cR = t.cell r cR := f1 r cR (Or.inr (Ne.symm hdDR))
  have h1S : t1.cell r cS = t.cell r cS := f1 r cS (Or.inr (Ne.symm hdDS))
  have h1K : t1.cell r cK = t.cell r cK := f1 r cK (Or.inr hdKD)
  have h2D : t2.cell r cD = t1.cell r cD := f2 r cD (Or.inr hdDR)
  have h2S : t2.cell r cS = t1.cell r cS := f2 r cS (Or.inr (Ne.symm hdRS))
  have h2K : t2.cell r cK = t1.cell r cK := f2 r cK (Or.inr hdKR)
  have h3D : t3.cell r cD = t2.cell r cD := f3 r cD (Or.inr hdDS)
  have h3R : t3.cell r cR = t2.cell r cR := f3 r cR (Or.inr hdRS)
  have h3K : t3.cell r cK = t2.cell r cK := f3 r cK (Or.inr hdKS)
  have hr1 : r < t1.grid.length := by rw [k1a]; exact hr
  have hr2 : r < t2.grid.length := by rw [k2a, k1a]; exact hr
  have hr3 : r < t3.grid.length := by rw [k3a, k2a, k1a]; exact hr
  have hlen1 : (t1.grid.getD r []).length = (t.grid.getD r []).length := k1b r
  have hlen2 : (t2.grid.getD r []).length = (t.grid.getD r []).length := by rw [k2b r, k1b r]
  rw [hur]
  dsimp only
  refine ⟨?_, ?_, ?_, ?_, ?_, ?_, ?_, ?_, ?_, ?_, ?_⟩
  · rw [n1, n2, n3, h1R, h2S, h1S]
  · rw [styleCell_cell_ne _ _ _ _ _ _ (Or.inr (Ne.symm hdKD)), h3D, h2D, s1 hr hbD]
  · rw [styleCell_cell_ne _ _ _ _ _ _ (Or.inr (Ne.symm hdKR)), h3R,
      s2 hr1 (by rw [hlen1]; exact hbR), h1R]
  · rw [styleCell_cell_ne _ _ _ _ _ _ (Or.inr (Ne.symm hdKS)),
      s3 hr2 (by rw [hlen2]; exact hbS), h2S, h1S]
  · rw [styleCell_cell_self t3 r cK false hr3 (by rw [k3b r, hlen2]; exact hbK), h3K, h2K, h1K]
  · intro r' c' hne
    rcases hne with hne | ⟨neD, neR, neS, neK⟩
    · rw [styleCell_cell_ne _ _ _ _ _ _ (Or.inl hne), f3 r' c' (Or.inl hne),
        f2 r' c' (Or.inl hne), f1 r' c' (Or.inl hne)]
    · rw [styleCell_cell_ne _ _ _ _ _ _ (Or.inr neK), f3 r' c' (Or.inr neS),
        f2 r' c' (Or.inr neR), f1 r' c' (Or.inr neD)]
  · rw [kc1, k3a, k2a, k1a]
  · intro r'
    rw [kc2 r', k3b r', k2b r', k1b r']
  · rw [kc3, k3c, k2c, k1c]
  · rw [kc4, k3d, k2d, k1d]
  · rw [kc5, k3e, k2e, k1e]
/-- What a successful header match tells about the table. -/
lemma headers_some_facts (t : Table) (hdrs : List String)
    (h : _table_headers_and_indices t = some hdrs) :
    t.degenerate = false ∧ 0 < t.grid.length ∧ 0 < t.cols ∧
    hdrs = (List.range t.cols).map (fun c => pstrip (t.cell 0 c).text) ∧
    hdrs.length = t.cols ∧
    (∀ name ∈ required_ppt_cols, name ∈ hdrs) := by
  unfold _table_headers_and_indices at h
  by_cases hdeg : t.degenerate
  · rw [if_pos hdeg] at h
    exact absurd h (by simp)
  · rw [if_neg hdeg] at h
    by_cases hz : t.grid.length == 0 || t.cols == 0
    · rw [if_pos hz] at h
      exact absurd h (by simp)
    · rw [if_neg hz] at h
      have hz2 : t.grid.length ≠ 0 ∧ t.cols ≠ 0 := by
        constructor <;> (intro e; apply hz; simp [e])
      by_cases hall : required_ppt_cols.all
          (fun col => ((List.range t.cols).map (fun c => pstrip (t.cell 0 c).text)).contains col)
      · rw [if_pos hall] at h
        injection h with h
        refine ⟨Bool.not_eq_true _ ▸ (by simpa using hdeg), Nat.pos_of_ne_zero hz2.1,
          Nat.pos_of_ne_zero hz2.2, h.symm, by rw [← h]; simp, ?_⟩
        intro name hname
        rw [← h]
        rw [List.all_eq_true] at hall
        simpa using hall name hname
      · rw [if_neg hall] at h
        exact absurd h (by simp)

/-- hdrs.index(name) lands inside the list, on name itself. -/
lemma hdrIdx_facts (hdrs : List String) (name : String) (h : name ∈ hdrs) :
    hdrIdx hdrs name < hdrs.length ∧ hdrs.getD (hdrIdx hdrs name) "" = name := by
  have hlt : hdrs.findIdx (fun h => h == name) < hdrs.length :=
    List.findIdx_lt_length_of_exists ⟨name, h, by simp⟩
  refine ⟨hlt, ?_⟩
  have hp := @List.findIdx_getElem _ (fun h => h == name) hdrs hlt
  rw [getD_eq]
  rw [show hdrs[hdrIdx hdrs name]? = some hdrs[List.findIdx (fun h => h == name) hdrs] from
    List.getElem?_eq_getElem hlt]
  simpa using hp

/-- Distinct present names sit at distinct first indices. -/
lemma hdrIdx_ne (hdrs : List String) (n1 n2 : String) (h1 : n1 ∈ hdrs) (h2 : n2 ∈ hdrs)
    (hne : n1 ≠ n2) : hdrIdx hdrs n1 ≠ hdrIdx hdrs n2 := by
  intro e
  apply hne
  rw [← (hdrIdx_facts hdrs n1 h1).2, ← (hdrIdx_facts hdrs n2 h2).2, e]

/-- The four required column indices of a qualifying table: in range and
pairwise distinct. -/
lemma qual_col_facts (t : Table) (hdrs : List String)
    (h : _table_headers_and_indices t = some hdrs) :
    hdrIdx hdrs "AI Tool" < t.cols ∧ hdrIdx hdrs "Tool Description" < t.cols ∧
    hdrIdx hdrs "Requestor" < t.cols ∧ hdrIdx hdrs "Current State" < t.cols ∧
    hdrIdx hdrs "Tool Description" ≠ hdrIdx hdrs "Requestor" ∧
    hdrIdx hdrs "Tool Description" ≠ hdrIdx hdrs "Current State" ∧
    hdrIdx hdrs "Requestor" ≠ hdrIdx hdrs "Current State" ∧
    hdrIdx hdrs "AI Tool" ≠ hdrIdx hdrs "Tool Description" ∧
    hdrIdx hdrs "AI Tool" ≠ hdrIdx hdrs "Requestor" ∧
    hdrIdx hdrs "AI Tool" ≠ hdrIdx hdrs "Current State" := by
  obtain ⟨-, -, -, -, hlen, hmem⟩ := headers_some_facts t hdrs h
  have mK : "AI Tool" ∈ hdrs := hmem _ (by decide)
  have mD : "Tool Description" ∈ hdrs := hmem _ (by decide)
  have mR : "Requestor" ∈ hdrs := hmem _ (by decide)
  have mS : "Current State" ∈ hdrs := hmem _ (by decide)
  refine ⟨hlen ▸ (hdrIdx_facts hdrs _ mK).1, hlen ▸ (hdrIdx_facts hdrs _ mD).1,
    hlen ▸ (hdrIdx_facts hdrs _ mR).1, hlen ▸ (hdrIdx_facts hdrs _ mS).1,
    hdrIdx_ne hdrs _ _ mD mR (by decide), hdrIdx_ne hdrs _ _ mD mS (by decide),
    hdrIdx_ne hdrs _ _ mR mS (by decide), hdrIdx_ne hdrs _ _ mK mD (by decide),
    hdrIdx_ne hdrs _ _ mK mR (by decide), hdrIdx_ne hdrs _ _ mK mS (by decide)⟩
lemma shapeHeaders_some_elim (pres : List Slide) (s i : Nat) (hdrs : List String)
    (h : shapeHeaders pres s i = some hdrs) :
    (getShape pres s i).hasTable = true ∧
    _table_headers_and_indices (getTbl pres s i) = some hdrs := by
  unfold shapeHeaders at h
  by_cases hht : (getShape pres s i).hasTable
  · rw [if_pos hht] at h
    exact ⟨hht, h⟩
  · rw [if_neg hht] at h
    exact absurd h (by simp)

lemma shapeHeaders_none_elim (pres : List Slide) (s i : Nat)
    (h : shapeHeaders pres s i = none) :
    (getShape pres s i).hasTable = false ∨
    _table_headers_and_indices (getTbl pres s i) = none := by
  unfold shapeHeaders at h
  by_cases hht : (getShape pres s i).hasTable
  · rw [if_pos hht] at h
    exact Or.inr h
  · exact Or.inl (Bool.not_eq_true _ ▸ (by simpa using hht))

lemma shapeFindRow_some_hdrs (pres : List Slide) (s i : Nat) (toolName : String)
    (hdrs : List String) (hh : shapeHeaders pres s i = some hdrs) :
    shapeFindRow pres s i toolName =
      findRow (getTbl pres s i) (hdrIdx hdrs "AI Tool") toolName := by
  unfold shapeFindRow
  rw [hh]

/-- A shape where the tool is absent, scanned with a cached target: the
state passes through untouched. -/
lemma scanShape_no_match_some_target (st : SyncState) (rec : ExcelRow) (toolName : String)
    (s i : Nat) (tg : TargetRef) (htg : st.target = some tg)
    (hnf : shapeFindRow st.pres s i toolName = none) :
    scanShape st rec toolName s i = (st, false) := by
  rcases hh : shapeHeaders st.pres s i with _ | hdrs
  · exact scanShape_not_qualifying st rec toolName s i (shapeHeaders_none_elim _ _ _ hh)
  · obtain ⟨hht, hhdrs⟩ := shapeHeaders_some_elim _ _ _ _ hh
    rw [shapeFindRow_some_hdrs _ _ _ _ _ hh] at hnf
    unfold scanShape
    dsimp only
    rw [hht]
    show (match _table_headers_and_indices (getShape st.pres s i).tbl with
      | none => (st, false)
      | some hdrs => _) = (st, false)
    rw [show _table_headers_and_indices (getShape st.pres s i).tbl = some hdrs from hhdrs]
    dsimp only
    rw [htg]
    dsimp only [Option.isNone]
    rw [if_neg (by simp)]
    rw [show findRow (getTbl st.pres s i) (hdrIdx hdrs "AI Tool") toolName = none from hnf]

/-- A shape where the tool is found, scanned with a cached target: the first
matching row is updated in place and the scan reports the find. -/
lemma scanShape_match_some_target (st : SyncState) (rec : ExcelRow) (toolName : String)
    (s i : Nat) (tg : TargetRef) (hdrs : List String) (r : Nat)
    (htg : st.target = some tg)
    (hh : shapeHeaders st.pres s i = some hdrs)
    (hfr : shapeFindRow st.pres s i toolName = some r) :
    scanShape st rec toolName s i =
      ({ st with
           pres := setTbl st.pres s i (updateRow (getTbl st.pres s i) hdrs rec r).fst,
           updates_made := st.updates_made + (updateRow (getTbl st.pres s i) hdrs rec r).snd },
       true) := by
  obtain ⟨hht, hhdrs⟩ := shapeHeaders_some_elim _ _ _ _ hh
  rw [shapeFindRow_some_hdrs _ _ _ _ _ hh] at hfr
  unfold scanShape
  dsimp only
  rw [hht]
  show (match _table_headers_and_indices (getShape st.pres s i).tbl with
    | none => (st, false)
    | some hdrs => _) = _
  rw [show _table_headers_and_indices (getShape st.pres s i).tbl = some hdrs from hhdrs]
  dsimp only
  rw [htg]
  dsimp only [Option.isNone]
  rw [if_neg (by simp)]
  rw [show findRow (getTbl st.pres s i) (hdrIdx hdrs "AI Tool") toolName = some r from hfr]
  dsimp only
  rw [htg]
/-- A qualifying shape scanned before any target is cached, with no match:
the header row is styled, the shape is cached as the target, and the shape
loop continues. -/
lemma scanShape_no_match_none_target (st : SyncState) (rec : ExcelRow) (toolName : String)
    (s i : Nat) (hdrs : List String)
    (htg : st.target = none)
    (hh : shapeHeaders st.pres s i = some hdrs)
    (hnf : shapeFindRow st.pres s i toolName = none) :
    scanShape st rec toolName s i =
      ({ st with
           pres := setTbl st.pres s i (styleHeaderRow (getTbl st.pres s i)),
           target := some { slideIdx := s, shapeIdx := i, tableShapeIdx := i } }, false) := by
  obtain ⟨hht, hhdrs⟩ := shapeHeaders_some_elim _ _ _ _ hh
  obtain ⟨-, -, -, -, -, -, -, hhdrseq, hsfr⟩ := styled_readers st.pres s i hht
  have hh2 : shapeHeaders (setTbl st.pres s i (styleHeaderRow (getTbl st.pres s i))) s i =
      some hdrs := by rw [hhdrseq s i]; exact hh
  have hnf2 : findRow (getTbl (setTbl st.pres s i (styleHeaderRow (getTbl st.pres s i))) s i)
      (hdrIdx hdrs "AI Tool") toolName = none := by
    rw [← shapeFindRow_some_hdrs _ _ _ _ _ hh2, hsfr s i toolName]
    exact hnf
  unfold scanShape
  dsimp only
  rw [hht]
  show (match _table_headers_and_indices (getShape st.pres s i).tbl with
    | none => (st, false)
    | some hdrs => _) = _
  rw [show _table_headers_and_indices (getShape st.pres s i).tbl = some hdrs from hhdrs]
  dsimp only
  rw [htg]
  dsimp only [Option.isNone]
  rw [if_pos rfl]
  dsimp only
  rw [show findRow (getTbl (setTbl st.pres s i (styleHeaderRow (getTbl st.pres s i))) s i)
    (hdrIdx hdrs "AI Tool") toolName = none from hnf2]

/-- A qualifying shape scanned before any target is cached, with a match:
the header row is styled, the shape is cached as the target, and the first
matching row is updated on the styled presentation. -/
lemma scanShape_match_none_target (st : SyncState) (rec : ExcelRow) (toolName : String)
    (s i : Nat) (hdrs : List String) (r : Nat)
    (htg : st.target = none)
    (hh : shapeHeaders st.pres s i = some hdrs)
    (hfr : shapeFindRow st.pres s i toolName = some r) :
    scanShape st rec toolName s i =
      ({ pres := setTbl (setTbl st.pres s i (styleHeaderRow (getTbl st.pres s i))) s i
           (updateRow (getTbl (setTbl st.pres s i (styleHeaderRow (getTbl st.pres s i))) s i)
             hdrs rec r).fst,
         target := some { slideIdx := s, shapeIdx := i, tableShapeIdx := i },
         updates_made := st.updates_made +
           (updateRow (getTbl (setTbl st.pres s i (styleHeaderRow (getTbl st.pres s i))) s i)
             hdrs rec r).snd,
         rows_added := st.rows_added,
         not_found_before_adding := st.not_found_before_adding }, true) := by
  obtain ⟨hht, hhdrs⟩ := shapeHeaders_some_elim _ _ _ _ hh
  obtain ⟨-, -, -, -, -, -, -, hhdrseq, hsfr⟩ := styled_readers st.pres s i hht
  have hh2 : shapeHeaders (setTbl st.pres s i (styleHeaderRow (getTbl st.pres s i))) s i =
      some hdrs := by rw [hhdrseq s i]; exact hh
  have hfr2 : findRow (getTbl (setTbl st.pres s i (styleHeaderRow (getTbl st.pres s i))) s i)
      (hdrIdx hdrs "AI Tool") toolName = some r := by
    rw [← shapeFindRow_some_hdrs _ _ _ _ _ hh2, hsfr s i toolName]
    exact hfr
  unfold scanShape
  dsimp only
  rw [hht]
  show (match _table_headers_and_indices (getShape st.pres s i).tbl with
    | none => (st, false)
    | some hdrs => _) = _
  rw [show _table_headers_and_indices (getShape st.pres s i).tbl = some hdrs from hhdrs]
  dsimp only
  rw [htg]
  dsimp only [Option.isNone]
  rw [if_pos rfl]
  dsimp only
  rw [show findRow (getTbl (setTbl st.pres s i (styleHeaderRow (getTbl st.pres s i))) s i)
    (hdrIdx hdrs "AI Tool") toolName = some r from hfr2]
lemma firstSomeAux_eq_none {α : Type} (f : Nat → Option α) (L : List Nat) :
    firstSomeAux f L = none ↔ ∀ i ∈ L, f i = none := by
  induction L with
  | nil => simp [firstSomeAux]
  | cons a rest ih =>
    unfold firstSomeAux
    rcases ha : f a with _ | v
    · simpa [ha] using ih
    · simp [ha]

lemma firstSomeAux_some_split {α : Type} (f : Nat → Option α) (L : List Nat) (i : Nat) (a : α)
    (h : firstSomeAux f L = some (i, a)) :
    ∃ L1 L2, L = L1 ++ i :: L2 ∧ (∀ j ∈ L1, f j = none) ∧ f i = some a := by
  induction L with
  | nil => exact absurd h (by simp [firstSomeAux])
  | cons b rest ih =>
    unfold firstSomeAux at h
    rcases hb : f b with _ | v
    · rw [hb] at h
      obtain ⟨L1, L2, he, hn, hi⟩ := ih h
      exact ⟨b :: L1, L2, by rw [he]; rfl,
        fun j hj => by
          rcases List.mem_cons.mp hj with hj | hj
          · rw [hj]; exact hb
          · exact hn j hj, hi⟩
    · rw [hb] at h
      dsimp only at h
      injection h with h
      injection h with h1 h2
      exact ⟨[], rest, by rw [List.nil_append, h1], by simp, by rw [← h1, hb, h2]⟩

lemma find?_congr {α : Type} (p q : α → Bool) (h : ∀ a, p a = q a) :
    ∀ l : List α, l.find? p = l.find? q := by
  intro l
  induction l with
  | nil => rfl
  | cons a rest ih =>
    rw [List.find?_cons, List.find?_cons, h a, ih]

lemma find?_none_split {α : Type} (p : α → Bool) (l : List α) :
    l.find? p = none ↔ ∀ a ∈ l, p a = false := by
  rw [List.find?_eq_none]
  constructor
  · intro h a ha
    simpa using h a ha
  · intro h a ha
    simp [h a ha]

lemma find?_some_split {α : Type} (p : α → Bool) (l : List α) (a : α)
    (h : l.find? p = some a) :
    ∃ l1 l2, l = l1 ++ a :: l2 ∧ (∀ b ∈ l1, p b = false) ∧ p a = true := by
  induction l with
  | nil => exact absurd h (by simp)
  | cons b rest ih =>
    rw [List.find?_cons] at h
    rcases hb : p b with _ | _
    · rw [hb] at h
      dsimp only at h
      obtain ⟨l1, l2, he, hn, ha⟩ := ih h
      exact ⟨b :: l1, l2, by rw [he]; rfl,
        fun c hc => by
          rcases List.mem_cons.mp hc with hc | hc
          · rw [hc]; exact hb
          · exact hn c hc, ha⟩
    · rw [hb] at h
      dsimp only at h
      injection h with h
      exact ⟨[], rest, by rw [List.nil_append, h], by simp, by rw [← h]; exact hb⟩

lemma shapeFindRow_some_elim (pres : List Slide) (s i : Nat) (toolName : String) (r : Nat)
    (h : shapeFindRow pres s i toolName = some r) :
    ∃ hdrs, shapeHeaders pres s i = some hdrs ∧
      findRow (getTbl pres s i) (hdrIdx hdrs "AI Tool") toolName = some r := by
  unfold shapeFindRow at h
  rcases hh : shapeHeaders pres s i with _ | hdrs
  · rw [hh] at h
    exact absurd h (by simp)
  · rw [hh] at h
    exact ⟨hdrs, rfl, h⟩

lemma shapeFindRow_none_of_headers_none (pres : List Slide) (s i : Nat) (toolName : String)
    (h : shapeHeaders pres s i = none) : shapeFindRow pres s i toolName = none := by
  unfold shapeFindRow
  rw [h]
lemma scanShape_no_match_none_target_d (st : SyncState) (rec : ExcelRow) (toolName : String)
    (s i : Nat) (hdrs : List String)
    (htg : st.target = none)
    (hh : shapeHeaders st.pres s i = some hdrs)
    (hnf : shapeFindRow st.pres s i toolName = none) :
    scanShape st rec toolName s i = (discState st s i, false) :=
  scanShape_no_match_none_target st rec toolName s i hdrs htg hh hnf

lemma scanShape_match_none_target_d (st : SyncState) (rec : ExcelRow) (toolName : String)
    (s i : Nat) (hdrs : List String) (r : Nat)
    (htg : st.target = none)
    (hh : shapeHeaders st.pres s i = some hdrs)
    (hfr : shapeFindRow st.pres s i toolName = some r) :
    scanShape st rec toolName s i = (updStateAt rec (discState st s i) s i hdrs r, true) :=
  scanShape_match_none_target st rec toolName s i hdrs r htg hh hfr

lemma scanShape_match_some_target_u (st : SyncState) (rec : ExcelRow) (toolName : String)
    (s i : Nat) (tg : TargetRef) (hdrs : List String) (r : Nat)
    (htg : st.target = some tg)
    (hh : shapeHeaders st.pres s i = some hdrs)
    (hfr : shapeFindRow st.pres s i toolName = some r) :
    scanShape st rec toolName s i = (updStateAt rec st s i hdrs r, true) :=
  scanShape_match_some_target st rec toolName s i tg hdrs r htg hh hfr

/-- All search-relevant readers are unchanged by the discovery styling. -/
lemma discState_readers (st : SyncState) (s0 i0 : Nat)
    (hq : (getShape st.pres s0 i0).hasTable = true) :
    (discState st s0 i0).pres.length = st.pres.length ∧
    (∀ s, (getSlide (discState st s0 i0).pres s).shapes.length =
      (getSlide st.pres s).shapes.length) ∧
    (∀ s i, shapeHeaders (discState st s0 i0).pres s i = shapeHeaders st.pres s i) ∧
    (∀ s i tool, shapeFindRow (discState st s0 i0).pres s i tool =
      shapeFindRow st.pres s i tool) ∧
    (∀ s tool, firstMatchInSlide (discState st s0 i0).pres s tool =
      firstMatchInSlide st.pres s tool) ∧
    (∀ s, firstQualInSlide (discState st s0 i0).pres s = firstQualInSlide st.pres s) ∧
    (∀ tool, firstMatch (discState st s0 i0).pres tool = firstMatch st.pres tool) ∧
    firstQualifying (discState st s0 i0).pres = firstQualifying st.pres := by
  obtain ⟨hlen, hslen, -, -, -, -, -, hhdrs, hsfr⟩ := styled_readers st.pres s0 i0 hq
  have hpres : (discState st s0 i0).pres =
      setTbl st.pres s0 i0 (styleHeaderRow (getTbl st.pres s0 i0)) := rfl
  rw [hpres] at *
  have hfmis : ∀ s tool,
      firstMatchInSlide (setTbl st.pres s0 i0 (styleHeaderRow (getTbl st.pres s0 i0))) s tool =
        firstMatchInSlide st.pres s tool := by
    intro s tool
    unfold firstMatchInSlide
    rw [hslen s, firstSomeAux_congr _ _ (fun i => hsfr s i tool)]
  have hfqis : ∀ s,
      firstQualInSlide (setTbl st.pres s0 i0 (styleHeaderRow (getTbl st.pres s0 i0))) s =
        firstQualInSlide st.pres s := by
    intro s
    unfold firstQualInSlide
    rw [hslen s, find?_congr _ _ (fun i => by rw [hhdrs s i])]
  refine ⟨hlen, hslen, hhdrs, hsfr, hfmis, hfqis, ?_, ?_⟩
  · intro tool
    unfold firstMatch
    rw [hlen, firstSomeAux_congr _ _ (fun s => hfmis s tool)]
  · unfold firstQualifying
    rw [hlen, firstSomeAux_congr _ _ (fun s => hfqis s)]
lemma scanShapes_cons (rec : ExcelRow) (toolName : String) (s i : Nat) (st : SyncState)
    (K : List Nat) :
    scanShapes rec toolName s st (i :: K) =
      (if (scanShape st rec toolName s i).snd then ((scanShape st rec toolName s i).fst, true)
       else scanShapes rec toolName s (scanShape st rec toolName s i).fst K) := rfl

/-- Shape loop with a cached target and no match anywhere: pure pass. -/
lemma scanShapes_no_match_some_target (rec : ExcelRow) (toolName : String) (s : Nat)
    (tg : TargetRef) :
    ∀ (K : List Nat) (st : SyncState), st.target = some tg →
      (∀ i ∈ K, shapeFindRow st.pres s i toolName = none) →
      scanShapes rec toolName s st K = (st, false) := by
  intro K
  induction K with
  | nil => intro st _ _; rfl
  | cons i rest ih =>
    intro st htg hnf
    rw [scanShapes_cons,
      scanShape_no_match_some_target st rec toolName s i tg htg (hnf i (by simp))]
    exact ih st htg (fun j hj => hnf j (List.mem_cons_of_mem i hj))

/-- Shape loop with a cached target: the first matching shape is updated and
the loop breaks there. -/
lemma scanShapes_match_some_target (rec : ExcelRow) (toolName : String) (s : Nat)
    (tg : TargetRef) (hdrs : List String) (i r : Nat) :
    ∀ (K1 K2 : List Nat) (st : SyncState), st.target = some tg →
      (∀ j ∈ K1, shapeFindRow st.pres s j toolName = none) →
      shapeHeaders st.pres s i = some hdrs →
      shapeFindRow st.pres s i toolName = some r →
      scanShapes rec toolName s st (K1 ++ i :: K2) = (updStateAt rec st s i hdrs r, true) := by
  intro K1
  induction K1 with
  | nil =>
    intro K2 st htg _ hh hfr
    rw [List.nil_append, scanShapes_cons,
      scanShape_match_some_target_u st rec toolName s i tg hdrs r htg hh hfr]
    rfl
  | cons j rest ih =>
    intro K2 st htg hnf hh hfr
    rw [List.cons_append, scanShapes_cons,
      scanShape_no_match_some_target st rec toolName s j tg htg (hnf j (by simp))]
    exact ih K2 st htg (fun j' hj' => hnf j' (List.mem_cons_of_mem j hj')) hh hfr

/-- Shape loop with no cached target over non-qualifying shapes: pure pass. -/
lemma scanShapes_no_qual (rec : ExcelRow) (toolName : String) (s : Nat) :
    ∀ (K : List Nat) (st : SyncState),
      (∀ i ∈ K, shapeHeaders st.pres s i = none) →
      scanShapes rec toolName s st K = (st, false) := by
  intro K
  induction K with
  | nil => intro st _; rfl
  | cons i rest ih =>
    intro st hnq
    rw [scanShapes_cons, scanShape_not_qualifying st rec toolName s i
      (shapeHeaders_none_elim _ _ _ (hnq i (by simp)))]
    exact ih st (fun j hj => hnq j (List.mem_cons_of_mem i hj))

/-- Shape loop with no cached target, discovery at i0, no match in the
slide: the discovery state is returned and the loop reports no find. -/
lemma scanShapes_disc_no_match (rec : ExcelRow) (toolName : String) (s : Nat)
    (hdrs0 : List String) (i0 : Nat) :
    ∀ (K1 K2 : List Nat) (st : SyncState), st.target = none →
      (∀ j ∈ K1, shapeHeaders st.pres s j = none) →
      shapeHeaders st.pres s i0 = some hdrs0 →
      shapeFindRow st.pres s i0 toolName = none →
      (∀ i ∈ K2, shapeFindRow st.pres s i toolName = none) →
      scanShapes rec toolName s st (K1 ++ i0 :: K2) = (discState st s i0, false) := by
  intro K1
  induction K1 with
  | nil =>
    intro K2 st htg _ hh0 hnf0 hnf2
    rw [List.nil_append, scanShapes_cons,
      scanShape_no_match_none_target_d st rec toolName s i0 hdrs0 htg hh0 hnf0]
    dsimp only
    obtain ⟨-, -, -, hsfr, -, -, -, -⟩ :=
      discState_readers st s i0 (shapeHeaders_some_elim _ _ _ _ hh0).1
    exact scanShapes_no_match_some_target rec toolName s _ K2 (discState st s i0) rfl
      (fun i hi => by rw [hsfr s i toolName]; exact hnf2 i hi)
  | cons j rest ih =>
    intro K2 st htg hnq hh0 hnf0 hnf2
    rw [List.cons_append, scanShapes_cons, scanShape_not_qualifying st rec toolName s j
      (shapeHeaders_none_elim _ _ _ (hnq j (by simp)))]
    exact ih K2 st htg (fun j' hj' => hnq j' (List.mem_cons_of_mem j hj')) hh0 hnf0 hnf2

/-- Shape loop with no cached target where the discovery shape itself holds
the first match. -/
lemma scanShapes_disc_match_here (rec : ExcelRow) (toolName : String) (s : Nat)
    (hdrs0 : List String) (i0 r : Nat) :
    ∀ (K1 K2 : List Nat) (st : SyncState), st.target = none →
      (∀ j ∈ K1, shapeHeaders st.pres s j = none) →
      shapeHeaders st.pres s i0 = some hdrs0 →
      shapeFindRow st.pres s i0 toolName = some r →
      scanShapes rec toolName s st (K1 ++ i0 :: K2) =
        (updStateAt rec (discState st s i0) s i0 hdrs0 r, true) := by
  intro K1
  induction K1 with
  | nil =>
    intro K2 st htg _ hh0 hfr0
    rw [List.nil_append, scanShapes_cons,
      scanShape_match_none_target_d st rec toolName s i0 hdrs0 r htg hh0 hfr0]
    rfl
  | cons j rest ih =>
    intro K2 st htg hnq hh0 hfr0
    rw [List.cons_append, scanShapes_cons, scanShape_not_qualifying st rec toolName s j
      (shapeHeaders_none_elim _ _ _ (hnq j (by simp)))]
    exact ih K2 st htg (fun j' hj' => hnq j' (List.mem_cons_of_mem j hj')) hh0 hfr0

/-- Shape loop with no cached target, discovery at i0, first match at a
later shape i of the same slide. -/
lemma scanShapes_disc_match_later (rec : ExcelRow) (toolName : String) (s : Nat)
    (hdrs0 hdrs : List String) (i0 i r : Nat) :
    ∀ (K1 K3 K4 : List Nat) (st : SyncState), st.target = none →
      (∀ j ∈ K1, shapeHeaders st.pres s j = none) →
      shapeHeaders st.pres s i0 = some hdrs0 →
      shapeFindRow st.pres s i0 toolName = none →
      (∀ j ∈ K3, shapeFindRow st.pres s j toolName = none) →
      shapeHeaders st.pres s i = some hdrs →
      shapeFindRow st.pres s i toolName = some r →
      scanShapes rec toolName s st (K1 ++ i0 :: (K3 ++ i :: K4)) =
        (updStateAt rec (discState st s i0) s i hdrs r, true) := by
  intro K1
  induction K1 with
  | nil =>
    intro K3 K4 st htg _ hh0 hnf0 hnf3 hh hfr
    rw [List.nil_append, scanShapes_cons,
      scanShape_no_match_none_target_d st rec toolName s i0 hdrs0 htg hh0 hnf0]
    dsimp only
    obtain ⟨-, -, hhdrseq, hsfr, -, -, -, -⟩ :=
      discState_readers st s i0 (shapeHeaders_some_elim _ _ _ _ hh0).1
    exact scanShapes_match_some_target rec toolName s _ hdrs i r K3 K4 (discState st s i0) rfl
      (fun j hj => by rw [hsfr s j toolName]; exact hnf3 j hj)
      (by rw [hhdrseq s i]; exact hh)
      (by rw [hsfr s i toolName]; exact hfr)
  | cons j rest ih =>
    intro K3 K4 st htg hnq hh0 hnf0 hnf3 hh hfr
    rw [List.cons_append, scanShapes_cons, scanShape_not_qualifying st rec toolName s j
      (shapeHeaders_none_elim _ _ _ (hnq j (by simp)))]
    exact ih K3 K4 st htg (fun j' hj' => hnq j' (List.mem_cons_of_mem j hj')) hh0 hnf0 hnf3 hh hfr
lemma append_cons_trichotomy {α : Type} (a b : α) (l1 l2 m1 m2 : List α)
    (h : l1 ++ a :: l2 = m1 ++ b :: m2) :
    (l1 = m1 ∧ a = b ∧ l2 = m2) ∨
    (∃ t, m1 = l1 ++ a :: t ∧ l2 = t ++ b :: m2) ∨
    (∃ t, l1 = m1 ++ b :: t ∧ m2 = t ++ a :: l2) := by
  rcases List.append_eq_append_iff.mp h with ⟨a', ha1, ha2⟩ | ⟨c', hc1, hc2⟩
  · cases a' with
    | nil =>
      rw [List.append_nil] at ha1
      rcases List.cons.injEq a l2 b m2 ▸ ha2 with ⟨he1, he2⟩
      exact Or.inl ⟨ha1.symm, he1, he2⟩
    | cons x t =>
      rcases List.cons.injEq a l2 x (t ++ b :: m2) ▸ ha2 with ⟨he1, he2⟩
      exact Or.inr (Or.inl ⟨t, by rw [ha1, he1], he2⟩)
  · cases c' with
    | nil =>
      rw [List.append_nil] at hc1
      rcases List.cons.injEq b m2 a l2 ▸ hc2 with ⟨he1, he2⟩
      exact Or.inl ⟨hc1, he1.symm, he2.symm⟩
    | cons x t =>
      rcases List.cons.injEq b m2 x (t ++ a :: l2) ▸ hc2 with ⟨he1, he2⟩
      exact Or.inr (Or.inr ⟨t, by rw [hc1, he1], he2⟩)

lemma firstMatchInSlide_none_all (pres : List Slide) (s : Nat) (toolName : String)
    (h : firstMatchInSlide pres s toolName = none) :
    ∀ i ∈ List.range (getSlide pres s).shapes.length, shapeFindRow pres s i toolName = none :=
  (firstSomeAux_eq_none _ _).mp h

lemma firstQualInSlide_none_all (pres : List Slide) (s : Nat)
    (h : firstQualInSlide pres s = none) :
    ∀ i ∈ List.range (getSlide pres s).shapes.length, shapeHeaders pres s i = none := by
  intro i hi
  have := (find?_none_split _ _).mp h i hi
  simpa using this

lemma firstQualInSlide_some_split (pres : List Slide) (s i0 : Nat)
    (h : firstQualInSlide pres s = some i0) :
    ∃ K1 K2 hdrs0, List.range (getSlide pres s).shapes.length = K1 ++ i0 :: K2 ∧
      (∀ j ∈ K1, shapeHeaders pres s j = none) ∧ shapeHeaders pres s i0 = some hdrs0 := by
  obtain ⟨K1, K2, he, hn, hi⟩ := find?_some_split _ _ _ h
  rcases hh : shapeHeaders pres s i0 with _ | hdrs0
  · rw [hh] at hi
    exact absurd hi (by simp)
  · exact ⟨K1, K2, hdrs0, he, fun j hj => by simpa using hn j hj, rfl⟩

lemma firstMatchInSlide_some_split (pres : List Slide) (s : Nat) (toolName : String)
    (i r : Nat) (h : firstMatchInSlide pres s toolName = some (i, r)) :
    ∃ K1 K2, List.range (getSlide pres s).shapes.length = K1 ++ i :: K2 ∧
      (∀ j ∈ K1, shapeFindRow pres s j toolName = none) ∧
      shapeFindRow pres s i toolName = some r :=
  firstSomeAux_some_split _ _ _ _ h

/-- One slide scanned with a cached target and no match in it: pure pass. -/
lemma scanShapes_slide_pass (rec : ExcelRow) (toolName : String) (s : Nat)
    (tg : TargetRef) (st : SyncState) (htg : st.target = some tg)
    (hfm : firstMatchInSlide st.pres s toolName = none) :
    scanShapes rec toolName s st (List.range (getSlide st.pres s).shapes.length) =
      (st, false) :=
  scanShapes_no_match_some_target rec toolName s tg _ st htg
    (firstMatchInSlide_none_all st.pres s toolName hfm)

/-- One slide scanned with a cached target holding the first match. -/
lemma scanShapes_slide_match (rec : ExcelRow) (toolName : String) (s : Nat)
    (tg : TargetRef) (hdrs : List String) (i r : Nat) (st : SyncState)
    (htg : st.target = some tg)
    (hfm : firstMatchInSlide st.pres s toolName = some (i, r))
    (hh : shapeHeaders st.pres s i = some hdrs) :
    scanShapes rec toolName s st (List.range (getSlide st.pres s).shapes.length) =
      (updStateAt rec st s i hdrs r, true) := by
  obtain ⟨K1, K2, he, hn, hi⟩ := firstMatchInSlide_some_split st.pres s toolName i r hfm
  rw [he]
  exact scanShapes_match_some_target rec toolName s tg hdrs i r K1 K2 st htg hn hh hi

/-- One slide scanned with no cached target and no qualifying shape. -/
lemma scanShapes_slide_noqual (rec : ExcelRow) (toolName : String) (s : Nat)
    (st : SyncState) (hq : firstQualInSlide st.pres s = none) :
    scanShapes rec toolName s st (List.range (getSlide st.pres s).shapes.length) =
      (st, false) :=
  scanShapes_no_qual rec toolName s _ st (firstQualInSlide_none_all st.pres s hq)

/-- One slide scanned with no cached target, a qualifying shape, no match:
discovery happens and the loop continues. -/
lemma scanShapes_slide_disc_pass (rec : ExcelRow) (toolName : String) (s i0 : Nat)
    (st : SyncState) (htg : st.target = none)
    (hq : firstQualInSlide st.pres s = some i0)
    (hfm : firstMatchInSlide st.pres s toolName = none) :
    scanShapes rec toolName s st (List.range (getSlide st.pres s).shapes.length) =
      (discState st s i0, false) := by
  obtain ⟨K1, K2, hdrs0, he, hn, hh0⟩ := firstQualInSlide_some_split st.pres s i0 hq
  have hall := firstMatchInSlide_none_all st.pres s toolName hfm
  rw [he]
  refine scanShapes_disc_no_match rec toolName s hdrs0 i0 K1 K2 st htg hn hh0 ?_ ?_
  · exact hall i0 (by rw [he]; exact List.mem_append_right _ (by simp))
  · intro i hi
    exact hall i (by rw [he]; exact List.mem_append_right _ (List.mem_cons_of_mem i0 hi))

/-- One slide scanned with no cached target, containing both the first
qualifying shape and the first match: discovery then update. -/
lemma scanShapes_slide_disc_match (rec : ExcelRow) (toolName : String) (s i0 i r : Nat)
    (hdrs : List String) (st : SyncState) (htg : st.target = none)
    (hq : firstQualInSlide st.pres s = some i0)
    (hfm : firstMatchInSlide st.pres s toolName = some (i, r))
    (hh : shapeHeaders st.pres s i = some hdrs) :
    scanShapes rec toolName s st (List.range (getSlide st.pres s).shapes.length) =
      (updStateAt rec (discState st s i0) s i hdrs r, true) := by
  obtain ⟨Kq1, Kq2, hdrs0, hqe, hqn, hh0⟩ := firstQualInSlide_some_split st.pres s i0 hq
  obtain ⟨Km1, Km2, hme, hmn, hmi⟩ := firstMatchInSlide_some_split st.pres s toolName i r hfm
  rcases append_cons_trichotomy i0 i Kq1 Kq2 Km1 Km2 (by rw [← hqe, ← hme]) with
    ⟨h1, h2, h3⟩ | ⟨t, ht1, ht2⟩ | ⟨t, ht1, ht2⟩
  · subst h2
    rw [hqe]
    have hh0eq : hdrs0 = hdrs := by
      rw [hh0] at hh
      injection hh
    rw [hh0eq] at hh0
    exact scanShapes_disc_match_here rec toolName s hdrs i0 r Kq1 Kq2 st htg hqn hh0 hmi
  · rw [hqe, ht2]
    refine scanShapes_disc_match_later rec toolName s hdrs0 hdrs i0 i r Kq1 t Km2 st htg
      hqn hh0 ?_ ?_ hh hmi
    · exact hmn i0 (by rw [ht1]; exact List.mem_append_right _ (by simp))
    · intro j hj
      exact hmn j (by rw [ht1]; exact List.mem_append_right _ (List.mem_cons_of_mem i0 hj))
  · exfalso
    have hiq : i ∈ Kq1 := by
      rw [ht1]
      exact List.mem_append_right _ (by simp)
    have := shapeFindRow_none_of_headers_none st.pres s i toolName (hqn i hiq)
    rw [this] at hmi
    exact absurd hmi (by simp)
lemma scanSlides_cons (rec : ExcelRow) (toolName : String) (st : SyncState) (s : Nat)
    (S : List Nat) :
    scanSlides rec toolName st (s :: S) =
      (if (scanShapes rec toolName s st (List.range (getSlide st.pres s).shapes.length)).snd
       then ((scanShapes rec toolName s st (List.range (getSlide st.pres s).shapes.length)).fst, true)
       else scanSlides rec toolName
         (scanShapes rec toolName s st (List.range (getSlide st.pres s).shapes.length)).fst S) := rfl

lemma fmis_none_of_fqis_none (pres : List Slide) (s : Nat) (toolName : String)
    (h : firstQualInSlide pres s = none) : firstMatchInSlide pres s toolName = none :=
  (firstSomeAux_eq_none _ _).mpr (fun i hi =>
    shapeFindRow_none_of_headers_none pres s i toolName (firstQualInSlide_none_all pres s h i hi))

/-- Slide loop with a cached target and no match anywhere: pure pass. -/
lemma scanSlides_no_match_some_target (rec : ExcelRow) (toolName : String) (tg : TargetRef) :
    ∀ (S : List Nat) (st : SyncState), st.target = some tg →
      (∀ s ∈ S, firstMatchInSlide st.pres s toolName = none) →
      scanSlides rec toolName st S = (st, false) := by
  intro S
  induction S with
  | nil => intro st _ _; rfl
  | cons s rest ih =>
    intro st htg hfm
    rw [scanSlides_cons, scanShapes_slide_pass rec toolName s tg st htg (hfm s (by simp))]
    exact ih st htg (fun s' hs' => hfm s' (List.mem_cons_of_mem s hs'))

/-- Slide loop with a cached target: the slide holding the first match ends
the loop with the update applied. -/
lemma scanSlides_match_some_target (rec : ExcelRow) (toolName : String) (tg : TargetRef)
    (hdrs : List String) (s i r : Nat) :
    ∀ (S1 S2 : List Nat) (st : SyncState), st.target = some tg →
      (∀ s' ∈ S1, firstMatchInSlide st.pres s' toolName = none) →
      firstMatchInSlide st.pres s toolName = some (i, r) →
      shapeHeaders st.pres s i = some hdrs →
      scanSlides rec toolName st (S1 ++ s :: S2) = (updStateAt rec st s i hdrs r, true) := by
  intro S1
  induction S1 with
  | nil =>
    intro S2 st htg _ hfm hh
    rw [List.nil_append, scanSlides_cons,
      scanShapes_slide_match rec toolName s tg hdrs i r st htg hfm hh]
    rfl
  | cons s' rest ih =>
    intro S2 st htg hno hfm hh
    rw [List.cons_append, scanSlides_cons,
      scanShapes_slide_pass rec toolName s' tg st htg (hno s' (by simp))]
    exact ih S2 st htg (fun x hx => hno x (List.mem_cons_of_mem s' hx)) hfm hh

/-- Slide loop over slides with no qualifying shape: pure pass. -/
lemma scanSlides_noqual (rec : ExcelRow) (toolName : String) :
    ∀ (S : List Nat) (st : SyncState),
      (∀ s ∈ S, firstQualInSlide st.pres s = none) →
      scanSlides rec toolName st S = (st, false) := by
  intro S
  induction S with
  | nil => intro st _; rfl
  | cons s rest ih =>
    intro st hq
    rw [scanSlides_cons, scanShapes_slide_noqual rec toolName s st (hq s (by simp))]
    exact ih st (fun s' hs' => hq s' (List.mem_cons_of_mem s hs'))

/-- Slide loop with no cached target, discovery at (s0, i0), no match in the
document: discovery state, no find. -/
lemma scanSlides_disc_pass (rec : ExcelRow) (toolName : String) (i0 : Nat) (s0 : Nat) :
    ∀ (S1 S2 : List Nat) (st : SyncState), st.target = none →
      (∀ s ∈ S1, firstQualInSlide st.pres s = none) →
      firstQualInSlide st.pres s0 = some i0 →
      firstMatchInSlide st.pres s0 toolName = none →
      (∀ s ∈ S2, firstMatchInSlide st.pres s toolName = none) →
      scanSlides rec toolName st (S1 ++ s0 :: S2) = (discState st s0 i0, false) := by
  intro S1
  induction S1 with
  | nil =>
    intro S2 st htg _ hq0 hfm0 hfm2
    rw [List.nil_append, scanSlides_cons,
      scanShapes_slide_disc_pass rec toolName s0 i0 st htg hq0 hfm0]
    dsimp only
    obtain ⟨K1, K2, hdrs0, -, -, hh0⟩ := firstQualInSlide_some_split st.pres s0 i0 hq0
    obtain ⟨-, -, -, -, hfmis, -, -, -⟩ :=
      discState_readers st s0 i0 (shapeHeaders_some_elim _ _ _ _ hh0).1
    exact scanSlides_no_match_some_target rec toolName _ S2 (discState st s0 i0) rfl
      (fun s hs => by rw [hfmis s toolName]; exact hfm2 s hs)
  | cons s' rest ih =>
    intro S2 st htg hq hq0 hfm0 hfm2
    rw [List.cons_append, scanSlides_cons,
      scanShapes_slide_noqual rec toolName s' st (hq s' (by simp))]
    exact ih S2 st htg (fun x hx => hq x (List.mem_cons_of_mem s' hx)) hq0 hfm0 hfm2

/-- Slide loop with no cached target where the discovery slide also holds
the first match. -/
lemma scanSlides_disc_match_here (rec : ExcelRow) (toolName : String)
    (hdrs : List String) (s0 i0 i r : Nat) :
    ∀ (S1 S2 : List Nat) (st : SyncState), st.target = none →
      (∀ s ∈ S1, firstQualInSlide st.pres s = none) →
      firstQualInSlide st.pres s0 = some i0 →
      firstMatchInSlide st.pres s0 toolName = some (i, r) →
      shapeHeaders st.pres s0 i = some hdrs →
      scanSlides rec toolName st (S1 ++ s0 :: S2) =
        (updStateAt rec (discState st s0 i0) s0 i hdrs r, true) := by
  intro S1
  induction S1 with
  | nil =>
    intro S2 st htg _ hq0 hfm0 hh
    rw [List.nil_append, scanSlides_cons,
      scanShapes_slide_disc_match rec toolName s0 i0 i r hdrs st htg hq0 hfm0 hh]
    rfl
  | cons s' rest ih =>
    intro S2 st htg hq hq0 hfm0 hh
    rw [List.cons_append, scanSlides_cons,
      scanShapes_slide_noqual rec toolName s' st (hq s' (by simp))]
    exact ih S2 st htg (fun x hx => hq x (List.mem_cons_of_mem s' hx)) hq0 hfm0 hh

/-- Slide loop with no cached target: discovery at (s0, i0), first match on
a later slide s. -/
lemma scanSlides_disc_match_later (rec : ExcelRow) (toolName : String)
    (hdrs : List String) (s0 i0 s i r : Nat) :
    ∀ (S1 S3 S4 : List Nat) (st : SyncState), st.target = none →
      (∀ s' ∈ S1, firstQualInSlide st.pres s' = none) →
      firstQualInSlide st.pres s0 = some i0 →
      firstMatchInSlide st.pres s0 toolName = none →
      (∀ s' ∈ S3, firstMatchInSlide st.pres s' toolName = none) →
      firstMatchInSlide st.pres s toolName = some (i, r) →
      shapeHeaders st.pres s i = some hdrs →
      scanSlides rec toolName st (S1 ++ s0 :: (S3 ++ s :: S4)) =
        (updStateAt rec (discState st s0 i0) s i hdrs r, true) := by
  intro S1
  induction S1 with
  | nil =>
    intro S3 S4 st htg _ hq0 hfm0 hfm3 hfm hh
    rw [List.nil_append, scanSlides_cons,
      scanShapes_slide_disc_pass rec toolName s0 i0 st htg hq0 hfm0]
    dsimp only
    obtain ⟨K1, K2, hdrs0, -, -, hh0⟩ := firstQualInSlide_some_split st.pres s0 i0 hq0
    obtain ⟨-, -, hhdrseq, -, hfmis, -, -, -⟩ :=
      discState_readers st s0 i0 (shapeHeaders_some_elim _ _ _ _ hh0).1
    exact scanSlides_match_some_target rec toolName _ hdrs s i r S3 S4 (discState st s0 i0) rfl
      (fun x hx => by rw [hfmis x toolName]; exact hfm3 x hx)
      (by rw [hfmis s toolName]; exact hfm)
      (by rw [hhdrseq s i]; exact hh)
  | cons s' rest ih =>
    intro S3 S4 st htg hq hq0 hfm0 hfm3 hfm hh
    rw [List.cons_append, scanSlides_cons,
      scanShapes_slide_noqual rec toolName s' st (hq s' (by simp))]
    exact ih S3 S4 st htg (fun x hx => hq x (List.mem_cons_of_mem s' hx)) hq0 hfm0 hfm3 hfm hh
lemma firstMatch_none_all (pres : List Slide) (toolName : String)
    (h : firstMatch pres toolName = none) :
    ∀ s ∈ List.range pres.length, firstMatchInSlide pres s toolName = none :=
  (firstSomeAux_eq_none _ _).mp h

lemma firstQualifying_none_all (pres : List Slide)
    (h : firstQualifying pres = none) :
    ∀ s ∈ List.range pres.length, firstQualInSlide pres s = none :=
  (firstSomeAux_eq_none _ _).mp h

/-- Full search with a cached target, tool absent from the document. -/
lemma scan_eval_pass (rec : ExcelRow) (toolName : String) (tg : TargetRef) (st : SyncState)
    (htg : st.target = some tg)
    (hfm : firstMatch st.pres toolName = none) :
    scanSlides rec toolName st (List.range st.pres.length) = (st, false) :=
  scanSlides_no_match_some_target rec toolName tg _ st htg
    (firstMatch_none_all st.pres toolName hfm)

/-- Full search with a cached target, tool present: the first matching row
in document order is updated and the search stops there. -/
lemma scan_eval_match (rec : ExcelRow) (toolName : String) (tg : TargetRef)
    (hdrs : List String) (s i r : Nat) (st : SyncState)
    (htg : st.target = some tg)
    (hfm : firstMatch st.pres toolName = some (s, i, r))
    (hh : shapeHeaders st.pres s i = some hdrs) :
    scanSlides rec toolName st (List.range st.pres.length) =
      (updStateAt rec st s i hdrs r, true) := by
  obtain ⟨S1, S2, he, hn, hs⟩ := firstSomeAux_some_split _ _ _ _ hfm
  rw [he]
  exact scanSlides_match_some_target rec toolName tg hdrs s i r S1 S2 st htg hn hs hh

/-- Full search with no cached target and no qualifying table anywhere:
nothing happens. -/
lemma scan_eval_noqual (rec : ExcelRow) (toolName : String) (st : SyncState)
    (hq : firstQualifying st.pres = none) :
    scanSlides rec toolName st (List.range st.pres.length) = (st, false) :=
  scanSlides_noqual rec toolName _ st (firstQualifying_none_all st.pres hq)

/-- Full search with no cached target, a qualifying table, tool absent:
the first qualifying table is styled and cached; no other change. -/
lemma scan_eval_disc_pass (rec : ExcelRow) (toolName : String) (s0 i0 : Nat) (st : SyncState)
    (htg : st.target = none)
    (hq : firstQualifying st.pres = some (s0, i0))
    (hfm : firstMatch st.pres toolName = none) :
    scanSlides rec toolName st (List.range st.pres.length) =
      (discState st s0 i0, false) := by
  obtain ⟨S1, S2, he, hn, hs⟩ := firstSomeAux_some_split _ _ _ _ hq
  have hall := firstMatch_none_all st.pres toolName hfm
  rw [he]
  refine scanSlides_disc_pass rec toolName i0 s0 S1 S2 st htg hn hs ?_ ?_
  · exact hall s0 (by rw [he]; exact List.mem_append_right _ (by simp))
  · intro s hsm
    exact hall s (by rw [he]; exact List.mem_append_right _ (List.mem_cons_of_mem s0 hsm))

/-- Full search with no cached target, a qualifying table and a match: the
first qualifying table is styled and cached, then the first matching row is
updated on the styled document, and the search stops. -/
lemma scan_eval_disc_match (rec : ExcelRow) (toolName : String)
    (hdrs : List String) (s0 i0 s i r : Nat) (st : SyncState)
    (htg : st.target = none)
    (hq : firstQualifying st.pres = some (s0, i0))
    (hfm : firstMatch st.pres toolName = some (s, i, r))
    (hh : shapeHeaders st.pres s i = some hdrs) :
    scanSlides rec toolName st (List.range st.pres.length) =
      (updStateAt rec (discState st s0 i0) s i hdrs r, true) := by
  obtain ⟨Sq1, Sq2, hqe, hqn, hqs⟩ := firstSomeAux_some_split _ _ _ _ hq
  obtain ⟨Sm1, Sm2, hme, hmn, hms⟩ := firstSomeAux_some_split _ _ _ _ hfm
  rcases append_cons_trichotomy s0 s Sq1 Sq2 Sm1 Sm2 (by rw [← hqe, ← hme]) with
    ⟨h1, h2, h3⟩ | ⟨t, ht1, ht2⟩ | ⟨t, ht1, ht2⟩
  · subst h2
    rw [hqe]
    exact scanSlides_disc_match_here rec toolName hdrs s0 i0 i r Sq1 Sq2 st htg hqn hqs hms hh
  · rw [hqe, ht2]
    refine scanSlides_disc_match_later rec toolName hdrs s0 i0 s i r Sq1 t Sm2 st htg
      hqn hqs ?_ ?_ hms hh
    · exact hmn s0 (by rw [ht1]; exact List.mem_append_right _ (by simp))
    · intro x hx
      exact hmn x (by rw [ht1]; exact List.mem_append_right _ (List.mem_cons_of_mem s0 hx))
  · exfalso
    have hsq : s ∈ Sq1 := by
      rw [ht1]
      exact List.mem_append_right _ (by simp)
    have := fmis_none_of_fqis_none st.pres s toolName (hqn s hsq)
    rw [this] at hms
    exact absurd hms (by simp)
lemma firstMatch_elim (pres : List Slide) (toolName : String) (s i r : Nat)
    (h : firstMatch pres toolName = some (s, i, r)) :
    s < pres.length ∧ i < (getSlide pres s).shapes.length ∧
    shapeFindRow pres s i toolName = some r := by
  obtain ⟨S1, S2, he, -, hs⟩ := firstSomeAux_some_split _ _ _ _ h
  have hsmem : s ∈ List.range pres.length := by
    rw [he]
    exact List.mem_append_right _ (by simp)
  obtain ⟨K1, K2, hke, -, hk⟩ := firstSomeAux_some_split _ _ _ _ hs
  have himem : i ∈ List.range (getSlide pres s).shapes.length := by
    rw [hke]
    exact List.mem_append_right _ (by simp)
  exact ⟨List.mem_range.mp hsmem, List.mem_range.mp himem, hk⟩

/-- Claim C3: when the record's key matches a body row (the first match in
document scan order), the search with a cached target stops right at that
row — the three nested loops exit early, so exactly one table is rewritten
and the per-record counters move only by the update — each of the three
non-key mapped cells is overwritten (with body styling) exactly when its
current trimmed text differs from the record's trimmed value, the change
counter grows by one per cell actually overwritten, the key cell is
re-styled even when unchanged, and every other cell, shape and slide is
left untouched. -/
theorem C3_match_update_and_early_exit (rec : ExcelRow) (toolName : String) (tg : TargetRef)
    (hdrs : List String) (s i r : Nat) (st : SyncState)
    (htg : st.target = some tg)
    (hfm : firstMatch st.pres toolName = some (s, i, r))
    (hh : shapeHeaders st.pres s i = some hdrs)
    (hrect : ∀ r', r' < (getTbl st.pres s i).grid.length →
      ((getTbl st.pres s i).grid.getD r' []).length = (getTbl st.pres s i).cols) :
    scanSlides rec toolName st (List.range st.pres.length) =
      (updStateAt rec st s i hdrs r, true) ∧
    (updStateAt rec st s i hdrs r).updates_made = st.updates_made +
      ((if pstrip ((getTbl st.pres s i).cell r (hdrIdx hdrs "Tool Description")).text =
          pstrip rec.serviceUseCase then 0 else 1) +
       (if pstrip ((getTbl st.pres s i).cell r (hdrIdx hdrs "Requestor")).text =
          pstrip rec.requestor then 0 else 1) +
       (if pstrip ((getTbl st.pres s i).cell r (hdrIdx hdrs "Current State")).text =
          pstrip rec.status then 0 else 1)) ∧
    (1 ≤ r ∧ r < (getTbl st.pres s i).grid.length ∧
     rowKeyMatches (getTbl st.pres s i) (hdrIdx hdrs "AI Tool") toolName r = true ∧
     (∀ r2, 1 ≤ r2 → r2 < r →
       rowKeyMatches (getTbl st.pres s i) (hdrIdx hdrs "AI Tool") toolName r2 = false)) ∧
    ((getTbl (updStateAt rec st s i hdrs r).pres s i).cell r (hdrIdx hdrs "Tool Description") =
      (if pstrip ((getTbl st.pres s i).cell r (hdrIdx hdrs "Tool Description")).text =
         pstrip rec.serviceUseCase
       then (getTbl st.pres s i).cell r (hdrIdx hdrs "Tool Description")
       else { text := pstrip rec.serviceUseCase, style := some bodyFont })) ∧
    ((getTbl (updStateAt rec st s i hdrs r).pres s i).cell r (hdrIdx hdrs "Requestor") =
      (if pstrip ((getTbl st.pres s i).cell r (hdrIdx hdrs "Requestor")).text =
         pstrip rec.requestor
       then (getTbl st.pres s i).cell r (hdrIdx hdrs "Requestor")
       else { text := pstrip rec.requestor, style := some bodyFont })) ∧
    ((getTbl (updStateAt rec st s i hdrs r).pres s i).cell r (hdrIdx hdrs "Current State") =
      (if pstrip ((getTbl st.pres s i).cell r (hdrIdx hdrs "Current State")).text =
         pstrip rec.status
       then (getTbl st.pres s i).cell r (hdrIdx hdrs "Current State")
       else { text := pstrip rec.status, style := some bodyFont })) ∧
    ((getTbl (updStateAt rec st s i hdrs r).pres s i).cell r (hdrIdx hdrs "AI Tool") =
      set_cell_style ((getTbl st.pres s i).cell r (hdrIdx hdrs "AI Tool")) false) ∧
    (∀ r' c', r' ≠ r ∨ (c' ≠ hdrIdx hdrs "Tool Description" ∧ c' ≠ hdrIdx hdrs "Requestor" ∧
        c' ≠ hdrIdx hdrs "Current State" ∧ c' ≠ hdrIdx hdrs "AI Tool") →
      (getTbl (updStateAt rec st s i hdrs r).pres s i).cell r' c' =
        (getTbl st.pres s i).cell r' c') ∧
    (∀ s' i', s' ≠ s ∨ i' ≠ i →
      getTbl (updStateAt rec st s i hdrs r).pres s' i' = getTbl st.pres s' i') ∧
    (updStateAt rec st s i hdrs r).target = st.target ∧
    (updStateAt rec st s i hdrs r).rows_added = st.rows_added ∧
    (updStateAt rec st s i hdrs r).not_found_before_adding = st.not_found_before_adding := by
  obtain ⟨hs, hi, hsfr⟩ := firstMatch_elim st.pres toolName s i r hfm
  obtain ⟨hht, hhdrs⟩ := shapeHeaders_some_elim _ _ _ _ hh
  obtain ⟨hdeg, hlen0, hcols0, hhdreq, hhlen, hmemreq⟩ := headers_some_facts _ _ hhdrs
  obtain ⟨bK, bD, bR, bS, dDR, dDS, dRS, dKD, dKR, dKS⟩ := qual_col_facts _ _ hhdrs
  have hfr : findRow (getTbl st.pres s i) (hdrIdx hdrs "AI Tool") toolName = some r := by
    rw [← shapeFindRow_some_hdrs st.pres s i toolName hdrs hh]
    exact hsfr
  have hfr' : findRowAux (getTbl st.pres s i) (hdrIdx hdrs "AI Tool") toolName
      (List.range' 1 ((getTbl st.pres s i).grid.length - 1)) = some r := hfr
  obtain ⟨hr1, hr2, hrm, hrfirst⟩ :=
    (findRowAux_range' (getTbl st.pres s i) (hdrIdx hdrs "AI Tool") toolName r
      ((getTbl st.pres s i).grid.length - 1) 1).mp hfr'
  have hrlt : r < (getTbl st.pres s i).grid.length := by omega
  have hrow : ((getTbl st.pres s i).grid.getD r []).length = (getTbl st.pres s i).cols :=
    hrect r hrlt
  obtain ⟨u1, u2, u3, u4, u5, u6, u7, u8, u9, u10, u11⟩ :=
    updateRow_facts (getTbl st.pres s i) hdrs rec r
      (hdrIdx hdrs "Tool Description") (hdrIdx hdrs "Requestor")
      (hdrIdx hdrs "Current State") (hdrIdx hdrs "AI Tool")
      rfl rfl rfl rfl hrlt
      (by rw [hrow]; exact bD) (by rw [hrow]; exact bR)
      (by rw [hrow]; exact bS) (by rw [hrow]; exact bK)
      dDR dDS dRS dKD dKR dKS
  have hpres : (updStateAt rec st s i hdrs r).pres =
      setTbl st.pres s i (updateRow (getTbl st.pres s i) hdrs rec r).fst := rfl
  have ht' : getTbl (updStateAt rec st s i hdrs r).pres s i =
      (updateRow (getTbl st.pres s i) hdrs rec r).fst := by
    rw [hpres]
    exact getTbl_setTbl_self st.pres s i _ hs hi
  refine ⟨scan_eval_match rec toolName tg hdrs s i r st htg hfm hh, ?_, ⟨hr1, hrlt, hrm, ?_⟩,
    ?_, ?_, ?_, ?_, ?_, ?_, rfl, rfl, rfl⟩
  · show st.updates_made + (updateRow (getTbl st.pres s i) hdrs rec r).snd = _
    rw [u1]
  · intro r2 h1 h2
    exact hrfirst r2 h1 h2
  · rw [ht']
    exact u2
  · rw [ht']
    exact u3
  · rw [ht']
    exact u4
  · rw [ht']
    exact u5
  · intro r' c' hne
    rw [ht']
    exact u6 r' c' hne
  · intro s' i' hne
    rw [hpres]
    exact getTbl_setTbl_ne st.pres s s' i i' _
      (by rcases hne with h | h
          · exact Or.inl (fun e => h e.symm)
          · exact Or.inr (fun e => h e.symm))
/-- Witness for C3: on the one-slide fixture with a cached target, the scan
finds ToolX in body row 1 of the only table and stops there with the
update applied. -/
theorem C3_match_update_and_early_exit_witness :
    firstMatch fixPres "ToolX" = some (0, 0, 1) ∧
    scanSlides fixRec "ToolX"
        (⟨fixPres, some ⟨0, 0, 0⟩, 0, 0, 0⟩ : SyncState)
        (List.range (⟨fixPres, some ⟨0, 0, 0⟩, 0, 0, 0⟩ : SyncState).pres.length) =
      (updStateAt fixRec (⟨fixPres, some ⟨0, 0, 0⟩, 0, 0, 0⟩ : SyncState) 0 0
        ["AI Tool", "Tool Description", "Requestor", "Current State"] 1, true) :=
  ⟨by decide,
   (C3_match_update_and_early_exit fixRec "ToolX" ⟨0, 0, 0⟩
     ["AI Tool", "Tool Description", "Requestor", "Current State"] 0 0 1
     (⟨fixPres, some ⟨0, 0, 0⟩, 0, 0, 0⟩ : SyncState)
     rfl (by decide) (by decide) (by decide)).1⟩
lemma processRecord_skip (rf : Nat → Bool) (addM : Bool) (st : SyncState) (rec : ExcelRow)
    (h : pstrip rec.tool = "") : processRecord rf addM st rec = st := by
  unfold processRecord
  rw [h]
  rfl

/-- The matched-row update never touches any other row. -/
lemma updateRow_row_ne (t : Table) (hdrs : List String) (rec : ExcelRow) (r r' c' : Nat)
    (h : r' ≠ r) : (updateRow t hdrs rec r).fst.cell r' c' = t.cell r' c' := by
  obtain ⟨-, f1, -, -⟩ := updCell_facts t r (hdrIdx hdrs "Tool Description") (pstrip rec.serviceUseCase)
  set t1 := (updCell t r (hdrIdx hdrs "Tool Description") (pstrip rec.serviceUseCase)).fst with ht1
  obtain ⟨-, f2, -, -⟩ := updCell_facts t1 r (hdrIdx hdrs "Requestor") (pstrip rec.requestor)
  set t2 := (updCell t1 r (hdrIdx hdrs "Requestor") (pstrip rec.requestor)).fst with ht2
  obtain ⟨-, f3, -, -⟩ := updCell_facts t2 r (hdrIdx hdrs "Current State") (pstrip rec.status)
  set t3 := (updCell t2 r (hdrIdx hdrs "Current State") (pstrip rec.status)).fst with ht3
  have hur : (updateRow t hdrs rec r).fst = t3.styleCell r (hdrIdx hdrs "AI Tool") false := by
    rw [ht3, ht2, ht1]
    rfl
  rw [hur, styleCell_cell_ne _ _ _ _ _ _ (Or.inl h), f3 r' c' (Or.inl h),
    f2 r' c' (Or.inl h), f1 r' c' (Or.inl h)]

/-- The matched-row update keeps the grid skeleton, unconditionally. -/
lemma updateRow_keeps (t : Table) (hdrs : List String) (rec : ExcelRow) (r : Nat) :
    (updateRow t hdrs rec r).fst.grid.length = t.grid.length ∧
    (∀ r', ((updateRow t hdrs rec r).fst.grid.getD r' []).length = (t.grid.getD r' []).length) ∧
    (updateRow t hdrs rec r).fst.cols = t.cols ∧
    (updateRow t hdrs rec r).fst.degenerate = t.degenerate ∧
    (updateRow t hdrs rec r).fst.colWidthRead = t.colWidthRead := by
  obtain ⟨⟨k1a, k1b, k1c, k1d, k1e⟩, -, -, -⟩ :=
    updCell_facts t r (hdrIdx hdrs "Tool Description") (pstrip rec.serviceUseCase)
  set t1 := (updCell t r (hdrIdx hdrs "Tool Description") (pstrip rec.serviceUseCase)).fst with ht1
  obtain ⟨⟨k2a, k2b, k2c, k2d, k2e⟩, -, -, -⟩ :=
    updCell_facts t1 r (hdrIdx hdrs "Requestor") (pstrip rec.requestor)
  set t2 := (updCell t1 r (hdrIdx hdrs "Requestor") (pstrip rec.requestor)).fst with ht2
  obtain ⟨⟨k3a, k3b, k3c, k3d, k3e⟩, -, -, -⟩ :=
    updCell_facts t2 r (hdrIdx hdrs "Current State") (pstrip rec.status)
  set t3 := (updCell t2 r (hdrIdx hdrs "Current State") (pstrip rec.status)).fst with ht3
  obtain ⟨kc1, kc2, kc3, kc4, kc5⟩ := styleCell_keeps t3 r (hdrIdx hdrs "AI Tool") false
  have hur : (updateRow t hdrs rec r).fst = t3.styleCell r (hdrIdx hdrs "AI Tool") false := by
    rw [ht3, ht2, ht1]
    rfl
  rw [hur]
  exact ⟨by rw [kc1, k3a, k2a, k1a], fun r' => by rw [kc2 r', k3b r', k2b r', k1b r'],
    by rw [kc3, k3c, k2c, k1c], by rw [kc4, k3d, k2d, k1d], by rw [kc5, k3e, k2e, k1e]⟩

/-- Replacing a table at an out-of-range position is a no-op. -/
lemma setTbl_oob (p : List Slide) (s i : Nat) (t : Table)
    (h : ¬ (s < p.length ∧ i < (getSlide p s).shapes.length)) : setTbl p s i t = p := by
  unfold setTbl
  dsimp only
  rcases Decidable.not_and_iff_or_not.mp h with h | h
  · exact List.set_eq_of_length_le (Nat.le_of_not_lt h)
  · rw [List.set_eq_of_length_le (Nat.le_of_not_lt h)]
    exact set_getD_self p s dfltSlide

/-- One scanned shape never decreases updates_made and never moves the
append counters. -/
lemma scanShape_counters (st : SyncState) (rec : ExcelRow) (toolName : String) (s i : Nat) :
    st.updates_made ≤ (scanShape st rec toolName s i).fst.updates_made ∧
    (scanShape st rec toolName s i).fst.rows_added = st.rows_added ∧
    (scanShape st rec toolName s i).fst.not_found_before_adding =
      st.not_found_before_adding := by
  rcases hh : shapeHeaders st.pres s i with _ | hdrs
  · rw [scanShape_not_qualifying st rec toolName s i (shapeHeaders_none_elim _ _ _ hh)]
    exact ⟨Nat.le_refl _, rfl, rfl⟩
  · rcases htg : st.target with _ | tg
    · rcases hsf : shapeFindRow st.pres s i toolName with _ | r
      · rw [scanShape_no_match_none_target_d st rec toolName s i hdrs htg hh hsf]
        exact ⟨Nat.le_refl _, rfl, rfl⟩
      · rw [scanShape_match_none_target_d st rec toolName s i hdrs r htg hh hsf]
        exact ⟨Nat.le_add_right _ _, rfl, rfl⟩
    · rcases hsf : shapeFindRow st.pres s i toolName with _ | r
      · rw [scanShape_no_match_some_target st rec toolName s i tg htg hsf]
        exact ⟨Nat.le_refl _, rfl, rfl⟩
      · rw [scanShape_match_some_target_u st rec toolName s i tg hdrs r htg hh hsf]
        exact ⟨Nat.le_add_right _ _, rfl, rfl⟩

lemma scanShapes_counters (rec : ExcelRow) (toolName : String) (s : Nat) :
    ∀ (K : List Nat) (st : SyncState),
      st.updates_made ≤ (scanShapes rec toolName s st K).fst.updates_made ∧
      (scanShapes rec toolName s st K).fst.rows_added = st.rows_added ∧
      (scanShapes rec toolName s st K).fst.not_found_before_adding =
        st.not_found_before_adding := by
  intro K
  induction K with
  | nil => intro st; exact ⟨Nat.le_refl _, rfl, rfl⟩
  | cons i rest ih =>
    intro st
    obtain ⟨h1, h2, h3⟩ := scanShape_counters st rec toolName s i
    rw [scanShapes_cons]
    by_cases hb : (scanShape st rec toolName s i).snd
    · rw [if_pos hb]
      exact ⟨h1, h2, h3⟩
    · rw [if_neg hb]
      obtain ⟨g1, g2, g3⟩ := ih (scanShape st rec toolName s i).fst
      exact ⟨Nat.le_trans h1 g1, by rw [g2, h2], by rw [g3, h3]⟩

lemma scanSlides_counters (rec : ExcelRow) (toolName : String) :
    ∀ (S : List Nat) (st : SyncState),
      st.updates_made ≤ (scanSlides rec toolName st S).fst.updates_made ∧
      (scanSlides rec toolName st S).fst.rows_added = st.rows_added ∧
      (scanSlides rec toolName st S).fst.not_found_before_adding =
        st.not_found_before_adding := by
  intro S
  induction S with
  | nil => intro st; exact ⟨Nat.le_refl _, rfl, rfl⟩
  | cons s rest ih =>
    intro st
    obtain ⟨h1, h2, h3⟩ :=
      scanShapes_counters rec toolName s (List.range (getSlide st.pres s).shapes.length) st
    rw [scanSlides_cons]
    by_cases hb : (scanShapes rec toolName s st (List.range (getSlide st.pres s).shapes.length)).snd
    · rw [if_pos hb]
      exact ⟨h1, h2, h3⟩
    · rw [if_neg hb]
      obtain ⟨g1, g2, g3⟩ := ih _
      exact ⟨Nat.le_trans h1 g1, by rw [g2, h2], by rw [g3, h3]⟩

/-- Pagination moves no counter and keeps a cached target cached. -/
lemma paginate_keeps (rf : Nat → Bool) (st : SyncState) :
    (_ensure_capacity_or_paginate rf st).updates_made = st.updates_made ∧
    (_ensure_capacity_or_paginate rf st).rows_added = st.rows_added ∧
    (_ensure_capacity_or_paginate rf st).not_found_before_adding =
      st.not_found_before_adding ∧
    (_ensure_capacity_or_paginate rf st).target.isSome = st.target.isSome := by
  unfold _ensure_capacity_or_paginate
  rcases htg : st.target with _ | tg
  · exact ⟨rfl, rfl, rfl, by rw [htg]⟩
  · dsimp only
    by_cases hfull : MAX_BODY_ROWS ≤ (getTbl st.pres tg.slideIdx tg.tableShapeIdx).grid.length - 1
    · rw [if_pos hfull]
      exact ⟨rfl, rfl, rfl, rfl⟩
    · rw [if_neg hfull]
      exact ⟨rfl, rfl, rfl, by rw [htg]⟩

/-- An append with a cached target adds exactly 4 to updates_made and 1 to
rows_added. -/
lemma appendRecord_counters (rf : Nat → Bool) (st : SyncState) (rec : ExcelRow)
    (toolName : String) (htg : st.target.isSome = true) :
    (appendRecord rf st rec toolName).updates_made = st.updates_made + 4 ∧
    (appendRecord rf st rec toolName).rows_added = st.rows_added + 1 := by
  obtain ⟨p1, p2, p3, p4⟩ := paginate_keeps rf st
  have hsome : ((_ensure_capacity_or_paginate rf st).target).isSome = true := by
    rw [p4]
    exact htg
  obtain ⟨tg2, htg2⟩ := Option.isSome_iff_exists.mp hsome
  unfold appendRecord
  dsimp only
  rw [htg2]
  dsimp only
  exact ⟨by rw [p1], by rw [p2]⟩

lemma processRecord_notskip (rf : Nat → Bool) (addM : Bool) (st : SyncState) (rec : ExcelRow)
    (h : (pstrip rec.tool == "") = false) :
    processRecord rf addM st rec =
      (if (scanSlides rec (pstrip rec.tool) st (List.range st.pres.length)).snd then
        (scanSlides rec (pstrip rec.tool) st (List.range st.pres.length)).fst
       else
        (if addM && (Option.isSome
            { (scanSlides rec (pstrip rec.tool) st (List.range st.pres.length)).fst with
              not_found_before_adding :=
                (scanSlides rec (pstrip rec.tool) st
                  (List.range st.pres.length)).fst.not_found_before_adding + 1 : SyncState}.target)
         then appendRecord rf
            { (scanSlides rec (pstrip rec.tool) st (List.range st.pres.length)).fst with
              not_found_before_adding :=
                (scanSlides rec (pstrip rec.tool) st
                  (List.range st.pres.length)).fst.not_found_before_adding + 1 }
            rec (pstrip rec.tool)
         else
            { (scanSlides rec (pstrip rec.tool) st (List.range st.pres.length)).fst with
              not_found_before_adding :=
                (scanSlides rec (pstrip rec.tool) st
                  (List.range st.pres.length)).fst.not_found_before_adding + 1 })) := by
  unfold processRecord
  dsimp only
  rw [h]
  rfl

lemma processRecord_updates_le (rf : Nat → Bool) (addM : Bool) (st : SyncState)
    (rec : ExcelRow) : st.updates_made ≤ (processRecord rf addM st rec).updates_made := by
  by_cases h : (pstrip rec.tool == "") = true
  · rw [processRecord_skip rf addM st rec (by simpa using h)]
  · rw [processRecord_notskip rf addM st rec (by simpa using h)]
    obtain ⟨h1, -, -⟩ := scanSlides_counters rec (pstrip rec.tool)
      (List.range st.pres.length) st
    set p := scanSlides rec (pstrip rec.tool) st (List.range st.pres.length) with hp
    set st1 : SyncState :=
      { p.fst with not_found_before_adding := p.fst.not_found_before_adding + 1 } with hst1
    by_cases hb : p.snd = true
    · rw [if_pos hb]
      exact h1
    · rw [if_neg hb]
      by_cases ha : (addM && st1.target.isSome) = true
      · rw [if_pos ha]
        have ha2 : st1.target.isSome = true := by
          rw [Bool.and_eq_true] at ha
          exact ha.2
        obtain ⟨a1, -⟩ := appendRecord_counters rf st1 rec (pstrip rec.tool) ha2
        rw [a1]
        have hupd : st1.updates_made = p.fst.updates_made := rfl
        omega
      · rw [if_neg ha]
        exact h1

lemma foldl_updates_le (rf : Nat → Bool) (addM : Bool) :
    ∀ (recs : List ExcelRow) (st : SyncState),
      st.updates_made ≤ (recs.foldl (processRecord rf addM) st).updates_made := by
  intro recs
  induction recs with
  | nil => intro st; exact Nat.le_refl _
  | cons rec rest ih =>
    intro st
    rw [List.foldl_cons]
    exact Nat.le_trans (processRecord_updates_le rf addM st rec) (ih _)
lemma firstQualifying_elim (pres : List Slide) (s0 i0 : Nat)
    (h : firstQualifying pres = some (s0, i0)) :
    s0 < pres.length ∧ i0 < (getSlide pres s0).shapes.length ∧
    ∃ hdrs0, shapeHeaders pres s0 i0 = some hdrs0 := by
  obtain ⟨S1, S2, he, -, hs⟩ := firstSomeAux_some_split _ _ _ _ h
  have hsmem : s0 ∈ List.range pres.length := by
    rw [he]
    exact List.mem_append_right _ (by simp)
  obtain ⟨K1, K2, hke, -, hk⟩ := find?_some_split _ _ _ hs
  have himem : i0 ∈ List.range (getSlide pres s0).shapes.length := by
    rw [hke]
    exact List.mem_append_right _ (by simp)
  refine ⟨List.mem_range.mp hsmem, List.mem_range.mp himem, ?_⟩
  rcases hh : shapeHeaders pres s0 i0 with _ | hdrs0
  · rw [hh] at hk
    exact absurd hk (by simp)
  · exact ⟨hdrs0, rfl⟩

lemma findRow_some_bounds (t : Table) (ki : Nat) (toolName : String) (r : Nat)
    (h : findRow t ki toolName = some r) : 1 ≤ r ∧ r < t.grid.length := by
  have h' : findRowAux t ki toolName (List.range' 1 (t.grid.length - 1)) = some r := h
  obtain ⟨h1, h2, -, -⟩ := (findRowAux_range' t ki toolName r (t.grid.length - 1) 1).mp h'
  omega

/-- The discovery styling makes every header cell of the discovered table
carry the header font. -/
lemma headerStyledAt_disc (st : SyncState) (s0 i0 : Nat) (hdrs0 : List String)
    (hh : shapeHeaders st.pres s0 i0 = some hdrs0)
    (hs0 : s0 < st.pres.length) (hi0 : i0 < (getSlide st.pres s0).shapes.length)
    (hrow0 : (getTbl st.pres s0 i0).cols ≤ ((getTbl st.pres s0 i0).grid.getD 0 []).length) :
    headerStyledAt (discState st s0 i0).pres s0 i0 := by
  obtain ⟨-, hhdrs⟩ := shapeHeaders_some_elim _ _ _ _ hh
  obtain ⟨-, hlen0, -, -, -, -⟩ := headers_some_facts _ _ hhdrs
  have ht : getTbl (discState st s0 i0).pres s0 i0 = styleHeaderRow (getTbl st.pres s0 i0) :=
    getTbl_setTbl_self st.pres s0 i0 _ hs0 hi0
  obtain ⟨-, -, hsty, -, -, hcols, -, -⟩ := styleHeaderRow_spec (getTbl st.pres s0 i0)
  unfold headerStyledAt
  intro c hc
  rw [ht] at hc ⊢
  rw [hcols] at hc
  rw [hsty c hc hlen0 (Nat.lt_of_lt_of_le hc hrow0)]
  rfl

/-- A matched-row update (always at a body row) keeps the header row of any
table styled. -/
lemma headerStyledAt_updState (rec : ExcelRow) (st : SyncState) (s i : Nat)
    (hdrs : List String) (r s0 i0 : Nat)
    (hsty : headerStyledAt st.pres s0 i0) (hr1 : 1 ≤ r) :
    headerStyledAt (updStateAt rec st s i hdrs r).pres s0 i0 := by
  have hpres : (updStateAt rec st s i hdrs r).pres =
      setTbl st.pres s i (updateRow (getTbl st.pres s i) hdrs rec r).fst := rfl
  by_cases hcase : s = s0 ∧ i = i0
  · rcases hcase with ⟨hs, hi⟩
    subst hs
    subst hi
    by_cases hb : s < st.pres.length ∧ i < (getSlide st.pres s).shapes.length
    · have ht : getTbl (updStateAt rec st s i hdrs r).pres s i =
          (updateRow (getTbl st.pres s i) hdrs rec r).fst := by
        rw [hpres]
        exact getTbl_setTbl_self st.pres s i _ hb.1 hb.2
      obtain ⟨-, -, hcols, -, -⟩ := updateRow_keeps (getTbl st.pres s i) hdrs rec r
      unfold headerStyledAt
      intro c hc
      rw [ht] at hc ⊢
      rw [hcols] at hc
      rw [updateRow_row_ne (getTbl st.pres s i) hdrs rec r 0 c (by omega)]
      exact hsty c hc
    · have : (updStateAt rec st s i hdrs r).pres = st.pres := by
        rw [hpres]
        exact setTbl_oob st.pres s i _ hb
      rw [this]
      exact hsty
  · have hne : s ≠ s0 ∨ i ≠ i0 := by
      rcases Decidable.not_and_iff_or_not.mp hcase with h | h
      · exact Or.inl h
      · exact Or.inr h
    have ht : getTbl (updStateAt rec st s i hdrs r).pres s0 i0 = getTbl st.pres s0 i0 := by
      rw [hpres]
      exact getTbl_setTbl_ne st.pres s s0 i i0 _ hne
    unfold headerStyledAt
    intro c hc
    rw [ht] at hc ⊢
    exact hsty c hc
/-- One processed record with a nonempty key, under a stable change counter:
afterwards the target is cached at the first qualifying table of the
original document and its header row is styled. -/
lemma C10_step (rf : Nat → Bool) (addM : Bool) (pres0 : List Slide) (s0 i0 : Nat)
    (hq0 : firstQualifying pres0 = some (s0, i0))
    (hrow0 : (getTbl pres0 s0 i0).cols ≤ ((getTbl pres0 s0 i0).grid.getD 0 []).length)
    (st : SyncState) (rec : ExcelRow)
    (hz2 : (processRecord rf addM st rec).updates_made = st.updates_made)
    (hInv : (st.target = none ∧ st.pres = pres0) ∨
      (st.target = some { slideIdx := s0, shapeIdx := i0, tableShapeIdx := i0 } ∧
        headerStyledAt st.pres s0 i0))
    (hne : ¬ pstrip rec.tool = "") :
    (processRecord rf addM st rec).target =
      some { slideIdx := s0, shapeIdx := i0, tableShapeIdx := i0 } ∧
    headerStyledAt (processRecord rf addM st rec).pres s0 i0 := by
  have hne' : (pstrip rec.tool == "") = false := by simpa using hne
  rw [processRecord_notskip rf addM st rec hne'] at hz2 ⊢
  rcases hInv with ⟨htgn, hpres⟩ | ⟨htgs, hsty⟩
  · have hq : firstQualifying st.pres = some (s0, i0) := by rw [hpres]; exact hq0
    obtain ⟨hs0, hi0, hdrs0, hh0⟩ := firstQualifying_elim st.pres s0 i0 hq
    have hrow0' : (getTbl st.pres s0 i0).cols ≤
        ((getTbl st.pres s0 i0).grid.getD 0 []).length := by
      rw [hpres]
      exact hrow0
    rcases hfm : firstMatch st.pres (pstrip rec.tool) with _ | sir
    · have hp2 : scanSlides rec (pstrip rec.tool) st (List.range st.pres.length) =
          (discState st s0 i0, false) := scan_eval_disc_pass rec (pstrip rec.tool) s0 i0 st
            htgn hq hfm
      rw [hp2] at hz2 ⊢
      dsimp only at hz2 ⊢
      rw [if_neg (by simp)] at hz2 ⊢
      have hnotapp : (addM && (Option.isSome
          ({ discState st s0 i0 with
             not_found_before_adding :=
               (discState st s0 i0).not_found_before_adding + 1 } : SyncState).target)) = false := by
        by_cases haddM : addM = true
        · exfalso
          rw [haddM] at hz2
          have hts : (({ discState st s0 i0 with
              not_found_before_adding :=
                (discState st s0 i0).not_found_before_adding + 1 } : SyncState)).target.isSome =
              true := rfl
          rw [hts] at hz2
          rw [if_pos (show (true && true) = true from rfl)] at hz2
          obtain ⟨a1, -⟩ := appendRecord_counters rf _ rec (pstrip rec.tool) hts
          rw [a1] at hz2
          have : (({ discState st s0 i0 with
              not_found_before_adding :=
                (discState st s0 i0).not_found_before_adding + 1 } : SyncState)).updates_made =
              st.updates_made := rfl
          omega
        · rw [Bool.not_eq_true] at haddM
          rw [haddM]
          rfl
      rw [if_neg (by rw [hnotapp]; simp)]
      exact ⟨rfl, headerStyledAt_disc st s0 i0 hdrs0 hh0 hs0 hi0 hrow0'⟩
    · rcases sir with ⟨s, ir⟩
      rcases ir with ⟨i, r⟩
      obtain ⟨-, -, hsfr⟩ := firstMatch_elim st.pres (pstrip rec.tool) s i r hfm
      obtain ⟨hdrs, hhm, hfrow⟩ := shapeFindRow_some_elim st.pres s i (pstrip rec.tool) r hsfr
      obtain ⟨hr1, -⟩ := findRow_some_bounds _ _ _ _ hfrow
      have hp2 : scanSlides rec (pstrip rec.tool) st (List.range st.pres.length) =
          (updStateAt rec (discState st s0 i0) s i hdrs r, true) :=
        scan_eval_disc_match rec (pstrip rec.tool) hdrs s0 i0 s i r st htgn hq hfm hhm
      rw [hp2]
      dsimp only
      rw [if_pos rfl]
      refine ⟨rfl, ?_⟩
      exact headerStyledAt_updState rec (discState st s0 i0) s i hdrs r s0 i0
        (headerStyledAt_disc st s0 i0 hdrs0 hh0 hs0 hi0 hrow0') hr1
  · rcases hfm : firstMatch st.pres (pstrip rec.tool) with _ | sir
    · have hp2 : scanSlides rec (pstrip rec.tool) st (List.range st.pres.length) =
          (st, false) := scan_eval_pass rec (pstrip rec.tool) _ st htgs hfm
      rw [hp2] at hz2 ⊢
      dsimp only at hz2 ⊢
      rw [if_neg (by simp)] at hz2 ⊢
      have hts : (({ st with
          not_found_before_adding := st.not_found_before_adding + 1 } : SyncState)).target.isSome =
          true := by
        show st.target.isSome = true
        rw [htgs]
        rfl
      have hnotapp : (addM && (Option.isSome
          ({ st with
             not_found_before_adding := st.not_found_before_adding + 1 } : SyncState).target)) =
          false := by
        by_cases haddM : addM = true
        · exfalso
          rw [haddM] at hz2
          rw [hts] at hz2
          rw [if_pos (show (true && true) = true from rfl)] at hz2
          obtain ⟨a1, -⟩ := appendRecord_counters rf _ rec (pstrip rec.tool) hts
          rw [a1] at hz2
          have : (({ st with
              not_found_before_adding := st.not_found_before_adding + 1 } : SyncState)).updates_made =
              st.updates_made := rfl
          omega
        · rw [Bool.not_eq_true] at haddM
          rw [haddM]
          rfl
      rw [if_neg (by rw [hnotapp]; simp)]
      exact ⟨htgs, hsty⟩
    · rcases sir with ⟨s, ir⟩
      rcases ir with ⟨i, r⟩
      obtain ⟨-, -, hsfr⟩ := firstMatch_elim st.pres (pstrip rec.tool) s i r hfm
      obtain ⟨hdrs, hhm, hfrow⟩ := shapeFindRow_some_elim st.pres s i (pstrip rec.tool) r hsfr
      obtain ⟨hr1, -⟩ := findRow_some_bounds _ _ _ _ hfrow
      have hp2 : scanSlides rec (pstrip rec.tool) st (List.range st.pres.length) =
          (updStateAt rec st s i hdrs r, true) :=
        scan_eval_match rec (pstrip rec.tool) _ hdrs s i r st htgs hfm hhm
      rw [hp2]
      dsimp only
      rw [if_pos rfl]
      refine ⟨htgs, ?_⟩
      exact headerStyledAt_updState rec st s i hdrs r s0 i0 hsty hr1
/-- Folding the per-record step under a stable change counter: the
discovery invariant is preserved, and once some record with a nonempty key
has been processed the target is cached and styled. -/
lemma C10_fold (rf : Nat → Bool) (addM : Bool) (pres0 : List Slide) (s0 i0 : Nat)
    (hq0 : firstQualifying pres0 = some (s0, i0))
    (hrow0 : (getTbl pres0 s0 i0).cols ≤ ((getTbl pres0 s0 i0).grid.getD 0 []).length) :
    ∀ (bs : List ExcelRow) (st : SyncState),
      ((st.target = none ∧ st.pres = pres0) ∨
        (st.target = some { slideIdx := s0, shapeIdx := i0, tableShapeIdx := i0 } ∧
          headerStyledAt st.pres s0 i0)) →
      (bs.foldl (processRecord rf addM) st).updates_made = st.updates_made →
      (((bs.foldl (processRecord rf addM) st).target = none ∧
          (bs.foldl (processRecord rf addM) st).pres = pres0) ∨
        ((bs.foldl (processRecord rf addM) st).target =
            some { slideIdx := s0, shapeIdx := i0, tableShapeIdx := i0 } ∧
          headerStyledAt (bs.foldl (processRecord rf addM) st).pres s0 i0)) ∧
      ((st.target = some { slideIdx := s0, shapeIdx := i0, tableShapeIdx := i0 } ∧
          headerStyledAt st.pres s0 i0) →
        ((bs.foldl (processRecord rf addM) st).target =
            some { slideIdx := s0, shapeIdx := i0, tableShapeIdx := i0 } ∧
          headerStyledAt (bs.foldl (processRecord rf addM) st).pres s0 i0)) ∧
      ((∃ rec ∈ bs, ¬ pstrip rec.tool = "") →
        ((bs.foldl (processRecord rf addM) st).target =
            some { slideIdx := s0, shapeIdx := i0, tableShapeIdx := i0 } ∧
          headerStyledAt (bs.foldl (processRecord rf addM) st).pres s0 i0)) := by
  intro bs
  induction bs with
  | nil =>
    intro st hInv hzt
    exact ⟨hInv, fun h => h, fun hex => absurd hex (by simp)⟩
  | cons rec rest ih =>
    intro st hInv hzt
    rw [List.foldl_cons] at hzt ⊢
    have hle1 : st.updates_made ≤ (processRecord rf addM st rec).updates_made :=
      processRecord_updates_le rf addM st rec
    have hle2 : (processRecord rf addM st rec).updates_made ≤
        (rest.foldl (processRecord rf addM) (processRecord rf addM st rec)).updates_made :=
      foldl_updates_le rf addM rest _
    have hz2 : (processRecord rf addM st rec).updates_made = st.updates_made := by omega
    have hztail : (rest.foldl (processRecord rf addM)
        (processRecord rf addM st rec)).updates_made =
        (processRecord rf addM st rec).updates_made := by omega
    by_cases hskip : pstrip rec.tool = ""
    · have heq : processRecord rf addM st rec = st := processRecord_skip rf addM st rec hskip
      rw [heq] at hztail ⊢
      obtain ⟨g1, g2, g3⟩ := ih st hInv hztail
      refine ⟨g1, g2, ?_⟩
      intro hex
      obtain ⟨r2, hr2, hr2ne⟩ := hex
      rcases List.mem_cons.mp hr2 with h | h
      · rw [h] at hr2ne
        exact absurd hskip hr2ne
      · exact g3 ⟨r2, h, hr2ne⟩
    · obtain ⟨hstg, hssty⟩ :=
        C10_step rf addM pres0 s0 i0 hq0 hrow0 st rec hz2 hInv hskip
      obtain ⟨g1, g2, g3⟩ := ih (processRecord rf addM st rec) (Or.inr ⟨hstg, hssty⟩) hztail
      exact ⟨g1, fun _ => g2 ⟨hstg, hssty⟩, fun _ => g2 ⟨hstg, hssty⟩⟩

/-- Claim C10: when the first qualifying table exists and some record has a
nonempty key, a run whose total change count is zero still styles every
header cell of that first qualifying table (font name, size, bold) in the
in-memory document, while the file on disk is never saved and keeps its
original contents. -/
theorem C10_zero_update_run_styles_header (rf : Nat → Bool) (records : List ExcelRow)
    (pres0 : List Slide) (addM : Bool) (s0 i0 : Nat)
    (hq0 : firstQualifying pres0 = some (s0, i0))
    (hrow0 : (getTbl pres0 s0 i0).cols ≤ ((getTbl pres0 s0 i0).grid.getD 0 []).length)
    (hex : ∃ rec ∈ records, ¬ pstrip rec.tool = "")
    (hz : (sync_excel_to_ppt rf records pres0 addM).updates_made = 0) :
    headerStyledAt (sync_excel_to_ppt rf records pres0 addM).pres s0 i0 ∧
    (∀ c, c < (getTbl (sync_excel_to_ppt rf records pres0 addM).pres s0 i0).cols →
      ((getTbl (sync_excel_to_ppt rf records pres0 addM).pres s0 i0).cell 0 c).style =
        some { name := FONT_NAME, size := FONT_SIZE, bold := HEADER_BOLD }) ∧
    (sync_excel_to_ppt rf records pres0 addM).saves = 0 ∧
    (sync_excel_to_ppt rf records pres0 addM).persisted = pres0 := by
  have hzF : (records.foldl (processRecord rf addM)
      { pres := pres0, target := none, updates_made := 0, rows_added := 0,
        not_found_before_adding := 0 }).updates_made = 0 := hz
  obtain ⟨-, -, g3⟩ := C10_fold rf addM pres0 s0 i0 hq0 hrow0 records
    { pres := pres0, target := none, updates_made := 0, rows_added := 0,
      not_found_before_adding := 0 } (Or.inl ⟨rfl, rfl⟩) hzF
  obtain ⟨-, hsty⟩ := g3 hex
  have hpres : (sync_excel_to_ppt rf records pres0 addM).pres =
      (records.foldl (processRecord rf addM)
        { pres := pres0, target := none, updates_made := 0, rows_added := 0,
          not_found_before_adding := 0 }).pres := rfl
  refine ⟨by rw [hpres]; exact hsty, ?_, ?_, ?_⟩
  · intro c hc
    rw [hpres] at hc ⊢
    exact hsty c hc
  · show (if 0 < (records.foldl (processRecord rf addM)
        { pres := pres0, target := none, updates_made := 0, rows_added := 0,
          not_found_before_adding := 0 }).updates_made then 1 else 0) = 0
    rw [hzF]
    rfl
  · show (if 0 < (records.foldl (processRecord rf addM)
        { pres := pres0, target := none, updates_made := 0, rows_added := 0,
          not_found_before_adding := 0 }).updates_made then
      (records.foldl (processRecord rf addM)
        { pres := pres0, target := none, updates_made := 0, rows_added := 0,
          not_found_before_adding := 0 }).pres else pres0) = pres0
    rw [hzF]
    rfl
/-- Witness for C10: syncing a record that already agrees with the fixture
table makes zero text changes, never saves, and yet styles the header row of
the discovered table in memory. -/
theorem C10_zero_update_run_styles_header_witness :
    headerStyledAt (sync_excel_to_ppt (fun _ => false)
      [{ tool := "ToolX", serviceUseCase := "Old", requestor := "Bob", status := "Pending" }]
      fixPres true).pres 0 0 ∧
    (∀ c, c < (getTbl (sync_excel_to_ppt (fun _ => false)
        [{ tool := "ToolX", serviceUseCase := "Old", requestor := "Bob", status := "Pending" }]
        fixPres true).pres 0 0).cols →
      ((getTbl (sync_excel_to_ppt (fun _ => false)
        [{ tool := "ToolX", serviceUseCase := "Old", requestor := "Bob", status := "Pending" }]
        fixPres true).pres 0 0).cell 0 c).style =
        some { name := FONT_NAME, size := FONT_SIZE, bold := HEADER_BOLD }) ∧
    (sync_excel_to_ppt (fun _ => false)
      [{ tool := "ToolX", serviceUseCase := "Old", requestor := "Bob", status := "Pending" }]
      fixPres true).saves = 0 ∧
    (sync_excel_to_ppt (fun _ => false)
      [{ tool := "ToolX", serviceUseCase := "Old", requestor := "Bob", status := "Pending" }]
      fixPres true).persisted = fixPres :=
  C10_zero_update_run_styles_header (fun _ => false)
    [{ tool := "ToolX", serviceUseCase := "Old", requestor := "Bob", status := "Pending" }]
    fixPres true 0 0 (by decide) (by decide)
    ⟨{ tool := "ToolX", serviceUseCase := "Old", requestor := "Bob", status := "Pending" },
      by decide, by decide⟩
    (by decide)
lemma presHdrEq_refl (p : List Slide) : presHdrEq p p :=
  ⟨rfl, fun _ => rfl, fun _ _ => rfl, fun _ _ => rfl, fun _ _ _ => rfl, fun _ _ => rfl,
   fun _ _ => rfl, fun _ _ => rfl, fun _ _ _ _ _ => rfl⟩

/-- The Header Matcher reads only degeneracy, dimensions and row-0 texts. -/
lemma headers_congr_row0 (t t' : Table)
    (hdeg : t'.degenerate = t.degenerate) (hlen : t'.grid.length = t.grid.length)
    (hcols : t'.cols = t.cols)
    (htext : ∀ c, (t'.cell 0 c).text = (t.cell 0 c).text) :
    _table_headers_and_indices t' = _table_headers_and_indices t := by
  unfold _table_headers_and_indices
  rw [hdeg, hlen, hcols]
  have hmap : (List.range t.cols).map (fun c => pstrip (t'.cell 0 c).text) =
      (List.range t.cols).map (fun c => pstrip (t.cell 0 c).text) := by
    apply List.map_congr_left
    intro c _
    rw [htext c]
  rw [hmap]

lemma findRowAux_congr_ki (t t' : Table) (ki : Nat) (key : String)
    (htext : ∀ r, (t'.cell r ki).text = (t.cell r ki).text) :
    ∀ l, findRowAux t' ki key l = findRowAux t ki key l := by
  intro l
  induction l with
  | nil => rfl
  | cons a rest ih =>
    unfold findRowAux
    rw [show rowKeyMatches t' ki key a = rowKeyMatches t ki key a from by
      unfold rowKeyMatches
      rw [htext a], ih]

lemma findRow_congr_ki (t t' : Table) (ki : Nat) (key : String)
    (hlen : t'.grid.length = t.grid.length)
    (htext : ∀ r, (t'.cell r ki).text = (t.cell r ki).text) :
    findRow t' ki key = findRow t ki key := by
  unfold findRow bodyRowIdxs
  rw [hlen, findRowAux_congr_ki t t' ki key htext]

/-- Two header-equal presentations have identical search results. -/
lemma presHdrEq_search (p q : List Slide) (h : presHdrEq p q) :
    (∀ s i tool, shapeFindRow p s i tool = shapeFindRow q s i tool) ∧
    (∀ s tool, firstMatchInSlide p s tool = firstMatchInSlide q s tool) ∧
    (∀ tool, firstMatch p tool = firstMatch q tool) ∧
    (∀ s, firstQualInSlide p s = firstQualInSlide q s) ∧
    firstQualifying p = firstQualifying q := by
  obtain ⟨h1, h2, h3, h4, h5, h6, h7, h8, h9⟩ := h
  have hsfr : ∀ s i tool, shapeFindRow p s i tool = shapeFindRow q s i tool := by
    intro s i tool
    unfold shapeFindRow
    rw [h8 s i]
    rcases hh : shapeHeaders q s i with _ | hdrs
    · rfl
    · dsimp only
      exact findRow_congr_ki (getTbl q s i) (getTbl p s i) (hdrIdx hdrs "AI Tool") tool
        (h4 s i) (fun r => h9 s i hdrs r hh)
  have hfmis : ∀ s tool, firstMatchInSlide p s tool = firstMatchInSlide q s tool := by
    intro s tool
    unfold firstMatchInSlide
    rw [h2 s, firstSomeAux_congr _ _ (fun i => hsfr s i tool)]
  have hfqis : ∀ s, firstQualInSlide p s = firstQualInSlide q s := by
    intro s
    unfold firstQualInSlide
    rw [h2 s, find?_congr _ _ (fun i => by rw [h8 s i])]
  refine ⟨hsfr, hfmis, ?_, hfqis, ?_⟩
  · intro tool
    unfold firstMatch
    rw [h1, firstSomeAux_congr _ _ (fun s => hfmis s tool)]
  · unfold firstQualifying
    rw [h1, firstSomeAux_congr _ _ (fun s => hfqis s)]

lemma rectQ_of_presHdrEq (p q : List Slide) (h : presHdrEq p q) (hq : rectQ q) : rectQ p := by
  obtain ⟨-, -, -, h4, h5, h6, -, h8, -⟩ := h
  intro s i hsome r hr
  rw [h5 s i r, h6 s i]
  exact hq s i (by rw [← h8 s i]; exact hsome) r (by rw [← h4 s i]; exact hr)

lemma rowCounts_eq_of_presHdrEq (p q : List Slide) (h : presHdrEq p q) :
    rowCounts p = rowCounts q := by
  obtain ⟨h1, h2, -, h4, -, -, -, -, -⟩ := h
  have hsl : ∀ s, s < p.length → s < q.length →
      ∀ (hs1 : s < p.length) (hs2 : s < q.length),
      p[s].shapes.length = q[s].shapes.length := by
    intro s _ _ hs1 hs2
    have := h2 s
    unfold getSlide at this
    rw [getD_eq, getD_eq, List.getElem?_eq_getElem hs1, List.getElem?_eq_getElem hs2] at this
    simpa using this
  have htbl : ∀ s (hs1 : s < p.length) (hs2 : s < q.length) i
      (hi1 : i < p[s].shapes.length) (hi2 : i < q[s].shapes.length),
      p[s].shapes[i].tbl.grid.length = q[s].shapes[i].tbl.grid.length := by
    intro s hs1 hs2 i hi1 hi2
    have := h4 s i
    unfold getTbl getShape getSlide at this
    rw [getD_eq p s dfltSlide, getD_eq q s dfltSlide, List.getElem?_eq_getElem hs1,
      List.getElem?_eq_getElem hs2] at this
    simp only [Option.getD_some] at this
    rw [getD_eq p[s].shapes i dfltShape, getD_eq q[s].shapes i dfltShape,
      List.getElem?_eq_getElem hi1, List.getElem?_eq_getElem hi2] at this
    simpa using this
  unfold rowCounts
  apply List.ext_getElem
  · simp only [List.length_map]
    exact h1
  · intro s hs1 hs2
    simp only [List.length_map] at hs1 hs2
    simp only [List.getElem_map]
    apply List.ext_getElem
    · simp only [List.length_map]
      exact hsl s hs1 hs2 hs1 hs2
    · intro i hi1 hi2
      simp only [List.length_map] at hi1 hi2
      simp only [List.getElem_map]
      exact htbl s hs1 hs2 i hi1 hi2
/-- Replacing one table in place by a table with the same skeleton, the same
header row texts and the same key-column texts keeps the presentation
header-equal to the base document. -/
lemma setTbl_presHdrEq (p q : List Slide) (s i : Nat) (t' : Table)
    (hpq : presHdrEq p q)
    (hht : (getShape p s i).hasTable = true)
    (hlen : t'.grid.length = (getTbl p s i).grid.length)
    (hrows : ∀ r, (t'.grid.getD r []).length = ((getTbl p s i).grid.getD r []).length)
    (hcols : t'.cols = (getTbl p s i).cols)
    (hdeg : t'.degenerate = (getTbl p s i).degenerate)
    (hrow0 : ∀ c, (t'.cell 0 c).text = ((getTbl p s i).cell 0 c).text)
    (hkey : ∀ hdrs r, shapeHeaders q s i = some hdrs →
      (t'.cell r (hdrIdx hdrs "AI Tool")).text =
        ((getTbl p s i).cell r (hdrIdx hdrs "AI Tool")).text) :
    presHdrEq (setTbl p s i t') q := by
  obtain ⟨h1, h2, h3, h4, h5, h6, h7, h8, h9⟩ := hpq
  by_cases hbound : s < p.length ∧ i < (getSlide p s).shapes.length
  · have hcase : ∀ s' i',
        (getShape (setTbl p s i t') s' i' = getShape p s' i') ∨ (s' = s ∧ i' = i) := by
      intro s' i'
      by_cases hs : s' = s
      · by_cases hi : i' = i
        · exact Or.inr ⟨hs, hi⟩
        · exact Or.inl (getShape_setTbl_ne p s s' i i' t' (Or.inr (fun e => hi e.symm)))
      · exact Or.inl (getShape_setTbl_ne p s s' i i' t' (Or.inl (fun e => hs e.symm)))
    have hself : getShape (setTbl p s i t') s i =
        { getShape p s i with kind := ShapeKind.table t' } :=
      getShape_setTbl_self p s i t' hbound.1 hbound.2
    have htself : getTbl (setTbl p s i t') s i = t' := (congrArg Shape.tbl hself).trans rfl
    have hhdrsself : _table_headers_and_indices t' =
        _table_headers_and_indices (getTbl p s i) :=
      headers_congr_row0 (getTbl p s i) t' hdeg hlen hcols hrow0
    have hhdrs' : ∀ s' i', shapeHeaders (setTbl p s i t') s' i' = shapeHeaders p s' i' := by
      intro s' i'
      unfold shapeHeaders
      rcases hcase s' i' with h | ⟨hs, hi⟩
      · rw [h, show getTbl (setTbl p s i t') s' i' = getTbl p s' i' from congrArg Shape.tbl h]
      · subst hs
        subst hi
        rw [hself,
          show ({ getShape p s' i' with kind := ShapeKind.table t' } : Shape).hasTable =
            true from rfl,
          htself, hht, if_pos rfl, if_pos rfl]
        exact hhdrsself
    refine ⟨?_, ?_, ?_, ?_, ?_, ?_, ?_, ?_, ?_⟩
    · rw [length_setTbl]
      exact h1
    · intro s'
      rw [shapes_length_getSlide_setTbl]
      exact h2 s'
    · intro s' i'
      rcases hcase s' i' with h | ⟨hs, hi⟩
      · rw [h]
        exact h3 s' i'
      · subst hs
        subst hi
        rw [hself]
        rw [show ({ getShape p s' i' with kind := ShapeKind.table t' } : Shape).hasTable =
          true from rfl]
        rw [← h3 s' i', hht]
    · intro s' i'
      rcases hcase s' i' with h | ⟨hs, hi⟩
      · rw [show getTbl (setTbl p s i t') s' i' = getTbl p s' i' from
          congrArg Shape.tbl h]
        exact h4 s' i'
      · subst hs
        subst hi
        rw [htself, hlen]
        exact h4 s' i'
    · intro s' i' r
      rcases hcase s' i' with h | ⟨hs, hi⟩
      · rw [show getTbl (setTbl p s i t') s' i' = getTbl p s' i' from
          congrArg Shape.tbl h]
        exact h5 s' i' r
      · subst hs
        subst hi
        rw [htself, hrows r]
        exact h5 s' i' r
    · intro s' i'
      rcases hcase s' i' with h | ⟨hs, hi⟩
      · rw [show getTbl (setTbl p s i t') s' i' = getTbl p s' i' from
          congrArg Shape.tbl h]
        exact h6 s' i'
      · subst hs
        subst hi
        rw [htself, hcols]
        exact h6 s' i'
    · intro s' i'
      rcases hcase s' i' with h | ⟨hs, hi⟩
      · rw [show getTbl (setTbl p s i t') s' i' = getTbl p s' i' from
          congrArg Shape.tbl h]
        exact h7 s' i'
      · subst hs
        subst hi
        rw [htself, hdeg]
        exact h7 s' i'
    · intro s' i'
      rw [hhdrs' s' i']
      exact h8 s' i'
    · intro s' i' hdrs r hh
      rcases hcase s' i' with h | ⟨hs, hi⟩
      · rw [show getTbl (setTbl p s i t') s' i' = getTbl p s' i' from
          congrArg Shape.tbl h]
        exact h9 s' i' hdrs r hh
      · subst hs
        subst hi
        rw [htself, hkey hdrs r hh]
        exact h9 s' i' hdrs r hh
  · rw [setTbl_oob p s i t' hbound]
    exact ⟨h1, h2, h3, h4, h5, h6, h7, h8, h9⟩
/-- When all three mapped cells already agree, the update block writes no
text: it only re-styles the key cell, and reports zero changes. -/
lemma updateRow_agree (t : Table) (hdrs : List String) (rec : ExcelRow) (r : Nat)
    (h1 : pstrip (t.cell r (hdrIdx hdrs "Tool Description")).text = pstrip rec.serviceUseCase)
    (h2 : pstrip (t.cell r (hdrIdx hdrs "Requestor")).text = pstrip rec.requestor)
    (h3 : pstrip (t.cell r (hdrIdx hdrs "Current State")).text = pstrip rec.status) :
    (updateRow t hdrs rec r).fst = t.styleCell r (hdrIdx hdrs "AI Tool") false ∧
    (updateRow t hdrs rec r).snd = 0 := by
  have e1 : updCell t r (hdrIdx hdrs "Tool Description") (pstrip rec.serviceUseCase) = (t, 0) :=
    updCell_eq_case _ _ _ _ h1
  have e2 : updCell t r (hdrIdx hdrs "Requestor") (pstrip rec.requestor) = (t, 0) :=
    updCell_eq_case _ _ _ _ h2
  have e3 : updCell t r (hdrIdx hdrs "Current State") (pstrip rec.status) = (t, 0) :=
    updCell_eq_case _ _ _ _ h3
  unfold updateRow
  dsimp only
  rw [e1]
  dsimp only
  rw [e2]
  dsimp only
  rw [e3]
  exact ⟨rfl, rfl⟩

lemma cellsAgreeAt_congr (p p' : List Slide) (s i r : Nat) (rec : ExcelRow)
    (hh : shapeHeaders p' s i = shapeHeaders p s i)
    (htext : ∀ hdrs c, shapeHeaders p s i = some hdrs →
      ((getTbl p' s i).cell r c).text = ((getTbl p s i).cell r c).text) :
    cellsAgreeAt p s i r rec → cellsAgreeAt p' s i r rec := by
  unfold cellsAgreeAt
  rcases hcase : shapeHeaders p s i with _ | hdrs
  · rw [hh, hcase]
    exact fun _ => trivial
  · rw [hh, hcase]
    intro hag
    obtain ⟨a1, a2, a3⟩ := hag
    exact ⟨by rw [htext hdrs _ hcase, a1], by rw [htext hdrs _ hcase, a2],
      by rw [htext hdrs _ hcase, a3]⟩

/-- The first match names a qualifying shape and a matching body row. -/
lemma firstMatch_char (pres : List Slide) (tool : String) (s i r : Nat)
    (h : firstMatch pres tool = some (s, i, r)) :
    ∃ hdrs, shapeHeaders pres s i = some hdrs ∧
      1 ≤ r ∧ r < (getTbl pres s i).grid.length ∧
      rowKeyMatches (getTbl pres s i) (hdrIdx hdrs "AI Tool") tool r = true := by
  obtain ⟨-, -, hsfr⟩ := firstMatch_elim pres tool s i r h
  obtain ⟨hdrs, hh, hfr⟩ := shapeFindRow_some_elim pres s i tool r hsfr
  obtain ⟨hb1, hb2⟩ := findRow_some_bounds _ _ _ _ hfr
  have hfr' : findRowAux (getTbl pres s i) (hdrIdx hdrs "AI Tool") tool
      (List.range' 1 ((getTbl pres s i).grid.length - 1)) = some r := hfr
  obtain ⟨-, -, hm, -⟩ :=
    (findRowAux_range' (getTbl pres s i) (hdrIdx hdrs "AI Tool") tool r
      ((getTbl pres s i).grid.length - 1) 1).mp hfr'
  exact ⟨hdrs, hh, hb1, hb2, hm⟩
lemma set_cell_style_text (c : Cell) (b : Bool) : (set_cell_style c b).text = c.text := rfl

/-- The in-place update performed at the first match: it keeps the document
header-equal to the base, establishes agreement for the updated record,
preserves agreement of every record with a different key, and writes
nothing when the record already agrees. -/
lemma C4_upd (pres0 : List Slide) (rec : ExcelRow) (stD : SyncState)
    (s i r : Nat) (hdrs : List String)
    (hInv : presHdrEq stD.pres pres0)
    (hrect : rectQ pres0)
    (hfm : firstMatch stD.pres (pstrip rec.tool) = some (s, i, r))
    (hh : shapeHeaders stD.pres s i = some hdrs) :
    presHdrEq (updStateAt rec stD s i hdrs r).pres pres0 ∧
    (∀ s' i' r', firstMatch pres0 (pstrip rec.tool) = some (s', i', r') →
      cellsAgreeAt (updStateAt rec stD s i hdrs r).pres s' i' r' rec) ∧
    (∀ rec1, ¬ pstrip rec1.tool = "" →
      plower (pstrip rec1.tool) ≠ plower (pstrip rec.tool) →
      syncedRec pres0 stD.pres rec1 →
      syncedRec pres0 (updStateAt rec stD s i hdrs r).pres rec1) ∧
    (syncedRec pres0 stD.pres rec →
      (updateRow (getTbl stD.pres s i) hdrs rec r).snd = 0) := by
  obtain ⟨hs, hi, hsfr⟩ := firstMatch_elim stD.pres (pstrip rec.tool) s i r hfm
  obtain ⟨hht, hhdrs⟩ := shapeHeaders_some_elim _ _ _ _ hh
  obtain ⟨bK, bD, bR, bS, dDR, dDS, dRS, dKD, dKR, dKS⟩ := qual_col_facts _ _ hhdrs
  obtain ⟨hdrs2, hh2, hr1, hrlt, hmatch⟩ :=
    firstMatch_char stD.pres (pstrip rec.tool) s i r hfm
  have hdrs2eq : hdrs2 = hdrs := by
    rw [hh] at hh2
    injection hh2 with e
    exact e.symm
  rw [hdrs2eq] at hmatch
  have hInv' := hInv
  obtain ⟨h1, h2, h3, h4, h5, h6, h7, h8, h9⟩ := hInv'
  have hrowlen : ∀ r', r' < (getTbl stD.pres s i).grid.length →
      ((getTbl stD.pres s i).grid.getD r' []).length = (getTbl stD.pres s i).cols := by
    intro r' hr'
    rw [h5 s i r', h6 s i]
    exact hrect s i (by rw [← h8 s i, hh]; rfl) r' (by rw [← h4 s i]; exact hr')
  have hrowr := hrowlen r hrlt
  obtain ⟨u1, u2, u3, u4, u5, u6, u7, u8, u9, u10, u11⟩ :=
    updateRow_facts (getTbl stD.pres s i) hdrs rec r
      (hdrIdx hdrs "Tool Description") (hdrIdx hdrs "Requestor")
      (hdrIdx hdrs "Current State") (hdrIdx hdrs "AI Tool")
      rfl rfl rfl rfl hrlt
      (by rw [hrowr]; exact bD) (by rw [hrowr]; exact bR)
      (by rw [hrowr]; exact bS) (by rw [hrowr]; exact bK)
      dDR dDS dRS dKD dKR dKS
  obtain ⟨k1, k2, k3, k4, k5⟩ := updateRow_keeps (getTbl stD.pres s i) hdrs rec r
  have hpres : (updStateAt rec stD s i hdrs r).pres =
      setTbl stD.pres s i (updateRow (getTbl stD.pres s i) hdrs rec r).fst := rfl
  have hA : presHdrEq (updStateAt rec stD s i hdrs r).pres pres0 := by
    rw [hpres]
    refine setTbl_presHdrEq stD.pres pres0 s i _ hInv hht k1 k2 k3 k4 ?_ ?_
    · intro c
      rw [updateRow_row_ne (getTbl stD.pres s i) hdrs rec r 0 c (by omega)]
    · intro hdrs' r' hh'
      have hdrs'eq : hdrs = hdrs' := by
        have h0 : (some hdrs : Option (List String)) = some hdrs' := by
          rw [← hh, ← hh']
          exact h8 s i
        exact Option.some_inj.mp h0
      rw [← hdrs'eq]
      by_cases hrr : r' = r
      · rw [hrr]
        exact (congrArg Cell.text u5).trans (set_cell_style_text _ _)
      · exact congrArg Cell.text
          (updateRow_row_ne (getTbl stD.pres s i) hdrs rec r r' _ hrr)
  obtain ⟨hA1, hA2, hA3, hA4, hA5, hA6, hA7, hA8, hA9⟩ := hA
  have ht' : getTbl (updStateAt rec stD s i hdrs r).pres s i =
      (updateRow (getTbl stD.pres s i) hdrs rec r).fst := by
    rw [hpres]
    exact getTbl_setTbl_self stD.pres s i _ hs hi
  have htne : ∀ s' i', s' ≠ s ∨ i' ≠ i →
      getTbl (updStateAt rec stD s i hdrs r).pres s' i' = getTbl stD.pres s' i' := by
    intro s' i' hne
    rw [hpres]
    exact getTbl_setTbl_ne stD.pres s s' i i' _
      (by rcases hne with h | h
          · exact Or.inl (fun e => h e.symm)
          · exact Or.inr (fun e => h e.symm))
  have hfm0 : firstMatch pres0 (pstrip rec.tool) = some (s, i, r) := by
    rw [← (presHdrEq_search stD.pres pres0 hInv).2.2.1 (pstrip rec.tool)]
    exact hfm
  have hhU : shapeHeaders (updStateAt rec stD s i hdrs r).pres s i = some hdrs := by
    rw [hA8 s i, ← h8 s i]
    exact hh
  refine ⟨⟨hA1, hA2, hA3, hA4, hA5, hA6, hA7, hA8, hA9⟩, ?_, ?_, ?_⟩
  · intro s' i' r' hfm'
    rw [hfm0] at hfm'
    injection hfm' with e
    injection e with e1 e2
    injection e2 with e2 e3
    subst e1
    subst e2
    subst e3
    unfold cellsAgreeAt
    rw [hhU]
    refine ⟨?_, ?_, ?_⟩
    · rw [ht', u2]
      by_cases hc : pstrip ((getTbl stD.pres s i).cell r (hdrIdx hdrs "Tool Description")).text =
          pstrip rec.serviceUseCase
      · rw [if_pos hc]
        exact hc
      · rw [if_neg hc]
        exact pstrip_idem rec.serviceUseCase
    · rw [ht', u3]
      by_cases hc : pstrip ((getTbl stD.pres s i).cell r (hdrIdx hdrs "Requestor")).text =
          pstrip rec.requestor
      · rw [if_pos hc]
        exact hc
      · rw [if_neg hc]
        exact pstrip_idem rec.requestor
    · rw [ht', u4]
      by_cases hc : pstrip ((getTbl stD.pres s i).cell r (hdrIdx hdrs "Current State")).text =
          pstrip rec.status
      · rw [if_pos hc]
        exact hc
      · rw [if_neg hc]
        exact pstrip_idem rec.status
  · intro rec1 hne1 hkne hsync s1 i1 r1 hfm1
    have hag := hsync s1 i1 r1 hfm1
    refine cellsAgreeAt_congr stD.pres (updStateAt rec stD s i hdrs r).pres s1 i1 r1 rec1
      (by rw [hA8 s1 i1, ← h8 s1 i1]) ?_ hag
    intro hdrs1 c hh1
    by_cases hsi : s1 = s ∧ i1 = i
    · rcases hsi with ⟨e1, e2⟩
      subst e1
      subst e2
      by_cases hrr : r1 = r
      · exfalso
        obtain ⟨hdrsP, hhP, -, -, hmP⟩ :=
          firstMatch_char pres0 (pstrip rec1.tool) s1 i1 r1 hfm1
        have hdrsPeq : hdrs = hdrsP :=
          Option.some_inj.mp ((hh.symm.trans (h8 s1 i1)).trans hhP)
        have hkeytext := h9 s1 i1 hdrsP r1 hhP
        unfold rowKeyMatches at hmP hmatch
        rw [beq_iff_eq] at hmP hmatch
        rw [← hkeytext, ← hdrsPeq, hrr] at hmP
        exact hkne (hmP.symm.trans hmatch)
      · rw [ht']
        rw [updateRow_row_ne (getTbl stD.pres s1 i1) hdrs rec r r1 c hrr]
    · have hne' : s1 ≠ s ∨ i1 ≠ i := by
        rcases Decidable.not_and_iff_or_not.mp hsi with h | h
        · exact Or.inl h
        · exact Or.inr h
      rw [htne s1 i1 hne']
  · intro hsync
    have hag := hsync s i r hfm0
    unfold cellsAgreeAt at hag
    rw [hh] at hag
    obtain ⟨a1, a2, a3⟩ := hag
    exact (updateRow_agree (getTbl stD.pres s i) hdrs rec r a1 a2 a3).2
lemma firstSomeAux_ne_none_of_mem {α : Type} (f : Nat → Option α) (L : List Nat) (i : Nat)
    (hi : i ∈ L) (hf : ¬ f i = none) : ¬ firstSomeAux f L = none := by
  intro h
  exact hf ((firstSomeAux_eq_none f L).mp h i hi)

/-- A match implies a qualifying table exists somewhere. -/
lemma firstQualifying_of_match (pres : List Slide) (tool : String) (s i r : Nat)
    (h : firstMatch pres tool = some (s, i, r)) :
    ∃ q, firstQualifying pres = some q := by
  obtain ⟨hs, hi, hsfr⟩ := firstMatch_elim pres tool s i r h
  obtain ⟨hdrs, hh, -⟩ := shapeFindRow_some_elim pres s i tool r hsfr
  have hfqis : ¬ firstQualInSlide pres s = none := by
    intro hn
    have := firstQualInSlide_none_all pres s hn i (List.mem_range.mpr hi)
    rw [this] at hh
    exact absurd hh (by simp)
  have : ¬ firstQualifying pres = none :=
    firstSomeAux_ne_none_of_mem _ _ s (List.mem_range.mpr hs) hfqis
  rcases hfq : firstQualifying pres with _ | q
  · exact absurd hfq this
  · exact ⟨q, rfl⟩

lemma disc_presHdrEq (pres0 : List Slide) (st : SyncState) (s0 i0 : Nat)
    (hq : (getShape st.pres s0 i0).hasTable = true)
    (hInv : presHdrEq st.pres pres0) : presHdrEq (discState st s0 i0).pres pres0 := by
  obtain ⟨t1, -, -, t4, t5, t6, t7, -⟩ := styleHeaderRow_spec (getTbl st.pres s0 i0)
  exact setTbl_presHdrEq st.pres pres0 s0 i0 _ hInv hq t4 t5 t6 t7
    (fun c => t1 0 c) (fun hdrs r _ => t1 r _)

lemma disc_synced (pres0 : List Slide) (st : SyncState) (s0 i0 : Nat)
    (hq : (getShape st.pres s0 i0).hasTable = true) (rec1 : ExcelRow)
    (h : syncedRec pres0 st.pres rec1) :
    syncedRec pres0 (discState st s0 i0).pres rec1 := by
  obtain ⟨-, -, hhdrs, -, -, -, -, -⟩ := discState_readers st s0 i0 hq
  obtain ⟨-, -, -, htext, -, -, -, -, -⟩ := styled_readers st.pres s0 i0 hq
  intro s1 i1 r1 hfm1
  exact cellsAgreeAt_congr st.pres (discState st s0 i0).pres s1 i1 r1 rec1
    (hhdrs s1 i1) (fun hdrs c _ => htext s1 i1 r1 c) (h s1 i1 r1 hfm1)
/-- One processed record with a nonempty key that either already occurs in
the base document or cannot be appended: the search state stays
header-equal to the base, no row is added, agreement is established for
this record and preserved for records with other keys, and the change
counter does not move when the record already agrees. -/
lemma C4_step (rf : Nat → Bool) (addM : Bool) (pres0 : List Slide)
    (hrect : rectQ pres0) (st : SyncState) (rec : ExcelRow)
    (hInv : presHdrEq st.pres pres0)
    (hne : ¬ pstrip rec.tool = "")
    (haddM : ¬ firstMatch pres0 (pstrip rec.tool) = none ∨ addM = false) :
    presHdrEq (processRecord rf addM st rec).pres pres0 ∧
    (processRecord rf addM st rec).rows_added = st.rows_added ∧
    (∀ s' i' r', firstMatch pres0 (pstrip rec.tool) = some (s', i', r') →
      cellsAgreeAt (processRecord rf addM st rec).pres s' i' r' rec) ∧
    (∀ rec1, ¬ pstrip rec1.tool = "" →
      plower (pstrip rec1.tool) ≠ plower (pstrip rec.tool) →
      syncedRec pres0 st.pres rec1 →
      syncedRec pres0 (processRecord rf addM st rec).pres rec1) ∧
    (syncedRec pres0 st.pres rec →
      (processRecord rf addM st rec).updates_made = st.updates_made) := by
  have hne' : (pstrip rec.tool == "") = false := by simpa using hne
  rw [processRecord_notskip rf addM st rec hne']
  have hfmeq : firstMatch st.pres (pstrip rec.tool) = firstMatch pres0 (pstrip rec.tool) :=
    (presHdrEq_search st.pres pres0 hInv).2.2.1 (pstrip rec.tool)
  rcases hfm : firstMatch st.pres (pstrip rec.tool) with _ | sir
  · have hfm0 : firstMatch pres0 (pstrip rec.tool) = none := by rw [← hfmeq, hfm]
    have haddM' : addM = false := by
      rcases haddM with h | h
      · exact absurd hfm0 h
      · exact h
    subst haddM'
    rcases htg : st.target with _ | tg
    · rcases hq : firstQualifying st.pres with _ | q
      · have hp2 : scanSlides rec (pstrip rec.tool) st (List.range st.pres.length) =
            (st, false) := scan_eval_noqual rec (pstrip rec.tool) st hq
        rw [hp2]
        dsimp only
        rw [if_neg (by simp)]
        rw [if_neg (by simp)]
        refine ⟨hInv, rfl, ?_, ?_, fun _ => rfl⟩
        · intro s' i' r' h'
          rw [hfm0] at h'
          exact absurd h' (by simp)
        · intro rec1 _ _ h
          exact h
      · rcases q with ⟨s0, i0⟩
        obtain ⟨hs0, hi0, hdrs0, hh0⟩ := firstQualifying_elim st.pres s0 i0 hq
        have hqtab : (getShape st.pres s0 i0).hasTable = true :=
          (shapeHeaders_some_elim _ _ _ _ hh0).1
        have hp2 : scanSlides rec (pstrip rec.tool) st (List.range st.pres.length) =
            (discState st s0 i0, false) :=
          scan_eval_disc_pass rec (pstrip rec.tool) s0 i0 st htg hq hfm
        rw [hp2]
        dsimp only
        rw [if_neg (by simp)]
        rw [if_neg (by simp)]
        refine ⟨disc_presHdrEq pres0 st s0 i0 hqtab hInv, rfl, ?_, ?_, fun _ => rfl⟩
        · intro s' i' r' h'
          rw [hfm0] at h'
          exact absurd h' (by simp)
        · intro rec1 _ _ h
          exact disc_synced pres0 st s0 i0 hqtab rec1 h
    · have hp2 : scanSlides rec (pstrip rec.tool) st (List.range st.pres.length) =
          (st, false) := scan_eval_pass rec (pstrip rec.tool) tg st htg hfm
      rw [hp2]
      dsimp only
      rw [if_neg (by simp)]
      rw [if_neg (by simp)]
      refine ⟨hInv, rfl, ?_, ?_, fun _ => rfl⟩
      · intro s' i' r' h'
        rw [hfm0] at h'
        exact absurd h' (by simp)
      · intro rec1 _ _ h
        exact h
  · rcases sir with ⟨s, ir⟩
    rcases ir with ⟨i, r⟩
    obtain ⟨-, -, hsfr⟩ := firstMatch_elim st.pres (pstrip rec.tool) s i r hfm
    obtain ⟨hdrs, hh, -⟩ := shapeFindRow_some_elim st.pres s i (pstrip rec.tool) r hsfr
    rcases htg : st.target with _ | tg
    · obtain ⟨q, hq⟩ := firstQualifying_of_match st.pres (pstrip rec.tool) s i r hfm
      rcases q with ⟨s0, i0⟩
      obtain ⟨hs0, hi0, hdrs0, hh0⟩ := firstQualifying_elim st.pres s0 i0 hq
      have hqtab : (getShape st.pres s0 i0).hasTable = true :=
        (shapeHeaders_some_elim _ _ _ _ hh0).1
      have hp2 : scanSlides rec (pstrip rec.tool) st (List.range st.pres.length) =
          (updStateAt rec (discState st s0 i0) s i hdrs r, true) :=
        scan_eval_disc_match rec (pstrip rec.tool) hdrs s0 i0 s i r st htg hq hfm hh
      rw [hp2]
      dsimp only
      rw [if_pos rfl]
      obtain ⟨-, -, hhdrsD, hsfrD, -, -, hfmD', -⟩ := discState_readers st s0 i0 hqtab
      have hInvD : presHdrEq (discState st s0 i0).pres pres0 :=
        disc_presHdrEq pres0 st s0 i0 hqtab hInv
      have hfmD : firstMatch (discState st s0 i0).pres (pstrip rec.tool) = some (s, i, r) := by
        rw [hfmD' (pstrip rec.tool)]
        exact hfm
      have hhD : shapeHeaders (discState st s0 i0).pres s i = some hdrs := by
        rw [hhdrsD s i]
        exact hh
      obtain ⟨cA, cB, cC, cD2⟩ := C4_upd pres0 rec (discState st s0 i0) s i r hdrs
        hInvD hrect hfmD hhD
      refine ⟨cA, rfl, cB, ?_, ?_⟩
      · intro rec1 h1 h2 h3
        exact cC rec1 h1 h2 (disc_synced pres0 st s0 i0 hqtab rec1 h3)
      · intro hsync
        have hsnd := cD2 (disc_synced pres0 st s0 i0 hqtab rec hsync)
        show (discState st s0 i0).updates_made +
          (updateRow (getTbl (discState st s0 i0).pres s i) hdrs rec r).snd = st.updates_made
        rw [hsnd]
        rfl
    · have hp2 : scanSlides rec (pstrip rec.tool) st (List.range st.pres.length) =
          (updStateAt rec st s i hdrs r, true) :=
        scan_eval_match rec (pstrip rec.tool) tg hdrs s i r st htg hfm hh
      rw [hp2]
      dsimp only
      rw [if_pos rfl]
      obtain ⟨cA, cB, cC, cD2⟩ := C4_upd pres0 rec st s i r hdrs hInv hrect hfm hh
      refine ⟨cA, rfl, cB, cC, ?_⟩
      intro hsync
      have hsnd := cD2 hsync
      show st.updates_made + (updateRow (getTbl st.pres s i) hdrs rec r).snd = st.updates_made
      rw [hsnd]
      rfl
lemma keysOf_cons_skip (rec : ExcelRow) (rest : List ExcelRow)
    (h : pstrip rec.tool = "") : keysOf (rec :: rest) = keysOf rest := by
  unfold keysOf
  rw [List.filter_cons, if_neg (by simp [h])]

lemma keysOf_cons_ns (rec : ExcelRow) (rest : List ExcelRow)
    (h : ¬ pstrip rec.tool = "") :
    keysOf (rec :: rest) = plower (pstrip rec.tool) :: keysOf rest := by
  unfold keysOf
  rw [List.filter_cons, if_pos (by simpa using h)]
  rfl

lemma mem_keysOf (rec2 : ExcelRow) (l : List ExcelRow) (h : rec2 ∈ l)
    (hne : ¬ pstrip rec2.tool = "") : plower (pstrip rec2.tool) ∈ keysOf l := by
  unfold keysOf
  exact List.mem_map_of_mem _ (List.mem_filter.mpr ⟨h, by simpa using hne⟩)

/-- Folding the record loop over a base document when every record is
either already present or cannot be appended: the document stays
header-equal to the base, no rows are added, every processed record ends up
agreeing at its match, agreement with disjoint keys survives, and a fold
over already-agreeing records changes nothing. -/
lemma C4_fold (rf : Nat → Bool) (addM : Bool) (pres0 : List Slide) (hrect : rectQ pres0) :
    ∀ (bs : List ExcelRow) (st : SyncState),
      presHdrEq st.pres pres0 →
      (keysOf bs).Nodup →
      (∀ rec ∈ bs, ¬ pstrip rec.tool = "" →
        (¬ firstMatch pres0 (pstrip rec.tool) = none ∨ addM = false)) →
      presHdrEq (bs.foldl (processRecord rf addM) st).pres pres0 ∧
      (bs.foldl (processRecord rf addM) st).rows_added = st.rows_added ∧
      (∀ rec ∈ bs, ¬ pstrip rec.tool = "" →
        syncedRec pres0 (bs.foldl (processRecord rf addM) st).pres rec) ∧
      (∀ rec1, ¬ pstrip rec1.tool = "" →
        (∀ rec2 ∈ bs, ¬ pstrip rec2.tool = "" →
          plower (pstrip rec2.tool) ≠ plower (pstrip rec1.tool)) →
        syncedRec pres0 st.pres rec1 →
        syncedRec pres0 (bs.foldl (processRecord rf addM) st).pres rec1) ∧
      ((∀ rec ∈ bs, ¬ pstrip rec.tool = "" → syncedRec pres0 st.pres rec) →
        (bs.foldl (processRecord rf addM) st).updates_made = st.updates_made) := by
  intro bs
  induction bs with
  | nil =>
    intro st hInv _ _
    exact ⟨hInv, rfl, fun rec h => absurd h (by simp), fun rec1 _ _ h => h, fun _ => rfl⟩
  | cons rec rest ih =>
    intro st hInv hkeys hbs
    rw [List.foldl_cons]
    by_cases hskip : pstrip rec.tool = ""
    · have heq : processRecord rf addM st rec = st := processRecord_skip rf addM st rec hskip
      rw [heq]
      have hkeys' : (keysOf rest).Nodup := by
        rw [keysOf_cons_skip rec rest hskip] at hkeys
        exact hkeys
      obtain ⟨g1, g2, g3, g4, g5⟩ := ih st hInv hkeys'
        (fun rc hrc => hbs rc (List.mem_cons_of_mem rec hrc))
      refine ⟨g1, g2, ?_, ?_, ?_⟩
      · intro rc hrc hnerc
        rcases List.mem_cons.mp hrc with h | h
        · rw [h] at hnerc
          exact absurd hskip hnerc
        · exact g3 rc h hnerc
      · intro rec1 h1 hbar h3
        exact g4 rec1 h1 (fun rec2 h2 => hbar rec2 (List.mem_cons_of_mem rec h2)) h3
      · intro hall
        exact g5 (fun rc hrc => hall rc (List.mem_cons_of_mem rec hrc))
    · obtain ⟨sA, sB, sC, sD, sE⟩ := C4_step rf addM pres0 hrect st rec hInv hskip
        (hbs rec (List.mem_cons_self rec rest) hskip)
      have hkc : keysOf (rec :: rest) = plower (pstrip rec.tool) :: keysOf rest :=
        keysOf_cons_ns rec rest hskip
      rw [hkc] at hkeys
      have hknotin : plower (pstrip rec.tool) ∉ keysOf rest := (List.nodup_cons.mp hkeys).1
      have hkeys' : (keysOf rest).Nodup := (List.nodup_cons.mp hkeys).2
      have hbarrier : ∀ rec2 ∈ rest, ¬ pstrip rec2.tool = "" →
          plower (pstrip rec2.tool) ≠ plower (pstrip rec.tool) := by
        intro rec2 h2 hne2 he
        exact hknotin (he ▸ mem_keysOf rec2 rest h2 hne2)
      obtain ⟨g1, g2, g3, g4, g5⟩ := ih (processRecord rf addM st rec) sA hkeys'
        (fun rc hrc => hbs rc (List.mem_cons_of_mem rec hrc))
      have hsyncrec : syncedRec pres0 (processRecord rf addM st rec).pres rec :=
        fun s' i' r' h' => sC s' i' r' h'
      refine ⟨g1, g2.trans sB, ?_, ?_, ?_⟩
      · intro rc hrc hnerc
        rcases List.mem_cons.mp hrc with h | h
        · rw [h]
          rw [h] at hnerc
          exact g4 rec hskip
            (fun rec2 h2 hne2 => hbarrier rec2 h2 hne2) hsyncrec
        · exact g3 rc h hnerc
      · intro rec1 h1 hbar h3
        refine g4 rec1 h1 (fun rec2 h2 hne2 => hbar rec2 (List.mem_cons_of_mem rec h2) hne2) ?_
        exact sD rec1 h1 (Ne.symm (hbar rec (List.mem_cons_self rec rest) hskip)) h3
      · intro hall
        have hupd1 : (processRecord rf addM st rec).updates_made = st.updates_made :=
          sE (hall rec (List.mem_cons_self rec rest) hskip)
        have hall' : ∀ rc ∈ rest, ¬ pstrip rc.tool = "" →
            syncedRec pres0 (processRecord rf addM st rec).pres rc := by
          intro rc hrc hnerc
          exact sD rc hnerc (hbarrier rc hrc hnerc)
            (hall rc (List.mem_cons_of_mem rec hrc) hnerc)
        rw [g5 hall', hupd1]
/-- Counterexample to claim C4 as stated: two records with the same key both
target the same first-matching row, so the second run still rewrites the
Tool Description cell twice (updates_made = 2, not 0). -/
theorem C4_counterexample :
    (sync_excel_to_ppt (fun _ => false)
        [{ tool := "ToolX", serviceUseCase := "A", requestor := "Bob", status := "Pending" },
         { tool := "ToolX", serviceUseCase := "B", requestor := "Bob", status := "Pending" }]
        ((sync_excel_to_ppt (fun _ => false)
          [{ tool := "ToolX", serviceUseCase := "A", requestor := "Bob", status := "Pending" },
           { tool := "ToolX", serviceUseCase := "B", requestor := "Bob", status := "Pending" }]
          fixPres false).pres)
        false).updates_made = 2 ∧
    ¬ (sync_excel_to_ppt (fun _ => false)
        [{ tool := "ToolX", serviceUseCase := "A", requestor := "Bob", status := "Pending" },
         { tool := "ToolX", serviceUseCase := "B", requestor := "Bob", status := "Pending" }]
        ((sync_excel_to_ppt (fun _ => false)
          [{ tool := "ToolX", serviceUseCase := "A", requestor := "Bob", status := "Pending" },
           { tool := "ToolX", serviceUseCase := "B", requestor := "Bob", status := "Pending" }]
          fixPres false).pres)
        false).updates_made = 0 := by
  constructor
  · decide
  · decide

/-- Claim C4 (amended): with pairwise distinct record keys (after trimming
and lowercasing), rectangular qualifying tables, and every record either
already matching a body row of the original document or appending disabled,
a second run over the document produced by the first run makes zero field
changes, adds zero rows, and leaves every table's row count identical
(the first run adds no rows either). -/
theorem C4_second_run_idempotent (rf : Nat → Bool) (records : List ExcelRow)
    (pres0 : List Slide) (addM : Bool)
    (hkeys : (keysOf records).Nodup)
    (hrect : rectQ pres0)
    (hpresent : ∀ rec ∈ records, ¬ pstrip rec.tool = "" →
      (¬ firstMatch pres0 (pstrip rec.tool) = none ∨ addM = false)) :
    (sync_excel_to_ppt rf records
      (sync_excel_to_ppt rf records pres0 addM).pres addM).updates_made = 0 ∧
    (sync_excel_to_ppt rf records
      (sync_excel_to_ppt rf records pres0 addM).pres addM).rows_added = 0 ∧
    (sync_excel_to_ppt rf records pres0 addM).rows_added = 0 ∧
    rowCounts (sync_excel_to_ppt rf records
      (sync_excel_to_ppt rf records pres0 addM).pres addM).pres =
      rowCounts (sync_excel_to_ppt rf records pres0 addM).pres := by
  obtain ⟨f1, f2, f3, f4, f5⟩ := C4_fold rf addM pres0 hrect records
    { pres := pres0, target := none, updates_made := 0, rows_added := 0,
      not_found_before_adding := 0 } (presHdrEq_refl pres0) hkeys hpresent
  have hpres1 : (sync_excel_to_ppt rf records pres0 addM).pres =
      (records.foldl (processRecord rf addM)
        { pres := pres0, target := none, updates_made := 0, rows_added := 0,
          not_found_before_adding := 0 }).pres := rfl
  have hfmeq : ∀ tool, firstMatch (records.foldl (processRecord rf addM)
      { pres := pres0, target := none, updates_made := 0, rows_added := 0,
        not_found_before_adding := 0 }).pres tool = firstMatch pres0 tool :=
    (presHdrEq_search _ pres0 f1).2.2.1
  have hrect2 : rectQ (records.foldl (processRecord rf addM)
      { pres := pres0, target := none, updates_made := 0, rows_added := 0,
        not_found_before_adding := 0 }).pres :=
    rectQ_of_presHdrEq _ pres0 f1 hrect
  have hpresent2 : ∀ rec ∈ records, ¬ pstrip rec.tool = "" →
      (¬ firstMatch (records.foldl (processRecord rf addM)
        { pres := pres0, target := none, updates_made := 0, rows_added := 0,
          not_found_before_adding := 0 }).pres (pstrip rec.tool) = none ∨ addM = false) := by
    intro rec hrec hne
    rw [hfmeq (pstrip rec.tool)]
    exact hpresent rec hrec hne
  obtain ⟨h1, h2, h3, h4, h5⟩ := C4_fold rf addM
    (records.foldl (processRecord rf addM)
      { pres := pres0, target := none, updates_made := 0, rows_added := 0,
        not_found_before_adding := 0 }).pres hrect2 records
    { pres := (records.foldl (processRecord rf addM)
        { pres := pres0, target := none, updates_made := 0, rows_added := 0,
          not_found_before_adding := 0 }).pres,
      target := none, updates_made := 0, rows_added := 0, not_found_before_adding := 0 }
    (presHdrEq_refl _) hkeys hpresent2
  have hsynced2 : ∀ rec ∈ records, ¬ pstrip rec.tool = "" →
      syncedRec (records.foldl (processRecord rf addM)
        { pres := pres0, target := none, updates_made := 0, rows_added := 0,
          not_found_before_adding := 0 }).pres
        (records.foldl (processRecord rf addM)
          { pres := pres0, target := none, updates_made := 0, rows_added := 0,
            not_found_before_adding := 0 }).pres rec := by
    intro rec hrec hne s i r h
    refine f3 rec hrec hne s i r ?_
    rw [← hfmeq (pstrip rec.tool)]
    exact h
  refine ⟨?_, ?_, f2, ?_⟩
  · show (records.foldl (processRecord rf addM) _).updates_made = 0
    rw [hpres1]
    exact h5 hsynced2
  · show (records.foldl (processRecord rf addM) _).rows_added = 0
    rw [hpres1]
    exact h2
  · show rowCounts (records.foldl (processRecord rf addM) _).pres = _
    rw [hpres1]
    exact rowCounts_eq_of_presHdrEq _ _ h1
lemma fixPres_rectQ : rectQ fixPres := by
  intro s i hsome r hr
  rcases s with _ | s'
  · rcases i with _ | i'
    · have hlen : (getTbl fixPres 0 0).grid.length = 2 := rfl
      rw [hlen] at hr
      have : r = 0 ∨ r = 1 := by omega
      rcases this with h | h
      · rw [h]
        rfl
      · rw [h]
        rfl
    · exfalso
      have hg : getShape fixPres 0 (i' + 1) = dfltShape := by
        show ([fixShape] : List Shape).getD (i' + 1) dfltShape = dfltShape
        exact getD_len_le _ _ (by simp)
      have hn : shapeHeaders fixPres 0 (i' + 1) = none := by
        unfold shapeHeaders
        rw [hg]
        rfl
      rw [hn] at hsome
      exact absurd hsome (by simp)
  · exfalso
    have hg : getShape fixPres (s' + 1) i = dfltShape := by
      show (dfltSlide.shapes).getD i dfltShape = dfltShape
      rfl
    have hn : shapeHeaders fixPres (s' + 1) i = none := by
      unfold shapeHeaders
      rw [hg]
      rfl
    rw [hn] at hsome
    exact absurd hsome (by simp)

/-- Witness for C4 (amended): one record whose key is already present —
the second run changes nothing and adds no rows. -/
theorem C4_second_run_idempotent_witness :
    (keysOf [fixRec]).Nodup ∧
    (sync_excel_to_ppt (fun _ => false) [fixRec]
      (sync_excel_to_ppt (fun _ => false) [fixRec] fixPres true).pres true).updates_made = 0 ∧
    (sync_excel_to_ppt (fun _ => false) [fixRec]
      (sync_excel_to_ppt (fun _ => false) [fixRec] fixPres true).pres true).rows_added = 0 :=
  ⟨by decide,
   (C4_second_run_idempotent (fun _ => false) [fixRec] fixPres true
     (by decide) fixPres_rectQ (by decide)).1,
   (C4_second_run_idempotent (fun _ => false) [fixRec] fixPres true
     (by decide) fixPres_rectQ (by decide)).2.1⟩
